import Mathlib

/-!
# rainy-notification: template model, lifecycle registry and markup compiler

A shallow embedding of `src/notification.hpp` and `src/wintoastlib.cpp`.
Wide strings are `String`, `std::size_t` counters are `Nat` (no operation of
the embedded code can take them near `2^64`), `std::int64_t` is `Int`.
Definitions come first, theorems follow.
-/

namespace rainy

/-! ## Template model (`notification.hpp`) -/

/-- The table `internals::text_fields_count` of `notification.hpp`. -/
def internals.text_fields_count : List Nat := [1, 2, 2, 3, 1, 2, 2, 3]

/-- The enumeration `notification_template_type`, in declared order. -/
inductive notification_template_type where
  | image_and_text01
  | image_and_text02
  | image_and_text03
  | image_and_text04
  | text01
  | text02
  | text03
  | text04
  deriving DecidableEq, Repr

/-- Modelled from the spec: the numeric values of the enumerators are those of the
platform enumeration `ToastTemplateType`, which is not part of the sources; the spec
fixes them as the positions 0..7 of the kinds in declared order. This is the value
that `static_cast<std::size_t>(template_type_)` yields. -/
def notification_template_type.toNat : notification_template_type → Nat
  | .image_and_text01 => 0
  | .image_and_text02 => 1
  | .image_and_text03 => 2
  | .image_and_text04 => 3
  | .text01 => 4
  | .text02 => 5
  | .text03 => 6
  | .text04 => 7

/-- The eight template kinds in declared order. -/
def notification_template_type.declared : List notification_template_type :=
  [.image_and_text01, .image_and_text02, .image_and_text03, .image_and_text04,
   .text01, .text02, .text03, .text04]

/-- The enumeration `notification_template::duration_t`. -/
inductive duration_t where
  | system
  | short_duration
  | long_duration
  deriving DecidableEq, Repr

/-- The enumeration `notification_template::audio_option_t`. -/
inductive audio_option_t where
  | default_option
  | silent
  | loop
  deriving DecidableEq, Repr

/-- The enumeration `notification_template::textfield`. -/
inductive textfield where
  | first_line
  | second_line
  | third_line
  deriving DecidableEq, Repr

/-- The value of `static_cast<std::size_t>(pos)` for a `textfield`. -/
def textfield.toNat : textfield → Nat
  | .first_line => 0
  | .second_line => 1
  | .third_line => 2

/-- The enumeration `notification_template::crop_hint`. -/
inductive crop_hint where
  | square
  | circle
  deriving DecidableEq, Repr

/-- The enumeration `notification_template::scenario_t`. -/
inductive scenario_t where
  | normal
  | alarm
  | incoming_call
  | reminder
  deriving DecidableEq, Repr

/-- The class `notification_template::actions_t`: a counter and a five-slot array of
labels (`std::array<std::wstring_view, 5>`). The back pointer `this_` is only read for
`this_->has_input()`; that value is passed to `add_action` by the owning template. -/
structure actions_t where
  actions_count_ : Nat
  data : List String
  deriving DecidableEq, Repr

namespace actions_t

/-- The freshly constructed action list: `actions_count_{0}`, `data{}`. -/
def init : actions_t := ⟨0, List.replicate 5 ""⟩

/-- The getter `actions_t::action_label(pos)`, that is `data.at(pos)`. -/
def action_label (a : actions_t) (pos : Nat) : String := a.data.getD pos ""

/-- The overload `actions_t::add_action(std::wstring_view)`; `this_has_input` is the value of
`this_->has_input()`. -/
def add_action (a : actions_t) (this_has_input : Bool) (label : String) : actions_t :=
  if (!this_has_input) && a.actions_count_ != 5 then
    { actions_count_ := a.actions_count_ + 1, data := a.data.set a.actions_count_ label }
  else a

/-- The overload `actions_t::add_action(std::initializer_list<std::wstring_view>)`: the loop
stops at the first label met with five stored actions. -/
def add_action_ilist (a : actions_t) : List String → actions_t
  | [] => a
  | label :: rest =>
    if a.actions_count_ == 5 then a
    else add_action_ilist
      { actions_count_ := a.actions_count_ + 1, data := a.data.set a.actions_count_ label } rest

/-- The query `actions_t::empty()`. -/
def empty (a : actions_t) : Bool := a.actions_count_ == 0

/-- The query `actions_t::count()`. -/
def count (a : actions_t) : Nat := a.actions_count_

/-- The loop of `remove_action`: `data[i] = data[i + 1]` for `steps` consecutive values of
`i`, starting at the given one. -/
def shift_left (data : List String) (i : Nat) : Nat → List String
  | 0 => data
  | steps + 1 => shift_left (data.set i (data.getD (i + 1) "")) (i + 1) steps

/-- The method `actions_t::remove_action(pos)`: the returned flag and the new state. The loop
`for (i = pos; i < actions_count_ - 1; ++i)` runs `actions_count_ - 1 - pos` times. -/
def remove_action (a : actions_t) (pos : Nat) : Bool × actions_t :=
  if pos ≥ a.actions_count_ then (false, a)
  else
    (true, { actions_count_ := a.actions_count_ - 1,
             data := shift_left a.data pos (a.actions_count_ - 1 - pos) })

/-- The method `actions_t::clear()`. -/
def clear (a : actions_t) : actions_t := { a with actions_count_ := 0 }

/-- The method `actions_t::set_action_label(pos, label)`. -/
def set_action_label (a : actions_t) (pos : Nat) (label : String) : Bool × actions_t :=
  if pos ≥ a.actions_count_ then (false, a)
  else (true, { a with data := a.data.set pos label })

/-- The stored labels `l_0 .. l_{n-1}`: the first `actions_count_` slots of the array. -/
def labels (a : actions_t) : List String := a.data.take a.actions_count_

/-- The representation invariant of the class: five slots, at most five in use. -/
def wf (a : actions_t) : Prop := a.data.length = 5 ∧ a.actions_count_ ≤ 5

instance (a : actions_t) : Decidable a.wf := by
  unfold wf
  exact inferInstance

end actions_t

/-- The class `notification_template` (private data members and the public `actions`). -/
structure notification_template where
  actions : actions_t
  has_input_ : Bool
  inline_hero_image : Bool
  expiration_ : Int
  text_fields_ : List String
  image_path_ : String
  hero_image_path_ : String
  audio_path_ : String
  attribution_text_ : String
  scenario_ : String
  audio_option_ : audio_option_t
  template_type_ : notification_template_type
  duration_ : duration_t
  crop_hint_ : crop_hint
  deriving DecidableEq, Repr

namespace notification_template

/-- The constructor `notification_template(notification_template_type type)` with the default
member initialisers. -/
def mk_type (type : notification_template_type) : notification_template :=
  { actions := actions_t.init
    has_input_ := false
    inline_hero_image := false
    expiration_ := 0
    text_fields_ := List.replicate 3 ""
    image_path_ := ""
    hero_image_path_ := ""
    audio_path_ := ""
    attribution_text_ := ""
    scenario_ := "Default"
    audio_option_ := .default_option
    template_type_ := type
    duration_ := .system
    crop_hint_ := .square }

/-- The default constructor, which delegates with `text01`. -/
def mk_default : notification_template := mk_type .text01

/-- The member `set_text_field(text, pos)`: the guard compares the table entry of the kind
with the position by `<`. -/
def set_text_field (t : notification_template) (text : String) (pos : textfield) :
    notification_template :=
  let position := pos.toNat
  if internals.text_fields_count.getD t.template_type_.toNat 0 < position then t
  else { t with text_fields_ := t.text_fields_.set position text }

/-- The member `set_first_line`. -/
def set_first_line (t : notification_template) (text : String) : notification_template :=
  t.set_text_field text .first_line

/-- The member `set_second_line`. -/
def set_second_line (t : notification_template) (text : String) : notification_template :=
  t.set_text_field text .second_line

/-- The member `set_third_line`. -/
def set_third_line (t : notification_template) (text : String) : notification_template :=
  t.set_text_field text .third_line

/-- The setter `attribution_text(text)`. -/
def set_attribution_text (t : notification_template) (text : String) : notification_template :=
  { t with attribution_text_ := text }

/-- The setter `image_path(img_path, crop_hint)`. -/
def set_image_path (t : notification_template) (img_path : String) (hint : crop_hint) :
    notification_template :=
  { t with image_path_ := img_path, crop_hint_ := hint }

/-- The setter `hero_image_path(img_path, inline_image)`. -/
def set_hero_image_path (t : notification_template) (img_path : String) (inline_image : Bool) :
    notification_template :=
  { t with hero_image_path_ := img_path, inline_hero_image := inline_image }

/-- The setter `audio_path(std::wstring_view)`. -/
def set_audio_path (t : notification_template) (path : String) : notification_template :=
  { t with audio_path_ := path }

/-- The setter `audio_option(audio_option_t)`. -/
def set_audio_option (t : notification_template) (o : audio_option_t) : notification_template :=
  { t with audio_option_ := o }

/-- The setter `scenario(scenario_t)`. -/
def set_scenario (t : notification_template) (s : scenario_t) : notification_template :=
  match s with
  | .normal => { t with scenario_ := "Default" }
  | .alarm => { t with scenario_ := "Alarm" }
  | .incoming_call => { t with scenario_ := "IncomingCall" }
  | .reminder => { t with scenario_ := "Reminder" }

/-- The setter `expiration(milliseconds_from_now)`. -/
def set_expiration (t : notification_template) (milliseconds_from_now : Int) :
    notification_template :=
  { t with expiration_ := milliseconds_from_now }

/-- The setter `duration(duration_t)`. -/
def set_duration (t : notification_template) (d : duration_t) : notification_template :=
  { t with duration_ := d }

/-- The member `toggle_input(enable)`: the body does not read `enable`. -/
def toggle_input (t : notification_template) (_enable : Bool) : notification_template :=
  if t.actions.empty then { t with has_input_ := true } else t

/-- The query `has_input()`. -/
def has_input (t : notification_template) : Bool := t.has_input_

/-- The query `template_type()`. -/
def template_type (t : notification_template) : notification_template_type := t.template_type_

/-- The query `text_fields_count()`. -/
def text_fields_count (t : notification_template) : Nat :=
  internals.text_fields_count.getD t.template_type.toNat 0

/-- The query `has_image()`: `template_type_ < notification_template_type::text01`. -/
def has_image (t : notification_template) : Bool :=
  t.template_type_.toNat < notification_template_type.text01.toNat

/-- The query `has_hero_image()`. -/
def has_hero_image (t : notification_template) : Bool := !t.hero_image_path_.isEmpty

/-- The query `text_field(pos)`, that is `text_fields_.at(pos)`. -/
def text_field (t : notification_template) (pos : Nat) : String := t.text_fields_.getD pos ""

/-- The query `is_toast_generic()`. -/
def is_toast_generic (t : notification_template) : Bool :=
  t.has_hero_image || t.crop_hint_ == .circle

/-- The query `is_inline_hero_image()`. -/
def is_inline_hero_image (t : notification_template) : Bool := t.inline_hero_image

/-- The query `is_crop_hint_circle()`. -/
def is_crop_hint_circle (t : notification_template) : Bool := t.crop_hint_ == .circle

/-- The call `actions.add_action(label)` on the template that owns the action list. -/
def add_action (t : notification_template) (label : String) : notification_template :=
  { t with actions := t.actions.add_action t.has_input label }

/-- The call `actions.add_action({...})` on the template that owns the action list. -/
def add_action_ilist (t : notification_template) (ilist : List String) : notification_template :=
  { t with actions := t.actions.add_action_ilist ilist }

end notification_template

/-! ## The markup document (the platform XML DOM as used by `wintoastlib.cpp`) -/

/-- The result codes used by the compiler: `S_OK` and `E_FAIL`. -/
inductive HRESULT where
  | S_OK
  | E_FAIL
  deriving DecidableEq, Repr

/-- The test `SUCCEEDED(hr)`. -/
def SUCCEEDED (hr : HRESULT) : Bool := hr == .S_OK

/-- The call `winrt::check_hresult(hr)`: throws on a failed code. -/
def check_hresult (hr : HRESULT) : Except HRESULT Unit :=
  if SUCCEEDED hr then .ok () else .error hr

/-- A sequence of sibling DOM nodes in document order. An element carries its tag, its
attributes (name and value, the value being the concatenated text of the attribute node),
its child sequence and the siblings that follow it. -/
inductive XmlNodes where
  | nil
  | element (tag : String) (attributes : List (String × String)) (children : XmlNodes)
      (next : XmlNodes)
  | text (data : String) (next : XmlNodes)
  deriving DecidableEq, Repr

/-- One element node: tag, attributes and children. -/
structure XmlElement where
  tag : String
  attributes : List (String × String)
  children : XmlNodes
  deriving DecidableEq, Repr

namespace XmlNodes

/-- The node sequence with the nodes of a second sequence appended after the last sibling. -/
def append : XmlNodes → XmlNodes → XmlNodes
  | .nil, ys => ys
  | .element tg attrs ch nx, ys => .element tg attrs ch (append nx ys)
  | .text d nx, ys => .text d (append nx ys)

/-- The call `GetElementsByTagName(tag)` on a document: the elements with that tag among the
nodes and their descendants, in document order. `Size()` is the length of the list. -/
def get_elements_by_tag_name (tag : String) : XmlNodes → List XmlElement
  | .nil => []
  | .element tg attrs ch nx =>
    (if tg = tag then [(⟨tg, attrs, ch⟩ : XmlElement)] else []) ++
      (get_elements_by_tag_name tag ch ++ get_elements_by_tag_name tag nx)
  | .text _ nx => get_elements_by_tag_name tag nx

end XmlNodes

namespace XmlElement

/-- The element as a node followed by the given siblings. -/
def to_nodes (e : XmlElement) (next : XmlNodes) : XmlNodes :=
  .element e.tag e.attributes e.children next

/-- The call `CreateElement(name)`. -/
def create (name : String) : XmlElement := ⟨name, [], .nil⟩

/-- The call `Attributes().GetNamedItem(name)`: the value of the attribute node, when there
is one. -/
def get_named_item (e : XmlElement) (name : String) : Option String :=
  (e.attributes.find? (fun a => a.1 == name)).map (fun a => a.2)

/-- Storing an attribute in an attribute list: an attribute of the same name is replaced in
place, a new one goes to the end. -/
def set_in : List (String × String) → String → String → List (String × String)
  | [], name, value => [(name, value)]
  | a :: rest, name, value =>
    if a.1 == name then (name, value) :: rest else a :: set_in rest name value

/-- The call `SetAttribute(name, value)`. -/
def set_attribute (e : XmlElement) (name value : String) : XmlElement :=
  { e with attributes := set_in e.attributes name value }

/-- The call `AppendChild(child)` with an element as the child. -/
def append_child (e : XmlElement) (child : XmlElement) : XmlElement :=
  { e with children := e.children.append (child.to_nodes .nil) }

/-- The call `AppendChild(text_node)` on an element, as `util::set_node_string_value` does it on
an element node. -/
def append_text (e : XmlElement) (s : String) : XmlElement :=
  { e with children := e.children.append (.text s .nil) }

/-- The helper `util::set_node_string_value` on the attribute node `name` of the element: the
created text node is appended to the attribute node, whose value is the text of its children. -/
def append_attribute_text (e : XmlElement) (name s : String) : XmlElement :=
  { e with attributes := e.attributes.map (fun a => if a.1 == name then (a.1, a.2 ++ s) else a) }

/-- The helper `util::add_attribute`: `CreateAttribute(name)` followed by `SetNamedItem`. -/
def add_attribute (e : XmlElement) (name : String) : XmlElement :=
  e.set_attribute name ""

end XmlElement

namespace XmlNodes

/-- A mutation through `GetElementsByTagName(tag).GetAt(k)`: the element at position `k` of
the list is replaced by its image under `f`; nothing changes when the list is shorter. -/
def modify_nth (tag : String) (f : XmlElement → XmlElement) : Nat → XmlNodes → XmlNodes
  | _, .nil => .nil
  | k, .text d nx => .text d (modify_nth tag f k nx)
  | k, .element tg attrs ch nx =>
    let inside := (get_elements_by_tag_name tag ch).length
    if tg = tag then
      match k with
      | 0 => (f ⟨tg, attrs, ch⟩).to_nodes nx
      | j + 1 =>
        if j < inside then .element tg attrs (modify_nth tag f j ch) nx
        else .element tg attrs ch (modify_nth tag f (j - inside) nx)
    else
      if k < inside then .element tg attrs (modify_nth tag f k ch) nx
      else .element tg attrs ch (modify_nth tag f (k - inside) nx)

end XmlNodes

/-! ## The markup compiler (`utility::xml_notifcation_field`, `wintoastlib.cpp`) -/

/-- The helper `util::create_element(xml, root_node, element_name, attribute_names)`: a new
element with the named attributes (all empty) becomes the last child of the first element
tagged `root_node`; `E_FAIL` when there is no such element. -/
def util.create_element (xml : XmlNodes) (root_node element_name : String)
    (attribute_names : List String) : HRESULT × XmlNodes :=
  if (xml.get_elements_by_tag_name root_node).length > 0 then
    let audio_element :=
      attribute_names.foldl (fun e a => XmlElement.add_attribute e a) (XmlElement.create element_name)
    (.S_OK, xml.modify_nth root_node (fun root => root.append_child audio_element) 0)
  else (.E_FAIL, xml)

/-- The class `xml_notifcation_field::context_bridge`: the three capability bits packed in
`option`. -/
structure context_bridge where
  option : Nat
  deriving DecidableEq, Repr

namespace context_bridge

/-- The constant `state::is_supporting_modern_features`. -/
def state.is_supporting_modern_features : Nat := 2

/-- The constant `state::is_enable_modern_features`. -/
def state.is_enable_modern_features : Nat := 4

/-- The constant `state::is_win10_anniversary_or_higher`. -/
def state.is_win10_anniversary_or_higher : Nat := 8

/-- The constructor `context_bridge(context)`, given the three answers of the context. -/
def make (supporting_modern enable_modern win10_anniversary : Bool) : context_bridge :=
  let o0 := 0
  let o1 := if supporting_modern then o0 ||| state.is_supporting_modern_features else o0
  let o2 := if enable_modern then o1 ||| state.is_enable_modern_features else o1
  let o3 := if win10_anniversary then o2 ||| state.is_win10_anniversary_or_higher else o2
  ⟨o3⟩

/-- The getter `is_supporting_modern_features()`. -/
def is_supporting_modern_features (c : context_bridge) : Bool :=
  c.option &&& state.is_supporting_modern_features != 0

/-- The getter `is_enable_modern_features()`. -/
def is_enable_modern_features (c : context_bridge) : Bool :=
  c.option &&& state.is_enable_modern_features != 0

/-- The getter `is_win10_anniversary_or_higher()`. -/
def is_win10_anniversary_or_higher (c : context_bridge) : Bool :=
  c.option &&& state.is_win10_anniversary_or_higher != 0

end context_bridge

namespace xml_notifcation_field

/-- Modelled from the spec: the name the platform gives the binding of each template kind
(the platform call `GetTemplateContent` is not part of the sources). -/
def template_name : notification_template_type → String
  | .image_and_text01 => "ToastImageAndText01"
  | .image_and_text02 => "ToastImageAndText02"
  | .image_and_text03 => "ToastImageAndText03"
  | .image_and_text04 => "ToastImageAndText04"
  | .text01 => "ToastText01"
  | .text02 => "ToastText02"
  | .text03 => "ToastText03"
  | .text04 => "ToastText04"

/-- Modelled from the spec: the text slots `id = first .. first + count - 1` of a base
skeleton, each an empty `text` element. -/
def skeleton_texts (first : Nat) : Nat → XmlNodes
  | 0 => .nil
  | count + 1 => .element "text" [("id", toString first)] .nil (skeleton_texts (first + 1) count)

/-- Modelled from the spec: the base skeleton that the platform call `GetTemplateContent`
returns for a template kind (the call is not part of the sources): root `toast`, child
`visual`, grandchild `binding`; under the binding one `image` slot with an empty `src` when
the kind has an image slot, followed by as many `text` slots as the kind has lines. -/
def get_template_content (type : notification_template_type) : XmlNodes :=
  let texts := skeleton_texts 1 (internals.text_fields_count.getD type.toNat 0)
  let slots :=
    if type.toNat < notification_template_type.text01.toNat then
      XmlNodes.element "image" [("id", "1"), ("src", "")] .nil texts
    else texts
  .element "toast" []
    (.element "visual" [] (.element "binding" [("template", template_name type)] slots .nil) .nil)
    .nil

/-- The member `set_bind_toast_generic()`. -/
def set_bind_toast_generic (xml : XmlNodes) : HRESULT × XmlNodes :=
  if (xml.get_elements_by_tag_name "binding").length > 0 then
    (.S_OK, xml.modify_nth "binding" (fun e => e.set_attribute "template" "ToastGeneric") 0)
  else (.E_FAIL, xml)

/-- The member `set_text_field(text, pos)`. -/
def set_text_field (xml : XmlNodes) (text : String) (pos : Nat) : HRESULT × XmlNodes :=
  if (xml.get_elements_by_tag_name "text").length > pos then
    (.S_OK, xml.modify_nth "text" (fun e => e.append_text text) pos)
  else (.E_FAIL, xml)

/-- The search loop of `set_attribution_text_field`: the index of the first node of the list
that has a `placement` attribute, counting from `i`. -/
def find_placement : List XmlElement → Nat → Option Nat
  | [], _ => none
  | e :: rest, i =>
    if (e.get_named_item "placement").isSome then some i else find_placement rest (i + 1)

/-- The member `set_attribution_text_field(text)`. -/
def set_attribution_text_field (xml : XmlNodes) (text : String) : HRESULT × XmlNodes :=
  let xml1 := (util.create_element xml "binding" "text" ["placement"]).2
  match find_placement (xml1.get_elements_by_tag_name "text") 0 with
  | some i =>
    set_text_field
      (xml1.modify_nth "text" (fun e => e.append_attribute_text "placement" "attribution") i) text i
  | none => (.S_OK, xml1)

/-- The member `add_duration(duration)`. -/
def add_duration (xml : XmlNodes) (duration : String) : HRESULT × XmlNodes :=
  if (xml.get_elements_by_tag_name "toast").length > 0 then
    (.S_OK, xml.modify_nth "toast" (fun e => e.set_attribute "duration" duration) 0)
  else (.S_OK, xml)

/-- The member `add_scenario(scenario)`. -/
def add_scenario (xml : XmlNodes) (scenario : String) : HRESULT × XmlNodes :=
  if (xml.get_elements_by_tag_name "toast").length > 0 then
    (.S_OK, xml.modify_nth "toast" (fun e => e.set_attribute "scenario" scenario) 0)
  else (.S_OK, xml)

/-- The member `add_input()`. -/
def add_input (xml : XmlNodes) : HRESULT × XmlNodes :=
  let xml1 := (util.create_element xml "toast" "actions" []).2
  let xml2 := (util.create_element xml1 "actions" "input" ["id", "type", "placeHolderContent"]).2
  let xml3 := (util.create_element xml2 "actions" "action" ["content", "arguments"]).2
  let xml4 :=
    if (xml3.get_elements_by_tag_name "input").length > 0 then
      xml3.modify_nth "input"
        (fun e => ((e.set_attribute "id" "textBox").set_attribute "type" "text").set_attribute
          "placeHolderContent" "...") 0
    else xml3
  let xml5 :=
    if (xml4.get_elements_by_tag_name "action").length > 0 then
      xml4.modify_nth "action"
        (fun e => ((e.set_attribute "content" "Reply").set_attribute "arguments"
          "action=reply").set_attribute "hint-inputId" "textBox") 0
    else xml4
  (.S_OK, xml5)

/-- The member `add_action(content, arguments)`. -/
def add_action (xml : XmlNodes) (content arguments : String) : HRESULT × XmlNodes :=
  let action_element :=
    ((XmlElement.create "action").set_attribute "content" content).set_attribute "arguments"
      arguments
  if (xml.get_elements_by_tag_name "actions").length > 0 then
    (.S_OK, xml.modify_nth "actions" (fun actions_node => actions_node.append_child action_element) 0)
  else if (xml.get_elements_by_tag_name "toast").length > 0 then
    (.S_OK, xml.modify_nth "toast"
      (fun toast_element =>
        ((toast_element.set_attribute "template" "ToastGeneric").set_attribute "duration"
          "long").append_child ((XmlElement.create "actions").append_child action_element)) 0)
  else (.S_OK, xml)

/-- The member `set_audio_field(path, option)`. -/
def set_audio_field (xml : XmlNodes) (path : String) (option : audio_option_t) :
    HRESULT × XmlNodes :=
  let attrs :=
    (if !path.isEmpty then ["src"] else []) ++
    (if option == .loop then ["loop"] else []) ++
    (if option == .silent then ["silent"] else [])
  let xml1 := (util.create_element xml "toast" "audio" attrs).2
  if (xml1.get_elements_by_tag_name "audio").length > 0 then
    (.S_OK, xml1.modify_nth "audio"
      (fun node =>
        let node1 := if !path.isEmpty then node.append_attribute_text "src" path else node
        match option with
        | .loop => node1.append_attribute_text "loop" "true"
        | .silent => node1.append_attribute_text "silent" "true"
        | .default_option => node1) 0)
  else (.S_OK, xml1)

/-- The constant `MAX_PATH` of the platform headers. -/
def MAX_PATH : Nat := 260

/-- The value of `size()` of a wide string: the number of its 16-bit `wchar_t` units (a
character outside the basic plane takes two). -/
def wide_size (s : String) : Nat :=
  (s.data.map (fun c => if c.toNat < 65536 then 1 else 2)).sum

/-- The characters that `operator+=` reads through the pointer `path.data()`: the characters of
the string before its first NUL character (the pointer comes from a `std::wstring`, which ends
in a NUL). -/
def c_string (s : String) : String := String.mk (s.data.takeWhile (fun c => c != Char.ofNat 0))

/-- The assertion `assert(path.size() < MAX_PATH)` at the head of `set_image_field`; when it
fails, a build with assertions aborts. -/
def set_image_field_assertion (path : String) : Bool := decide (wide_size path < MAX_PATH)

/-- The member `set_image_field(path, is_toast_generic, is_crop_hint_circle)`, for a path that
passes `set_image_field_assertion` (or in a build without assertions). The statement
`image_path += path.data()` appends the path as a C string. -/
def set_image_field (xml : XmlNodes) (path : String) (is_toast_generic is_crop_hint_circle : Bool) :
    HRESULT × XmlNodes :=
  let image_path := "file:///" ++ c_string path
  if (xml.get_elements_by_tag_name "image").length > 0 then
    (.S_OK, xml.modify_nth "image"
      (fun image_element =>
        let e1 :=
          if is_toast_generic then
            let e0 := image_element.set_attribute "placement" "app_logo_override"
            if is_crop_hint_circle then e0.set_attribute "hint_crop" "circle" else e0
          else image_element
        e1.append_attribute_text "src" image_path) 0)
  else (.S_OK, xml)

/-- The member `set_hero_image(path, is_inline_image)`. -/
def set_hero_image (xml : XmlNodes) (path : String) (is_inline_image : Bool) : HRESULT × XmlNodes :=
  if (xml.get_elements_by_tag_name "binding").length > 0 then
    let image_element0 := XmlElement.create "image"
    let image_element1 :=
      if !is_inline_image then image_element0.set_attribute "placement" "hero" else image_element0
    let image_element := image_element1.set_attribute "src" path
    (.S_OK, xml.modify_nth "binding" (fun binding_node => binding_node.append_child image_element) 0)
  else (.E_FAIL, xml)

/-- The loop `for (i = 0; i < fields_count && SUCCEEDED(hr); i++) hr = set_text_field(...)` of
the constructor, with `steps = fields_count - i` iterations left. -/
def text_fields_loop (t : notification_template) : Nat → Nat → HRESULT × XmlNodes →
    HRESULT × XmlNodes
  | _, 0, st => st
  | i, steps + 1, (hr, xml) =>
    if SUCCEEDED hr then text_fields_loop t (i + 1) steps (set_text_field xml (t.text_field i) i)
    else (hr, xml)

/-- The formatting `_snwprintf_s(buf.data(), buf.size(), _TRUNCATE, L"%zd", i)` into the buffer
of 12 wide characters: the decimal digits of `i`, cut to 11 characters. -/
def format_index (i : Nat) : String := (toString i).take 11

/-- The loop over the action labels in the constructor, with `steps = actions_count - i`
iterations left; `winrt::check_hresult(hr)` ends each iteration. -/
def actions_loop (t : notification_template) : Nat → Nat → HRESULT × XmlNodes →
    Except HRESULT (HRESULT × XmlNodes)
  | _, 0, st => .ok st
  | i, steps + 1, (hr, xml) =>
    if SUCCEEDED hr then
      let r := add_action xml (t.actions.action_label i) (format_index i)
      match check_hresult r.1 with
      | .ok _ => actions_loop t (i + 1) steps r
      | .error e => .error e
    else .ok (hr, xml)

/-- The part of the constructor guarded by
`ctx_bridge.is_supporting_modern_features() && ctx_bridge.is_enable_modern_features()`. -/
def modern_features (t : notification_template) (st : HRESULT × XmlNodes) :
    Except HRESULT (HRESULT × XmlNodes) := do
  let st1 :=
    if !t.attribution_text_.isEmpty then set_attribution_text_field st.2 t.attribution_text_
    else st
  let st2 ←
    if t.has_input && t.actions.count != 0 then
      pure (add_input st1.2)
    else do
      let st_a ← actions_loop t 0 t.actions.count st1
      let st_b := if t.has_input then add_input st_a.2 else st_a
      check_hresult st_b.1
      pure st_b
  let st3 :=
    if t.audio_path_.isEmpty && t.audio_option_ == .default_option then st2
    else set_audio_field st2.2 t.audio_path_ t.audio_option_
  check_hresult st3.1
  let st4 :=
    if t.duration_ != .system then
      add_duration st3.2 (if t.duration_ == .short_duration then "short" else "long")
    else st3
  check_hresult st4.1
  pure (add_scenario st4.2 t.scenario_)

/-- The constructor `xml_notifcation_field(ctx_bridge, notifcation_template)`: the compiled
document, or the code thrown by `winrt::check_hresult`. The flag `is_win10_anniversary_or_above`
is the answer of the static probe `notification::is_win10_anniversary_or_higher()`. -/
def compile (ctx_bridge : context_bridge) (is_win10_anniversary_or_above : Bool)
    (t : notification_template) : Except HRESULT XmlNodes := do
  let xml := get_template_content t.template_type
  let st0 : HRESULT × XmlNodes :=
    if t.is_toast_generic then set_bind_toast_generic xml else (.S_OK, xml)
  let st1 := text_fields_loop t 0 t.text_fields_count st0
  check_hresult st1.1
  let st2 ←
    if ctx_bridge.is_supporting_modern_features && ctx_bridge.is_enable_modern_features then
      modern_features t st1
    else pure st1
  check_hresult st2.1
  let is_circle_crop_hint := if is_win10_anniversary_or_above then t.is_crop_hint_circle else false
  let st3 :=
    if t.has_image then set_image_field st2.2 t.image_path_ t.is_toast_generic is_circle_crop_hint
    else st2
  check_hresult st3.1
  let st4 :=
    if is_win10_anniversary_or_above && t.has_hero_image then
      set_hero_image st3.2 t.hero_image_path_ t.is_inline_hero_image
    else st3
  check_hresult st4.1
  pure st4.2

end xml_notifcation_field

/-! ## The lifecycle registry and the service (`class notification`) -/

/-- The enumeration `notification_error`. -/
inductive notification_error where
  | no_error
  | not_initialized
  | system_not_supported
  | shell_link_not_created
  | invalid_app_user_model_id
  | invalid_parameters
  | invalid_handler
  | not_displayed
  | unknown_error
  deriving DecidableEq, Repr

/-- The enumeration `notification_handler::dismissal_reason`. -/
inductive dismissal_reason where
  | user_canceled
  | application_hidden
  | timed_out
  deriving DecidableEq, Repr

/-- One call of a member of `notification_handler`. -/
inductive handler_call where
  | activated
  | activated_idx (action_idx : Int)
  | activated_reply (response : String)
  | dismissed (state : dismissal_reason)
  | failed
  deriving DecidableEq, Repr

/-- The enumeration `utility::shortcut_policy`. -/
inductive shortcut_policy where
  | ignore
  | require_no_create
  | require_create
  deriving DecidableEq, Repr

/-- One call made to the platform on behalf of a notification. A native notification object
is named by a number; `Activated_remove h token` is the unsubscribing call
`_notify.Activated(token)` on the object `h`, and likewise for the other two events. -/
inductive platform_call where
  | Activated_remove (handle : Nat) (token : Int)
  | Dismissed_remove (handle : Nat) (token : Int)
  | Failed_remove (handle : Nat) (token : Int)
  | Hide (handle : Option Nat)
  | ExpirationTime (handle : Nat) (expiration_time : Int)
  | subscribe (handle : Nat) (expiration_time : Int) (id : Int)
  | Show (handle : Nat)
  deriving DecidableEq, Repr

/-- The struct `notification::notify`. The member `_notify` is the native handle; `none` is
the null handle of the default member initialiser. -/
structure notify where
  _notify : Option Nat
  _activated_token : Int
  _dismissed_token : Int
  _failed_token : Int
  _ready_for_deletion : Bool
  _previously_token_removed : Bool
  deriving DecidableEq, Repr

namespace notify

/-- The four-argument constructor of `notify`. -/
def make (handle : Option Nat) (activated_token dismissed_token failed_token : Int) : notify :=
  ⟨handle, activated_token, dismissed_token, failed_token, false, false⟩

/-- The member `notify::remove_tokens()`: the entry afterwards and the platform calls made. -/
def remove_tokens (n : notify) : notify × List platform_call :=
  if !n._ready_for_deletion then (n, [])
  else if n._previously_token_removed then (n, [])
  else
    match n._notify with
    | none => (n, [])
    | some h =>
      ({ n with _previously_token_removed := true },
       [.Activated_remove h n._activated_token, .Dismissed_remove h n._dismissed_token,
        .Failed_remove h n._failed_token])

/-- The destructor `notify::~notify()`, which calls `remove_tokens()`: the platform calls made. -/
def destroy (n : notify) : List platform_call := n.remove_tokens.2

/-- The member `notify::mark_as_ready_for_deletion()`. -/
def mark_as_ready_for_deletion (n : notify) : notify := { n with _ready_for_deletion := true }

/-- The member `notify::is_ready_for_deletion()`. -/
def is_ready_for_deletion (n : notify) : Bool := n._ready_for_deletion

/-- The member `notify::notification()`. -/
def notification (n : notify) : Option Nat := n._notify

end notify

/-- The lookup `std::map::find(k)` on a map kept as a key-sorted list of entries. -/
def map_find {β : Type} (m : List (Int × β)) (k : Int) : Option β :=
  (m.find? (fun e => e.1 == k)).map (fun e => e.2)

/-- The insertion `std::map::emplace(k, v)` / `insert({k, v})`: nothing changes when the key is
already present. -/
def map_emplace {β : Type} : List (Int × β) → Int → β → List (Int × β)
  | [], k, v => [(k, v)]
  | e :: rest, k, v =>
    if k < e.1 then (k, v) :: e :: rest
    else if k = e.1 then e :: rest
    else e :: map_emplace rest k v

/-- The removal `std::map::erase` of the entry with key `k`. -/
def map_erase {β : Type} (m : List (Int × β)) (k : Int) : List (Int × β) :=
  m.filter (fun e => e.1 != k)

/-- The keys of a `std::map` are strictly increasing. -/
def map_sorted {β : Type} (m : List (Int × β)) : Prop :=
  m.Pairwise (fun a b => a.1 < b.1)

/-- The class `notification`: its data members, and the file-static map `toast_mapper` of
`wintoastlib.cpp` (id to native notification object). -/
structure notification where
  is_initialized_ : Bool
  has_winrt_initialized_ : Bool
  enable_modern_features_ : Bool
  shortcut_policy_ : shortcut_policy
  appname_ : String
  aumi_ : String
  notifys : List (Int × notify)
  toast_mapper : List (Int × Nat)
  deriving DecidableEq, Repr

/-- What the platform supplies during one call of `show_impl`: the two operating-system
probes, the clock reading, the first field of the generated GUID (an unsigned 32-bit value),
the newly created native notification object and the three subscription tokens. -/
structure show_platform where
  is_supporting_modern_features : Bool
  is_win10_anniversary_or_higher : Bool
  now : Int
  guid_Data1 : Nat
  new_handle : Nat
  activated_token : Int
  dismissed_token : Int
  failed_token : Int
  deriving DecidableEq, Repr

/-- What one call of `show_impl` or `show` leaves behind: the returned id, the service, the
value written through the `error` pointer and the platform calls made. -/
structure show_result where
  id : Int
  service : notification
  error : notification_error
  calls : List platform_call
  deriving DecidableEq, Repr

namespace notification

/-- The constructor `notification()` with the default member initialisers. -/
def init_state : notification :=
  { is_initialized_ := false
    has_winrt_initialized_ := false
    enable_modern_features_ := true
    shortcut_policy_ := .require_create
    appname_ := ""
    aumi_ := ""
    notifys := []
    toast_mapper := [] }

/-- The query `is_initialized()`. -/
def is_initialized (s : notification) : Bool := s.is_initialized_

/-- The query `is_enable_modern_features()`. -/
def is_enable_modern_features (s : notification) : Bool := s.enable_modern_features_

/-- The dismissal reason that the `Dismissed` lambda of `util::set_event_handlers` passes to
`event_handler->dismissed`. `expiration_time` is the captured integer, `from_time_t` the
conversion `winrt::clock::from_time_t` and `now` the reading of `winrt::clock::now()`. -/
def dismissed_reason (from_time_t : Int → Int) (expiration_time now : Int)
    (reason : dismissal_reason) : dismissal_reason :=
  if reason == .user_canceled && expiration_time != 0 && now ≥ from_time_t expiration_time then
    .timed_out
  else reason

/-- The sweep loop at the head of `mark_as_ready_for_deletion`: every entry that is ready for
deletion gets `remove_tokens()` and is erased (which runs its destructor). The result is the
remaining entries and the platform calls, each with the id of the entry it was made for. -/
def sweep : List (Int × notify) → List (Int × notify) × List (Int × platform_call)
  | [] => ([], [])
  | (k, n) :: rest =>
    let r := sweep rest
    if n.is_ready_for_deletion then
      let removed := n.remove_tokens
      (r.1, (removed.2 ++ removed.1.destroy).map (fun c => (k, c)) ++ r.2)
    else ((k, n) :: r.1, r.2)

/-- The write `notifys[id].mark_as_ready_for_deletion()` on an entry known to be present. -/
def mark_entry (m : List (Int × notify)) (id : Int) : List (Int × notify) :=
  m.map (fun e => if e.1 == id then (e.1, e.2.mark_as_ready_for_deletion) else e)

/-- The member `notification::mark_as_ready_for_deletion(id)`. -/
def mark_as_ready_for_deletion (s : notification) (id : Int) :
    notification × List (Int × platform_call) :=
  let swept := sweep s.notifys
  match map_find swept.1 id with
  | some _ => ({ s with notifys := mark_entry swept.1 id }, swept.2)
  | none => ({ s with notifys := swept.1 }, swept.2)

/-- The member `notification::hide(id)`. `notifier_created` tells whether `create_notifier()`
returned a notifier; the exception thrown for a service that is not initialized is the
`error` result. The calls carry the id they were made for. -/
def hide (s : notification) (notifier_created : Bool) (id : Int) :
    Except String (Bool × notification × List (Int × platform_call)) :=
  if !s.is_initialized then
    .error "Error when hiding the toast. notification is not initialized."
  else
    match map_find s.notifys id with
    | none => .ok (false, s, [])
    | some n =>
      if !notifier_created then .ok (false, s, [])
      else
        let removed := n.remove_tokens
        let calls := [platform_call.Hide n.notification] ++ removed.2 ++ removed.1.destroy
        .ok (true,
             { s with notifys := map_erase s.notifys id, toast_mapper := map_erase s.toast_mapper id },
             calls.map (fun c => (id, c)))

/-- The loop of `clear()` over all entries followed by the destruction of the entries in
`notifys.clear()`. -/
def clear_calls : List (Int × notify) → List (Int × platform_call)
  | [] => []
  | (k, n) :: rest =>
    let removed := n.remove_tokens
    ([platform_call.Hide n.notification] ++ removed.2 ++ removed.1.destroy).map (fun c => (k, c))
      ++ clear_calls rest

/-- The member `notification::clear()`. -/
def clear (s : notification) (notifier_created : Bool) :
    notification × List (Int × platform_call) :=
  if !notifier_created then (s, [])
  else ({ s with notifys := [] }, clear_calls s.notifys)

/-- The member `notification::show_impl(toast, handler, error)`. `handler_present` tells
whether the handler pointer is non-null; an `error` result is the code thrown by
`winrt::check_hresult` inside the markup compiler. The integer `expiration` that is handed to
`util::set_event_handlers` is declared as `0` and is never assigned afterwards. -/
def show_impl (s : notification) (p : show_platform) (toast : notification_template)
    (handler_present : Bool) : Except HRESULT show_result :=
  if !s.is_initialized then .ok ⟨-1, s, .not_initialized, []⟩
  else if !handler_present then .ok ⟨-1, s, .invalid_handler, []⟩
  else
    let ctx := context_bridge.make p.is_supporting_modern_features s.is_enable_modern_features
      p.is_win10_anniversary_or_higher
    match xml_notifcation_field.compile ctx p.is_win10_anniversary_or_higher toast with
    | .error e => .error e
    | .ok _xml =>
      let expiration : Int := 0
      let relative_expiration := toast.expiration_
      let calls0 :=
        if relative_expiration > 0 then
          [platform_call.ExpirationTime p.new_handle (p.now + relative_expiration)]
        else []
      let id : Int := ((p.guid_Data1 % 2 ^ 32 : Nat) : Int)
      let calls1 := calls0 ++ [platform_call.subscribe p.new_handle expiration id,
        platform_call.Show p.new_handle]
      let toast_mapper1 := map_emplace s.toast_mapper id p.new_handle
      let entry := notify.make (map_find toast_mapper1 id) p.activated_token p.dismissed_token
        p.failed_token
      .ok ⟨id, { s with toast_mapper := toast_mapper1, notifys := map_emplace s.notifys id entry },
        .no_error, calls1⟩

/-- The public `show` overloads: `show_impl` inside `try`, with `-1` returned when a
`winrt::hresult_error` is caught (`show` is a reserved word here, hence the name). -/
def show_ (s : notification) (p : show_platform) (toast : notification_template)
    (handler_present : Bool) : show_result :=
  match show_impl s p toast handler_present with
  | .ok r => r
  | .error _ => ⟨-1, s, .no_error, []⟩

/-- The expiration integer captured by the `Dismissed` lambda that `show_impl` installs: the
argument `expiration` of its `subscribe` call, when the call was made. -/
def subscribed_expiration : List platform_call → Option Int
  | [] => none
  | .subscribe _ expiration_time _ :: _ => some expiration_time
  | _ :: rest => subscribed_expiration rest

/-- The `Dismissed` lambda installed by `show_impl` for the notification `id`: the call made
on the handler, then `mark_as_ready_for_deletion(id)`. -/
def on_dismissed (s : notification) (from_time_t : Int → Int) (expiration_time : Int) (id : Int)
    (now : Int) (reason : dismissal_reason) :
    handler_call × notification × List (Int × platform_call) :=
  (.dismissed (dismissed_reason from_time_t expiration_time now reason),
   s.mark_as_ready_for_deletion id)

end notification

/-! ## The service: messages, initialisation and the event lambdas (`wintoastlib.cpp`) -/

/-- The table `Labels` of `notification::strerror`, entry by entry as written in the source. -/
def strerror_Labels : List (notification_error × String) :=
  [(.no_error, "No error. The process was executed correctly"),
   (.not_initialized, "The library has not been initialized"),
   (.system_not_supported, "The OS does not support notification"),
   (.shell_link_not_created, "The library was not able to create a Shell Link for the app"),
   (.invalid_app_user_model_id, "The AUMI is not a valid one"),
   (.invalid_parameters, "Invalid parameters, please double-check the AUMI or App Name"),
   (.not_displayed,
     "The toast was created correctly but notification was not able to display the toast"),
   (.unknown_error, "Unknown error")]

/-- The function `notification::strerror(error)`: the message found by `Labels.find(error)`;
`none` stands for a lookup that ends at `Labels.end()`, where `assert(iter != Labels.end())`
fails. -/
def strerror (error : notification_error) : Option String :=
  (strerror_Labels.find? (fun e => e.1 == error)).map (fun e => e.2)

/-- The enumeration `utility::shortcut_result`. -/
inductive shortcut_result where
  | unchanged
  | was_changed
  | was_created
  | missing_parameters
  | inis_compatible_os
  | com_init_failure
  | create_failed
  deriving DecidableEq, Repr

/-- The value of `static_cast<int>(result)` for a `shortcut_result`. -/
def shortcut_result.toInt : shortcut_result → Int
  | .unchanged => 0
  | .was_changed => 1
  | .was_created => 2
  | .missing_parameters => -1
  | .inis_compatible_os => -2
  | .com_init_failure => -3
  | .create_failed => -4

/-- What the platform answers during one call of `init`: whether `winrt::init_apartment`
succeeds, the outcome of `validate_shelllink` (`some was_changed` when it succeeds), whether
the COM steps of `create_shelllink` succeed, and whether `set_current_process_aumi` succeeds. -/
structure init_platform where
  init_apartment_ok : Bool
  validate_shelllink : Option Bool
  create_shelllink_ok : Bool
  set_current_process_aumi_ok : Bool
  deriving DecidableEq, Repr

/-- The function `utility::create_shelllink(policy, appname, aumi)`: it fails at once unless
the policy is `require_create`. -/
def utility.create_shelllink (policy : shortcut_policy) (p : init_platform) : HRESULT :=
  if policy != .require_create then .E_FAIL
  else if p.create_shelllink_ok then .S_OK else .E_FAIL

/-- The function `utility::create_shortcut(policy, appname, aumi, winrt_init_flag)`: the result
and the flag afterwards. -/
def utility.create_shortcut (policy : shortcut_policy) (appname aumi : String)
    (winrt_init_flag : Bool) (p : init_platform) : shortcut_result × Bool :=
  if aumi.isEmpty || appname.isEmpty then (.missing_parameters, winrt_init_flag)
  else if !winrt_init_flag && !p.init_apartment_ok then (.com_init_failure, winrt_init_flag)
  else
    match p.validate_shelllink with
    | some was_changed => (if was_changed then .was_changed else .unchanged, true)
    | none =>
      (if SUCCEEDED (utility.create_shelllink policy p) then .was_created else .create_failed, true)

/-- How a call ended: with a returned value or with a thrown `std::runtime_error`. -/
inductive call_outcome where
  | returned (value : Bool)
  | thrown (what : String)
  deriving DecidableEq, Repr

/-- What one call of `init` leaves behind: how it ended, the service and the value written
through the `error` pointer. -/
structure init_result where
  outcome : call_outcome
  service : notification
  error : notification_error
  deriving DecidableEq, Repr

/-- The arguments of an activation event: `Arguments()` and, for the key `textBox` of
`UserInput()`, the string of the property value when there is one. -/
structure activated_args where
  arguments : String
  textBox : Option String
  deriving DecidableEq, Repr

/-- The test `iswspace` on the characters that `std::stoi` skips: space and the controls
9 to 13. -/
def iswspace (c : Char) : Bool := c.toNat == 32 || (9 ≤ c.toNat && c.toNat ≤ 13)

/-- The value of a digit sequence in base 10. -/
def digits_value (ds : List Char) : Nat := ds.foldl (fun acc c => acc * 10 + (c.toNat - 48)) 0

/-- The conversion `std::stoi` of a wide string: leading white space, an optional sign, then
decimal digits; `none` stands for the thrown `std::invalid_argument` (no digit) or
`std::out_of_range` (outside the 32-bit `int`). -/
def stoi (s : String) : Option Int :=
  let cs := s.toList.dropWhile iswspace
  let signed : Bool × List Char :=
    match cs with
    | '-' :: rest => (true, rest)
    | '+' :: rest => (false, rest)
    | rest => (false, rest)
  let digits := signed.2.takeWhile Char.isDigit
  if digits.isEmpty then none
  else
    let v : Int := if signed.1 then - (digits_value digits : Int) else (digits_value digits : Int)
    if v < -(2 ^ 31) || v > 2 ^ 31 - 1 then none else some v

namespace notification

/-- The member `notification::init(error)`. The assignment `is_initialized_ = false` comes
first; the two `throw` statements follow their `set_error`. -/
def init (s : notification) (p : init_platform) : init_result :=
  let s0 := { s with is_initialized_ := false }
  if s0.shortcut_policy_ == .ignore && s0.is_enable_modern_features then
    ⟨.returned false, s0, .shell_link_not_created⟩
  else if s0.aumi_.isEmpty || s0.appname_.isEmpty then
    ⟨.thrown "Error while initializing, did you set up a valid AUMI and App name?", s0,
      .invalid_parameters⟩
  else
    let r := utility.create_shortcut s0.shortcut_policy_ s0.appname_ s0.aumi_
      s0.has_winrt_initialized_ p
    let s1 := { s0 with has_winrt_initialized_ := r.2 }
    if r.1.toInt < 0 then ⟨.returned false, s1, .shell_link_not_created⟩
    else if !p.set_current_process_aumi_ok then
      ⟨.thrown "Error while attaching the AUMI to the current proccess.", s1,
        .invalid_app_user_model_id⟩
    else ⟨.returned true, { s1 with is_initialized_ := true }, .no_error⟩

/-- The body of the `Activated` lambda of `util::set_event_handlers`: the calls made on the
handler and whether `mark_as_ready_for_deletion_func()` is reached. `none` as argument stands
for event arguments that are no `ToastActivatedEventArgs`; an `error` result is the exception
that leaves the lambda when `std::stoi` throws (this is also the end of a reply activation
without a `textBox` value, whose arguments `action=reply` are no number). -/
def activated_lambda (args : Option activated_args) : Except String (List handler_call × Bool) :=
  match args with
  | none => .ok ([], true)
  | some activated =>
    let after_reply : Except String (List handler_call × Bool) :=
      if !activated.arguments.isEmpty then
        match stoi activated.arguments with
        | some action_idx => .ok ([.activated_idx action_idx], true)
        | none => .error "std::stoi"
      else .ok ([.activated], true)
    if activated.arguments == "action=reply" then
      match activated.textBox with
      | some input => .ok ([.activated_reply input], false)
      | none => after_reply
    else after_reply

/-- The body of the `Dismissed` lambda: the call made on the handler and whether
`mark_as_ready_for_deletion_func()` is reached. -/
def dismissed_lambda (from_time_t : Int → Int) (expiration_time now : Int)
    (reason : dismissal_reason) : List handler_call × Bool :=
  ([.dismissed (dismissed_reason from_time_t expiration_time now reason)], true)

/-- The body of the `Failed` lambda: the call made on the handler and whether
`mark_as_ready_for_deletion_func()` is reached. -/
def failed_lambda : List handler_call × Bool := ([.failed], true)

/-- The effect of one event lambda installed by `show_impl` for the notification `id`, whose
closure `mark_as_ready_for_deletion_func` is `mark_as_ready_for_deletion(id)`: the calls made
on the handler, the service afterwards and the platform calls. -/
def deliver (s : notification) (id : Int) (body : List handler_call × Bool) :
    List handler_call × notification × List (Int × platform_call) :=
  (body.1, if body.2 then s.mark_as_ready_for_deletion id else (s, []))

/-- The `Activated` lambda installed by `show_impl` for the notification `id`. -/
def on_activated (s : notification) (id : Int) (args : Option activated_args) :
    Except String (List handler_call × notification × List (Int × platform_call)) :=
  match activated_lambda args with
  | .ok body => .ok (deliver s id body)
  | .error e => .error e

/-- The `Failed` lambda installed by `show_impl` for the notification `id`. -/
def on_failed (s : notification) (id : Int) :
    List handler_call × notification × List (Int × platform_call) :=
  deliver s id failed_lambda

end notification

/-- One member call on a registry entry. -/
inductive notify_op where
  | mark_as_ready_for_deletion
  | remove_tokens
  deriving DecidableEq, Repr

namespace notify

/-- One member call on an entry: the entry afterwards and the platform calls made. -/
def apply (n : notify) : notify_op → notify × List platform_call
  | .mark_as_ready_for_deletion => (n.mark_as_ready_for_deletion, [])
  | .remove_tokens => n.remove_tokens

/-- A sequence of member calls on an entry: the entry afterwards and all platform calls made,
in order. -/
def run (n : notify) : List notify_op → notify × List platform_call
  | [] => (n, [])
  | op :: rest =>
    let r := n.apply op
    let r1 := run r.1 rest
    (r1.1, r.2 ++ r1.2)

end notify

/-! ## Further members: `make_aumi`, the data accesses of `actions_t`, failing platform steps -/

/-- The static member `notification::make_aumi(company_name, product_name, sub_product,
version_information)`. -/
def notification.make_aumi (company_name product_name sub_product version_information : String) :
    String :=
  let aumi := company_name ++ "." ++ product_name
  if sub_product.length > 0 then
    let aumi1 := aumi ++ ("." ++ sub_product)
    if version_information.length > 0 then aumi1 ++ ("." ++ version_information) else aumi1
  else aumi

/-- One access that a method of `actions_t` makes to its data members: a read or a write of
`data[index]`, or the evaluation of `actions_count_ - 1` or `--actions_count_` on the unsigned
counter, with the value `count` of the counter it is applied to. -/
inductive actions_access where
  | read (index : Nat)
  | write (index : Nat)
  | decrement (count : Nat)
  deriving DecidableEq, Repr

/-- An access stays inside the five-slot array, or decrements a counter that is not zero. -/
def actions_access.in_bounds : actions_access → Bool
  | .read index => decide (index < 5)
  | .write index => decide (index < 5)
  | .decrement count => decide (0 < count)

/-- One call of a mutating method of `actions_t`. -/
inductive actions_call where
  | add_action (label : String)
  | add_action_ilist (ilist : List String)
  | remove_action (pos : Nat)
  | set_action_label (pos : Nat) (label : String)
  | clear
  deriving DecidableEq, Repr

namespace actions_t

/-- The accesses of `add_action(std::wstring_view)`: the write `data[actions_count_++] = label`
under its guard. -/
def add_action_accesses (a : actions_t) (this_has_input : Bool) : List actions_access :=
  if (!this_has_input) && a.actions_count_ != 5 then [.write a.actions_count_] else []

/-- The accesses of `add_action(std::initializer_list<std::wstring_view>)`: one write
`data[actions_count_++] = label` per label until the counter is five. -/
def add_action_ilist_accesses (a : actions_t) : List String → List actions_access
  | [] => []
  | label :: rest =>
    if a.actions_count_ == 5 then []
    else .write a.actions_count_ ::
      add_action_ilist_accesses
        { actions_count_ := a.actions_count_ + 1, data := a.data.set a.actions_count_ label } rest

/-- The accesses of the loop of `remove_action` on a counter `count`: each iteration evaluates
the bound `actions_count_ - 1`, reads `data[i + 1]` and writes `data[i]`. -/
def shift_left_accesses (count : Nat) (i : Nat) : Nat → List actions_access
  | 0 => []
  | steps + 1 =>
    .decrement count :: .read (i + 1) :: .write i :: shift_left_accesses count (i + 1) steps

/-- The accesses of `remove_action(pos)`: nothing under the guard `pos >= actions_count_`,
else the loop, the last evaluation of its bound and `--actions_count_`. -/
def remove_action_accesses (a : actions_t) (pos : Nat) : List actions_access :=
  if pos ≥ a.actions_count_ then []
  else
    shift_left_accesses a.actions_count_ pos (a.actions_count_ - 1 - pos) ++
      [.decrement a.actions_count_, .decrement a.actions_count_]

/-- The accesses of `set_action_label(pos, label)`: the write `data[pos] = label` under the
guard. -/
def set_action_label_accesses (a : actions_t) (pos : Nat) : List actions_access :=
  if pos ≥ a.actions_count_ then [] else [.write pos]

/-- The state after one call; `this_has_input` is the value of `this_->has_input()`. -/
def call (a : actions_t) (this_has_input : Bool) : actions_call → actions_t
  | .add_action label => a.add_action this_has_input label
  | .add_action_ilist ilist => a.add_action_ilist ilist
  | .remove_action pos => (a.remove_action pos).2
  | .set_action_label pos label => (a.set_action_label pos label).2
  | .clear => a.clear

/-- The accesses made by one call. -/
def call_accesses (a : actions_t) (this_has_input : Bool) : actions_call → List actions_access
  | .add_action _ => a.add_action_accesses this_has_input
  | .add_action_ilist ilist => a.add_action_ilist_accesses ilist
  | .remove_action pos => a.remove_action_accesses pos
  | .set_action_label pos _ => a.set_action_label_accesses pos
  | .clear => []

/-- A sequence of calls: the final state and all accesses made, in order. -/
def run_calls (a : actions_t) (this_has_input : Bool) :
    List actions_call → actions_t × List actions_access
  | [] => (a, [])
  | c :: rest =>
    let r := run_calls (a.call this_has_input c) this_has_input rest
    (r.1, a.call_accesses this_has_input c ++ r.2)

end actions_t

/-- The platform steps of `show_impl` that can throw `winrt::hresult_error`, in the order in
which the member runs them: the markup constructor, the creation of the native notification,
the subscriptions of `util::set_event_handlers` and the call `notifier.Show`. -/
inductive show_step where
  | markup_compilation
  | notification_creation
  | event_wiring
  | platform_show
  deriving DecidableEq, Repr

/-- How `show_impl` ends: by a `return`, or by a `winrt::hresult_error` that leaves it. Both
carry the value of the local `id`, the service, the value last written through `error` and the
platform calls made up to that point. -/
inductive show_outcome where
  | returned (r : show_result)
  | thrown (r : show_result)
  deriving DecidableEq, Repr

namespace notification

/-- The member `show_impl(toast, handler, error)` statement by statement, with the platform
step `failing` (when there is one) throwing `winrt::hresult_error`: `set_error(error, no_error)`
and `id = -1`, the two precondition tests, the markup constructor (which also throws the code
of a failed `check_hresult`), the creation of the native notification, `ExpirationTime`, the
id taken from the GUID, `util::set_event_handlers` (which returns `S_OK` when it does not
throw), `if (FAILED(hr)) set_error(error, invalid_handler)`, `check_hresult(hr)`,
`notifier.Show`, the two insertions and `return FAILED(hr) ? -1 : id`. The call
`CreateToastNotifier` ahead of the markup constructor and the first `check_hresult(hr)` on
`hr = 0` change nothing that is recorded here. -/
def show_impl_steps (s : notification) (p : show_platform) (toast : notification_template)
    (handler_present : Bool) (failing : Option show_step) : show_outcome :=
  let error0 := notification_error.no_error
  let id0 : Int := -1
  if !s.is_initialized then .returned ⟨id0, s, .not_initialized, []⟩
  else if !handler_present then .returned ⟨id0, s, .invalid_handler, []⟩
  else if failing == some .markup_compilation then .thrown ⟨id0, s, error0, []⟩
  else
    let ctx := context_bridge.make p.is_supporting_modern_features s.is_enable_modern_features
      p.is_win10_anniversary_or_higher
    match xml_notifcation_field.compile ctx p.is_win10_anniversary_or_higher toast with
    | .error _ => .thrown ⟨id0, s, error0, []⟩
    | .ok _xml =>
      if failing == some .notification_creation then .thrown ⟨id0, s, error0, []⟩
      else
        let expiration : Int := 0
        let relative_expiration := toast.expiration_
        let calls0 :=
          if relative_expiration > 0 then
            [platform_call.ExpirationTime p.new_handle (p.now + relative_expiration)]
          else []
        let id : Int := ((p.guid_Data1 % 2 ^ 32 : Nat) : Int)
        if failing == some .event_wiring then .thrown ⟨id, s, error0, calls0⟩
        else
          let hr := HRESULT.S_OK
          let calls1 := calls0 ++ [platform_call.subscribe p.new_handle expiration id]
          let error1 := if !SUCCEEDED hr then notification_error.invalid_handler else error0
          match check_hresult hr with
          | .error _ => .thrown ⟨id, s, error1, calls1⟩
          | .ok _ =>
            if failing == some .platform_show then .thrown ⟨id, s, error1, calls1⟩
            else
              let calls2 := calls1 ++ [platform_call.Show p.new_handle]
              let toast_mapper1 := map_emplace s.toast_mapper id p.new_handle
              let entry := notify.make (map_find toast_mapper1 id) p.activated_token
                p.dismissed_token p.failed_token
              .returned ⟨if !SUCCEEDED hr then -1 else id,
                { s with toast_mapper := toast_mapper1,
                         notifys := map_emplace s.notifys id entry },
                error1, calls2⟩

/-- The public `show` overloads around `show_impl_steps`: the handler
`catch (const winrt::hresult_error &) { return -1; }` returns `-1` and writes nothing through
`error`, which keeps the value it had when the exception was thrown. -/
def show_steps (s : notification) (p : show_platform) (toast : notification_template)
    (handler_present : Bool) (failing : Option show_step) : show_result :=
  match show_impl_steps s p toast handler_present failing with
  | .returned r => r
  | .thrown r => ⟨-1, r.service, r.error, r.calls⟩

end notification

/-! ## Observations and invariants used in the statements -/

/-- The platform calls of a log that were made for the entry `id`. -/
def calls_for (id : Int) (log : List (Int × platform_call)) : List platform_call :=
  (log.filter (fun c => c.1 == id)).map (fun c => c.2)

instance {β : Type} (m : List (Int × β)) : Decidable (map_sorted m) := by
  unfold map_sorted
  exact inferInstance

/-- The invariant of the registry between two operations: the keys are strictly increasing
and no stored entry has its tokens already unsubscribed (`remove_tokens` is always followed by
the erasure of the entry). -/
def registry_inv (m : List (Int × notify)) : Prop :=
  map_sorted m ∧ ∀ e ∈ m, e.2._previously_token_removed = false

/-- What is read back from one `action` element: its `content` and its `arguments`. -/
def action_view (e : XmlElement) : Option String × Option String :=
  (e.get_named_item "content", e.get_named_item "arguments")

/-- The `action` elements of a document read back in document order. -/
def action_views (xml : XmlNodes) : List (Option String × Option String) :=
  (xml.get_elements_by_tag_name "action").map action_view

namespace XmlNodes

/-- The document is a single `toast` root element. -/
def toast_root (xs : XmlNodes) : Prop := ∃ A C, xs = XmlNodes.element "toast" A C .nil

end XmlNodes

namespace xml_notifcation_field

/-- The facts about a document that every step before the action loop keeps. -/
structure before_actions (xml : XmlNodes) : Prop where
  root : xml.toast_root
  no_actions : (xml.get_elements_by_tag_name "actions").length = 0
  no_action : (xml.get_elements_by_tag_name "action").length = 0
  binding : 0 < (xml.get_elements_by_tag_name "binding").length

/-- The facts about a document that every step after the action loop keeps. -/
structure after_actions (L : List (Option String × Option String)) (xml : XmlNodes) : Prop where
  binding : 0 < (xml.get_elements_by_tag_name "binding").length
  views : action_views xml = L

/-- What the action loop writes for the first `j` labels of a template. -/
def expected_actions (t : notification_template) (j : Nat) :
    List (Option String × Option String) :=
  (List.range j).map (fun i => (some (t.actions.action_label i), some (format_index i)))

/-- The `action` element that `add_action(content, arguments)` creates. -/
def action_element (content arguments : String) : XmlElement :=
  ((XmlElement.create "action").set_attribute "content" content).set_attribute "arguments" arguments

end xml_notifcation_field

namespace XmlNodes

/-- The attributes of the first node of a document (none when it is not an element). -/
def root_attributes : XmlNodes → List (String × String)
  | .element _ attrs _ _ => attrs
  | _ => []

/-- The value of an attribute of the `toast` element, read back from the document:
`GetElementsByTagName(L"toast").GetAt(0)` and then `GetNamedItem(name)`. -/
def toast_attribute (xml : XmlNodes) (name : String) : Option String :=
  match xml.get_elements_by_tag_name "toast" with
  | [] => none
  | e :: _ => e.get_named_item name

end XmlNodes

namespace xml_notifcation_field

/-- The facts about the `toast` root that the compiler steps keep or update: the document is
a single `toast` element with the attributes `A`, and it has a `binding` element. -/
structure toast_doc (A : List (String × String)) (xml : XmlNodes) : Prop where
  root : xml.toast_root
  attributes : xml.root_attributes = A
  binding : 0 < (xml.get_elements_by_tag_name "binding").length

/-- The attributes of the `toast` element after the part of the constructor that adds action
buttons and the input block: the first `add_action` writes `template` and `duration`. -/
def attributes_after_actions (t : notification_template) : List (String × String) :=
  if !t.has_input && t.actions.count != 0 then
    XmlElement.set_in (XmlElement.set_in [] "template" "ToastGeneric") "duration" "long"
  else []

/-- The `duration` attribute that the compiled `toast` element carries. -/
def expected_duration (t : notification_template) : Option String :=
  match t.duration_ with
  | .short_duration => some "short"
  | .long_duration => some "long"
  | .system => if !t.has_input && t.actions.count != 0 then some "long" else none

end xml_notifcation_field

/-- The three unsubscribing calls of an entry with the native handle `h`. -/
def notify.unsubscribe_calls (n : notify) (h : Nat) : List platform_call :=
  [.Activated_remove h n._activated_token, .Dismissed_remove h n._dismissed_token,
   .Failed_remove h n._failed_token]

namespace xml_notifcation_field

/-- The attributes of the compiled `toast` element with modern features. -/
def final_attributes (t : notification_template) : List (String × String) :=
  XmlElement.set_in
    (if t.duration_ != .system then
      XmlElement.set_in (attributes_after_actions t) "duration"
        (if t.duration_ == .short_duration then "short" else "long")
    else attributes_after_actions t)
    "scenario" t.scenario_

end xml_notifcation_field

/-- What is read back from one `input` element: its `id`. -/
def input_view (e : XmlElement) : Option String := e.get_named_item "id"

/-- The `input` elements of a document read back in document order. -/
def input_views (xml : XmlNodes) : List (Option String) :=
  (xml.get_elements_by_tag_name "input").map input_view

namespace xml_notifcation_field

/-- The state of the constructor after the binding step and the loop over the text lines. -/
def text_stage (t : notification_template) : HRESULT × XmlNodes :=
  text_fields_loop t 0 t.text_fields_count
    (if t.is_toast_generic then set_bind_toast_generic (get_template_content t.template_type)
      else (.S_OK, get_template_content t.template_type))

/-- The document after the attribution step of the constructor, run on `xml`. -/
def attribution_stage (t : notification_template) (xml : XmlNodes) : XmlNodes :=
  (if !t.attribution_text_.isEmpty then set_attribution_text_field xml t.attribution_text_
    else (.S_OK, xml)).2

/-- The document after the step of the constructor that adds the input block or the action
buttons, run on `xml`. -/
def actions_stage (t : notification_template) (xml : XmlNodes) : XmlNodes :=
  if t.has_input && t.actions.count != 0 then (add_input xml).2
  else
    match actions_loop t 0 t.actions.count (.S_OK, xml) with
    | .ok st_a => (if t.has_input then add_input st_a.2 else st_a).2
    | .error _ => xml

/-- The document after the audio step of the constructor, run on `xml`. -/
def audio_stage (t : notification_template) (xml : XmlNodes) : XmlNodes :=
  (if t.audio_path_.isEmpty && t.audio_option_ == .default_option then (.S_OK, xml)
    else set_audio_field xml t.audio_path_ t.audio_option_).2

/-- The document after the duration step of the constructor, run on `xml`. -/
def duration_stage (t : notification_template) (xml : XmlNodes) : XmlNodes :=
  (if t.duration_ != .system then
      add_duration xml (if t.duration_ == .short_duration then "short" else "long")
    else (.S_OK, xml)).2

/-- The document after the part of the constructor that is guarded by the modern-features
test (`modern` is the value of the test). -/
def modern_stage (modern : Bool) (t : notification_template) : XmlNodes :=
  if modern then
    (add_scenario
      (duration_stage t (audio_stage t (actions_stage t (attribution_stage t (text_stage t).2))))
      t.scenario_).2
  else (text_stage t).2

/-- The document after the image step of the constructor, run on `xml`. -/
def image_stage (win10 : Bool) (t : notification_template) (xml : XmlNodes) : XmlNodes :=
  (if t.has_image then
      set_image_field xml t.image_path_ t.is_toast_generic
        (if win10 then t.is_crop_hint_circle else false)
    else (.S_OK, xml)).2

/-- The document after the hero-image step of the constructor, run on `xml`. -/
def hero_stage (win10 : Bool) (t : notification_template) (xml : XmlNodes) : XmlNodes :=
  (if win10 && t.has_hero_image then
      set_hero_image xml t.hero_image_path_ t.is_inline_hero_image
    else (.S_OK, xml)).2

/-- The document that the constructor builds, step after step. -/
def compiled_document (modern win10 : Bool) (t : notification_template) : XmlNodes :=
  hero_stage win10 t (image_stage win10 t (modern_stage modern t))

/-- The document has the image slot of the base skeleton as the first child of the binding,
with the attributes `I`: `toast`, first child `visual`, first child `binding`, first child
`image`. -/
def slot_doc (I : List (String × String)) (xml : XmlNodes) : Prop :=
  ∃ A V B X R, xml =
    XmlNodes.element "toast" A
      (.element "visual" V (.element "binding" B (.element "image" I .nil X) .nil) R) .nil

/-- The attributes of the image slot after `set_image_field(path, is_toast_generic,
is_crop_hint_circle)`. -/
def slot_attributes (path : String) (is_toast_generic is_crop_hint_circle : Bool) :
    List (String × String) :=
  ((fun image_element : XmlElement =>
      let e1 :=
        if is_toast_generic then
          let e0 := image_element.set_attribute "placement" "app_logo_override"
          if is_crop_hint_circle then e0.set_attribute "hint_crop" "circle" else e0
        else image_element
      e1.append_attribute_text "src" ("file:///" ++ c_string path))
    ⟨"image", [("id", "1"), ("src", "")], .nil⟩).attributes

end xml_notifcation_field

/-! ## Concrete inputs -/

/-- A default template with the two action labels `Yes` and `No`. -/
def yes_no : notification_template := notification_template.mk_default.add_action_ilist ["Yes", "No"]

/-- A template with one action. -/
def one_action : notification_template := notification_template.mk_default.add_action "a"

/-- A template with five actions. -/
def five_actions : notification_template :=
  notification_template.mk_default.add_action_ilist ["a", "b", "c", "d", "e"]

/-- An initialized service with nothing shown yet. -/
def example_service : notification :=
  { notification.init_state with is_initialized_ := true, appname_ := "app", aumi_ := "app" }

/-- The platform answers during an example call of `show`: clock reading 5000, GUID first
field 7, native object 1, tokens 11, 12 and 13. -/
def example_platform : show_platform := ⟨true, true, 5000, 7, 1, 11, 12, 13⟩

/-- A default template with `expiration(1000)`. -/
def example_toast : notification_template := notification_template.mk_default.set_expiration 1000

/-- The example service after the example notification was shown: the entry 7 is active. -/
def example_shown_service : notification :=
  (notification.show_ example_service example_platform example_toast true).service

/-- The example service after one event of the shown notification was delivered: the entry 7
is ready for deletion and not yet swept. -/
def example_ready_service : notification :=
  (example_shown_service.mark_as_ready_for_deletion 7).1

/-- A service with the default members except for the shortcut policy `ignore`; its app name
is empty. -/
def ignore_policy_service : notification :=
  { notification.init_state with shortcut_policy_ := .ignore }

/-- Platform answers for `init` with every step succeeding. -/
def example_init_platform : init_platform := ⟨true, some false, true, true⟩

/-- A reply activation: arguments `action=reply` and the text `hi` in the text box. -/
def reply_activation : activated_args := ⟨"action=reply", some "hi"⟩

/-- The platform answers during a later call of `show` whose GUID has the first field 7
again: clock reading 6000, native object 2, tokens 21, 22 and 23. -/
def colliding_platform : show_platform := ⟨true, true, 6000, 7, 2, 21, 22, 23⟩

/-- A default template with the input block switched on. -/
def input_toast : notification_template := notification_template.mk_default.toggle_input true

/-- A template of a kind with an image slot, with the image path `C:/logo.png` and the circle
crop. -/
def image_toast : notification_template :=
  (notification_template.mk_type .image_and_text01).set_image_path "C:/logo.png" .circle

/-- A template of a kind with an image slot whose image path has a NUL character in the
middle: `C:/a`, NUL, `b.png`. -/
def nul_toast : notification_template :=
  (notification_template.mk_type .image_and_text01).set_image_path
    ("C:/a" ++ String.singleton (Char.ofNat 0) ++ "b.png") .square

/-! ## Theorems: the template model -/

/-- The loop of `remove_action` keeps the number of slots. -/
theorem shift_left_length (data : List String) (i k : Nat) :
    (actions_t.shift_left data i k).length = data.length := by
  induction k generalizing data i with
  | zero => rfl
  | succ k ih => simp [actions_t.shift_left, ih]

/-- The loop of `remove_action` moves the `k` slots after position `i` one place down. -/
theorem shift_left_take (data : List String) (i k : Nat) (h : i + k < data.length) :
    (actions_t.shift_left data i k).take (i + k) = data.take i ++ (data.drop (i + 1)).take k := by
  induction k generalizing data i with
  | zero => simp [actions_t.shift_left]
  | succ k ih =>
    have h0 : i < data.length := by omega
    have h1 : i + 1 < data.length := by omega
    have h2 : i + 1 + k < (data.set i (data.getD (i + 1) "")).length := by
      simp; omega
    have := ih (data.set i (data.getD (i + 1) "")) (i + 1) h2
    simp only [actions_t.shift_left]
    rw [show i + (k + 1) = i + 1 + k by omega, this]
    have hd : data.drop (i + 1) = data.getD (i + 1) "" :: data.drop (i + 2) := by
      rw [List.getD_eq_getElem _ _ h1]
      exact List.drop_eq_getElem_cons h1
    rw [hd, List.take_succ_cons]
    have ht : (data.set i (data.getD (i + 1) "")).take (i + 1)
        = data.take i ++ [data.getD (i + 1) ""] := by
      have e : (data.set i (data.getD (i + 1) "")).take i = data.take i := by
        rw [List.set_take]
        exact List.set_eq_of_length_le (by simp)
      rw [List.take_succ, e]
      simp [h0]
    have hdr : (data.set i (data.getD (i + 1) "")).drop (i + 1 + 1) = data.drop (i + 2) :=
      List.drop_set_of_lt _ _ (by omega)
    rw [ht, hdr]
    simp

/-- Claim C6: `remove_action(pos)` returns true iff `pos < n`; when it does, the count is
`n - 1` and the labels are `l_0 .. l_{pos-1}, l_{pos+1} .. l_{n-1}`; when it does not, the
count and the whole state are unchanged. -/
theorem remove_action_spec (a : actions_t) (pos : Nat) (h : a.wf) :
    ((a.remove_action pos).1 = true ↔ pos < a.count) ∧
    (pos < a.count →
      (a.remove_action pos).2.count = a.count - 1 ∧
      (a.remove_action pos).2.labels = a.labels.take pos ++ a.labels.drop (pos + 1)) ∧
    (¬ pos < a.count →
      (a.remove_action pos).2.count = a.count ∧ (a.remove_action pos).2 = a) := by
  obtain ⟨hlen, hcnt⟩ := h
  simp only [actions_t.count]
  by_cases hp : pos < a.actions_count_
  · have hge : ¬ pos ≥ a.actions_count_ := by omega
    simp only [actions_t.remove_action, hge, if_false, hp, true_iff, forall_true_left,
      not_true_eq_false, false_implies, and_true, true_and, actions_t.labels]
    have hk : pos + (a.actions_count_ - 1 - pos) < a.data.length := by omega
    have := shift_left_take a.data pos (a.actions_count_ - 1 - pos) hk
    rw [show pos + (a.actions_count_ - 1 - pos) = a.actions_count_ - 1 by omega] at this
    rw [this, List.take_take, List.drop_take]
    congr 2
    · omega
    · omega
  · have hge : pos ≥ a.actions_count_ := by omega
    simp [actions_t.remove_action, hge, hp]

/-- Witness of claim C6: removing position 1 of the labels a, b, c leaves a, c; removing
position 3 fails and changes nothing. -/
theorem remove_action_spec_witness :
    actions_t.wf ⟨3, ["a", "b", "c", "", ""]⟩ ∧
    (actions_t.remove_action ⟨3, ["a", "b", "c", "", ""]⟩ 1).1 = true ∧
    (actions_t.remove_action ⟨3, ["a", "b", "c", "", ""]⟩ 1).2.count = 2 ∧
    (actions_t.remove_action ⟨3, ["a", "b", "c", "", ""]⟩ 1).2.labels = ["a", "c"] ∧
    (actions_t.remove_action ⟨3, ["a", "b", "c", "", ""]⟩ 3).2 = ⟨3, ["a", "b", "c", "", ""]⟩ :=
  ⟨by decide,
    (remove_action_spec ⟨3, ["a", "b", "c", "", ""]⟩ 1 (by decide)).1.mpr (by decide),
    ((remove_action_spec ⟨3, ["a", "b", "c", "", ""]⟩ 1 (by decide)).2.1 (by decide)).1,
    ((remove_action_spec ⟨3, ["a", "b", "c", "", ""]⟩ 1 (by decide)).2.1 (by decide)).2,
    ((remove_action_spec ⟨3, ["a", "b", "c", "", ""]⟩ 3 (by decide)).2.2 (by decide)).2⟩

/-- Claim C1, the code at the failing input: a `text01` template has one text field, so
`set_second_line` addresses the index 1 `>= text_fields_count()`; the guard of
`set_text_field` lets it through and the stored second field is overwritten. -/
theorem set_text_field_at_count_overwrites :
    (notification_template.mk_type .text01).text_fields_count = 1 ∧
    textfield.second_line.toNat ≥ (notification_template.mk_type .text01).text_fields_count ∧
    (notification_template.mk_type .text01).text_fields_ = ["", "", ""] ∧
    ((notification_template.mk_type .text01).set_second_line "x").text_fields_ = ["", "x", ""] := by
  decide

/-- Claim C3, the code at the failing input: after `toggle_input(true)` took effect on a
fresh template the single-label `add_action` is a no-op, but the initializer-list overload
still stores its label and raises the count to 1. -/
theorem add_action_ilist_ignores_input :
    (notification_template.mk_default.toggle_input true).has_input = true ∧
    (notification_template.mk_default.toggle_input true).actions.count = 0 ∧
    ((notification_template.mk_default.toggle_input true).add_action "a").actions.count = 0 ∧
    ((notification_template.mk_default.toggle_input true).add_action_ilist ["a"]).actions.count = 1 ∧
    ((notification_template.mk_default.toggle_input true).add_action_ilist ["a"]).actions.labels
      = ["a"] := by
  decide

/-- Claim C4: on a template that holds at least one action, `toggle_input(enable)` changes
nothing, whatever the value of `enable`: the whole template, `has_input()` included, is the
same afterwards. -/
theorem toggle_input_noop_with_actions (t : notification_template) (enable : Bool)
    (h : 1 ≤ t.actions.count) : t.toggle_input enable = t := by
  have h0 : t.actions.empty = false := by
    simp only [actions_t.empty, actions_t.count] at *
    simp
    omega
  simp [notification_template.toggle_input, h0]

/-- Witness of claim C4 on the template with one action. -/
theorem toggle_input_noop_with_actions_witness :
    1 ≤ one_action.actions.count ∧
    one_action.toggle_input true = one_action ∧
    one_action.toggle_input false = one_action :=
  ⟨by decide, toggle_input_noop_with_actions _ true (by decide), toggle_input_noop_with_actions _ false (by decide)⟩

/-- Claim C5: on a template that already holds 5 actions both `add_action` overloads change
nothing: the count stays 5 and the stored labels are the same, in the same order. -/
theorem add_action_rejected_when_full (t : notification_template) (label : String) (ilist : List String)
    (h : t.actions.count = 5) :
    t.add_action label = t ∧ t.add_action_ilist ilist = t ∧
    (t.add_action label).actions.count = 5 ∧ (t.add_action_ilist ilist).actions.count = 5 ∧
    (t.add_action label).actions.labels = t.actions.labels ∧
    (t.add_action_ilist ilist).actions.labels = t.actions.labels := by
  have h5 : t.actions.actions_count_ = 5 := h
  have e1 : t.add_action label = t := by
    simp [notification_template.add_action, actions_t.add_action, h5]
  have e2 : t.add_action_ilist ilist = t := by
    cases ilist <;> simp [notification_template.add_action_ilist, actions_t.add_action_ilist, h5]
  rw [e1, e2]
  exact ⟨rfl, rfl, h, h, rfl, rfl⟩

/-- Witness of claim C5 on the template with the five labels a, b, c, d, e. -/
theorem add_action_rejected_when_full_witness :
    five_actions.actions.count = 5 ∧
    (five_actions.add_action "f").actions.count = 5 ∧
    (five_actions.add_action_ilist ["f", "g"]).actions.count = 5 ∧
    (five_actions.add_action "f").actions.labels = ["a", "b", "c", "d", "e"] ∧
    (five_actions.add_action_ilist ["f", "g"]).actions.labels = ["a", "b", "c", "d", "e"] :=
  ⟨by decide,
    (add_action_rejected_when_full five_actions "f" ["f", "g"] (by decide)).2.2.1,
    (add_action_rejected_when_full five_actions "f" ["f", "g"] (by decide)).2.2.2.1,
    (add_action_rejected_when_full five_actions "f" ["f", "g"] (by decide)).2.2.2.2.1,
    (add_action_rejected_when_full five_actions "f" ["f", "g"] (by decide)).2.2.2.2.2⟩

/-- Claim C7: the eight template kinds in declared order (the list holds every kind) have
`text_fields_count()` equal to the entries 1, 2, 2, 3, 1, 2, 2, 3. -/
theorem text_fields_count_matches_table :
    (∀ k : notification_template_type, k ∈ notification_template_type.declared) ∧
    notification_template_type.declared.map
      (fun k => (notification_template.mk_type k).text_fields_count) = [1, 2, 2, 3, 1, 2, 2, 3] := by
  refine ⟨?_, by decide⟩
  intro k
  cases k <;> decide

/-! ## Theorems: the lifecycle registry -/

theorem calls_for_append (id : Int) (l1 l2 : List (Int × platform_call)) :
    calls_for id (l1 ++ l2) = calls_for id l1 ++ calls_for id l2 := by
  simp [calls_for]

theorem calls_for_tag (id k : Int) (cs : List platform_call) :
    calls_for id (cs.map (fun c => (k, c))) = if k = id then cs else [] := by
  unfold calls_for
  by_cases h : k = id
  · subst h
    simp [List.filter_map, Function.comp_def]
  · simp [List.filter_map, Function.comp_def, h]

theorem map_find_cons {β : Type} (e : Int × β) (m : List (Int × β)) (id : Int) :
    map_find (e :: m) id = if e.1 = id then some e.2 else map_find m id := by
  unfold map_find
  by_cases h : e.1 = id
  · simp [List.find?_cons, h]
  · simp [List.find?_cons, h]

theorem map_find_none_of_lt {β : Type} (m : List (Int × β)) (id : Int)
    (h : ∀ e ∈ m, id < e.1) : map_find m id = none := by
  induction m with
  | nil => rfl
  | cons e m ih =>
    rw [map_find_cons]
    have := h e (List.mem_cons_self _ _)
    rw [if_neg (by omega)]
    exact ih (fun x hx => h x (List.mem_cons_of_mem _ hx))

theorem sweep_fst (m : List (Int × notify)) :
    (notification.sweep m).1 = m.filter (fun e => !e.2.is_ready_for_deletion) := by
  induction m with
  | nil => rfl
  | cons e m ih =>
    obtain ⟨k, n⟩ := e
    cases hr : n.is_ready_for_deletion <;> simp [notification.sweep, hr, ih]

theorem sweep_calls_absent (m : List (Int × notify)) (id : Int) (h : ∀ e ∈ m, e.1 ≠ id) :
    calls_for id (notification.sweep m).2 = [] := by
  induction m with
  | nil => rfl
  | cons e m ih =>
    obtain ⟨k, n⟩ := e
    have hk : k ≠ id := h (k, n) (List.mem_cons_self _ _)
    have ih1 := ih (fun x hx => h x (List.mem_cons_of_mem _ hx))
    cases hr : n.is_ready_for_deletion
    · simp [notification.sweep, hr, ih1]
    · simp [notification.sweep, hr, calls_for_append, calls_for_tag, hk, ih1]

theorem sweep_calls_present (m : List (Int × notify)) (id : Int) (n : notify)
    (hs : map_sorted m) (hf : map_find m id = some n) :
    calls_for id (notification.sweep m).2 =
      if n.is_ready_for_deletion then n.remove_tokens.2 ++ n.remove_tokens.1.destroy else [] := by
  induction m with
  | nil => simp [map_find] at hf
  | cons e m ih =>
    obtain ⟨k, n1⟩ := e
    have hs1 : map_sorted m := (List.pairwise_cons.mp hs).2
    have hlt : ∀ x ∈ m, k < x.1 := (List.pairwise_cons.mp hs).1
    rw [map_find_cons] at hf
    by_cases hk : k = id
    · subst hk
      simp only [if_true, Option.some.injEq] at hf
      subst hf
      have habs : calls_for k (notification.sweep m).2 = [] :=
        sweep_calls_absent m k (fun x hx => by have := hlt x hx; omega)
      cases hr : n1.is_ready_for_deletion
      · simp [notification.sweep, hr, habs]
      · simp [notification.sweep, hr, calls_for_append, calls_for_tag, habs]
    · simp only [hk, if_false] at hf
      have ih1 := ih hs1 hf
      cases hr : n1.is_ready_for_deletion
      · simpa [notification.sweep, hr] using ih1
      · simpa [notification.sweep, hr, calls_for_append, calls_for_tag, hk] using ih1

theorem sweep_sorted (m : List (Int × notify)) (hs : map_sorted m) :
    map_sorted (notification.sweep m).1 := by
  rw [sweep_fst]
  exact List.Pairwise.filter _ hs

theorem map_find_filter {β : Type} (m : List (Int × β)) (p : β → Bool) (id : Int)
    (hs : map_sorted m) :
    map_find (m.filter (fun e => p e.2)) id = (map_find m id).filter p := by
  induction m with
  | nil => rfl
  | cons e m ih =>
    have hs1 : map_sorted m := (List.pairwise_cons.mp hs).2
    have hlt : ∀ x ∈ m, e.1 < x.1 := (List.pairwise_cons.mp hs).1
    have ih1 := ih hs1
    by_cases hk : e.1 = id
    · have hnone : map_find m id = none :=
        map_find_none_of_lt m id (fun x hx => by have := hlt x hx; omega)
      cases hp : p e.2
      · rw [List.filter_cons_of_neg (by simp [hp]), ih1, hnone, map_find_cons, if_pos hk]
        simp [Option.filter, hp]
      · rw [List.filter_cons_of_pos (by simp [hp]), map_find_cons, map_find_cons, if_pos hk, if_pos hk]
        simp [Option.filter, hp]
    · cases hp : p e.2
      · rw [List.filter_cons_of_neg (by simp [hp]), ih1, map_find_cons, if_neg hk]
      · rw [List.filter_cons_of_pos (by simp [hp]), map_find_cons, map_find_cons, if_neg hk,
          if_neg hk, ih1]

theorem mark_entry_sorted (m : List (Int × notify)) (id : Int) (hs : map_sorted m) :
    map_sorted (notification.mark_entry m id) := by
  unfold map_sorted notification.mark_entry
  rw [List.pairwise_map]
  refine hs.imp ?_
  intro a b hab
  by_cases ha : a.1 = id <;> by_cases hb : b.1 = id <;> simp [ha, hb] <;> omega

theorem map_find_mark_entry (m : List (Int × notify)) (id : Int) :
    map_find (notification.mark_entry m id) id
      = (map_find m id).map notify.mark_as_ready_for_deletion := by
  induction m with
  | nil => rfl
  | cons e m ih =>
    rw [map_find_cons]
    by_cases hk : e.1 = id
    · simp [notification.mark_entry, map_find, hk]
    · rw [if_neg hk, ← ih]
      simp [notification.mark_entry, map_find, hk]

theorem mem_of_map_find {β : Type} (m : List (Int × β)) (id : Int) (v : β)
    (h : map_find m id = some v) : (id, v) ∈ m := by
  induction m with
  | nil => simp [map_find] at h
  | cons e m ih =>
    rw [map_find_cons] at h
    by_cases hk : e.1 = id
    · simp only [hk, if_true, Option.some.injEq] at h
      have : e = (id, v) := by
        obtain ⟨a, b⟩ := e
        simp_all
      rw [this]
      exact List.mem_cons_self _ _
    · simp only [hk, if_false] at h
      exact List.mem_cons_of_mem _ (ih h)

theorem calls_for_sweep_of_find_none (m : List (Int × notify)) (id : Int)
    (hf : map_find m id = none) : calls_for id (notification.sweep m).2 = [] := by
  apply sweep_calls_absent
  intro e he hk
  induction m with
  | nil => simp at he
  | cons x m ih =>
    rw [map_find_cons] at hf
    by_cases hx : x.1 = id
    · simp [hx] at hf
    · simp only [hx, if_false] at hf
      rcases List.mem_cons.mp he with h | h
      · exact hx (h ▸ hk)
      · exact ih hf h

/-- Claim C9: for a registered id whose native handle is not null (and whose tokens are not
yet unsubscribed, as for every stored entry), two calls of `mark_as_ready_for_deletion(id)`
make, for that entry, exactly the three unsubscribing calls, once each; the entry is destroyed
in the sweep that unsubscribes it and is gone afterwards. -/
theorem mark_twice_unsubscribes_once (s : notification) (id : Int) (n : notify) (h : Nat)
    (hs : map_sorted s.notifys) (hf : map_find s.notifys id = some n)
    (hh : n._notify = some h) (hrem : n._previously_token_removed = false) :
    calls_for id ((s.mark_as_ready_for_deletion id).2 ++
        ((s.mark_as_ready_for_deletion id).1.mark_as_ready_for_deletion id).2)
      = [.Activated_remove h n._activated_token, .Dismissed_remove h n._dismissed_token,
         .Failed_remove h n._failed_token] ∧
    map_find ((s.mark_as_ready_for_deletion id).1.mark_as_ready_for_deletion id).1.notifys id
      = none := by
  have hfind1 := map_find_filter s.notifys (fun v => !v.is_ready_for_deletion) id hs
  rw [← sweep_fst, hf] at hfind1
  have hcalls1 := sweep_calls_present s.notifys id n hs hf
  have hsorted1 := sweep_sorted s.notifys hs
  cases hr : n.is_ready_for_deletion
  · -- the entry is active: the first call marks it, the second call sweeps it
    have hr0 : n._ready_for_deletion = false := hr
    simp only [hr, Option.filter, Bool.not_false, if_true] at hfind1
    have e1 : s.mark_as_ready_for_deletion id
        = ({ s with notifys := notification.mark_entry (notification.sweep s.notifys).1 id },
            (notification.sweep s.notifys).2) := by
      simp [notification.mark_as_ready_for_deletion, hfind1]
    rw [e1]
    simp only [hr] at hcalls1
    have hs2 := mark_entry_sorted _ id hsorted1
    have hf2 : map_find (notification.mark_entry (notification.sweep s.notifys).1 id) id
        = some n.mark_as_ready_for_deletion := by
      rw [map_find_mark_entry, hfind1]; rfl
    have hcalls2 := sweep_calls_present _ id _ hs2 hf2
    have hfind2 := map_find_filter _ (fun v => !v.is_ready_for_deletion) id hs2
    rw [← sweep_fst, hf2] at hfind2
    have hfind2n : map_find (notification.sweep
        (notification.mark_entry (notification.sweep s.notifys).1 id)).1 id = none := by
      rw [hfind2]
      simp [Option.filter, notify.mark_as_ready_for_deletion, notify.is_ready_for_deletion]
    have e2 : notification.mark_as_ready_for_deletion
        { s with notifys := notification.mark_entry (notification.sweep s.notifys).1 id } id
        = ({ s with notifys := (notification.sweep
              (notification.mark_entry (notification.sweep s.notifys).1 id)).1 },
            (notification.sweep (notification.mark_entry (notification.sweep s.notifys).1 id)).2) := by
      simp [notification.mark_as_ready_for_deletion, hfind2n]
    rw [e2]
    refine ⟨?_, hfind2n⟩
    rw [calls_for_append, hcalls1, hcalls2]
    simp [notify.mark_as_ready_for_deletion, notify.is_ready_for_deletion, notify.remove_tokens,
      notify.destroy, hh, hrem]
  · -- the entry is already ready: the first call sweeps it, the second finds nothing
    have hr0 : n._ready_for_deletion = true := hr
    simp only [hr, Option.filter, Bool.not_true] at hfind1
    have hfind1n : map_find (notification.sweep s.notifys).1 id = none := by simpa using hfind1
    have e1 : s.mark_as_ready_for_deletion id
        = ({ s with notifys := (notification.sweep s.notifys).1 },
            (notification.sweep s.notifys).2) := by
      simp [notification.mark_as_ready_for_deletion, hfind1n]
    rw [e1]
    simp only [hr, if_true] at hcalls1
    have hcalls2 := calls_for_sweep_of_find_none _ id hfind1n
    have hfind2 := map_find_filter _ (fun v => !v.is_ready_for_deletion) id hsorted1
    rw [← sweep_fst, hfind1n] at hfind2
    have hfind2n : map_find (notification.sweep (notification.sweep s.notifys).1).1 id = none := by
      simpa [Option.filter] using hfind2
    have e2 : notification.mark_as_ready_for_deletion
        { s with notifys := (notification.sweep s.notifys).1 } id
        = ({ s with notifys := (notification.sweep (notification.sweep s.notifys).1).1 },
            (notification.sweep (notification.sweep s.notifys).1).2) := by
      simp [notification.mark_as_ready_for_deletion, hfind2n]
    rw [e2]
    refine ⟨?_, hfind2n⟩
    rw [calls_for_append, hcalls1, hcalls2]
    simp [notify.remove_tokens, notify.destroy, hh, hrem, hr0]

/-- Witness of claim C9 on the service that shows one notification with id 7. -/
theorem mark_twice_unsubscribes_once_witness :
    map_sorted example_shown_service.notifys ∧
    map_find example_shown_service.notifys 7 = some ⟨some 1, 11, 12, 13, false, false⟩ ∧
    calls_for 7 ((example_shown_service.mark_as_ready_for_deletion 7).2 ++
        ((example_shown_service.mark_as_ready_for_deletion 7).1.mark_as_ready_for_deletion 7).2)
      = [.Activated_remove 1 11, .Dismissed_remove 1 12, .Failed_remove 1 13] ∧
    map_find
      ((example_shown_service.mark_as_ready_for_deletion 7).1.mark_as_ready_for_deletion 7).1.notifys
      7 = none :=
  ⟨by decide, by decide,
    mark_twice_unsubscribes_once example_shown_service 7 ⟨some 1, 11, 12, 13, false, false⟩ 1
      (by decide) (by decide) rfl rfl⟩

theorem mem_map_emplace {β : Type} (m : List (Int × β)) (k : Int) (v : β) (x : Int × β)
    (h : x ∈ map_emplace m k v) : x = (k, v) ∨ x ∈ m := by
  induction m with
  | nil => simpa [map_emplace] using h
  | cons e m ih =>
    simp only [map_emplace] at h
    split at h
    · rcases List.mem_cons.mp h with h | h
      · exact Or.inl h
      · exact Or.inr h
    · split at h
      · exact Or.inr h
      · rcases List.mem_cons.mp h with h | h
        · exact Or.inr (h ▸ List.mem_cons_self _ _)
        · rcases ih h with h | h
          · exact Or.inl h
          · exact Or.inr (List.mem_cons_of_mem _ h)

theorem map_emplace_sorted {β : Type} (m : List (Int × β)) (k : Int) (v : β)
    (hs : map_sorted m) : map_sorted (map_emplace m k v) := by
  induction m with
  | nil => simp [map_emplace, map_sorted]
  | cons e m ih =>
    have hs1 : map_sorted m := (List.pairwise_cons.mp hs).2
    have hlt : ∀ x ∈ m, e.1 < x.1 := (List.pairwise_cons.mp hs).1
    simp only [map_emplace]
    split
    · next hk =>
      refine List.pairwise_cons.mpr ⟨?_, hs⟩
      intro x hx
      rcases List.mem_cons.mp hx with h | h
      · rw [h]; exact hk
      · have := hlt x h
        show k < x.1
        omega
    · split
      · exact hs
      · next h1 h2 =>
        refine List.pairwise_cons.mpr ⟨?_, ih hs1⟩
        intro x hx
        rcases mem_map_emplace m k v x hx with h | h
        · rw [h]
          show e.1 < k
          omega
        · exact hlt x h

theorem registry_inv_emplace (m : List (Int × notify)) (k : Int) (v : notify)
    (hv : v._previously_token_removed = false) (h : registry_inv m) :
    registry_inv (map_emplace m k v) := by
  refine ⟨map_emplace_sorted m k v h.1, ?_⟩
  intro e he
  rcases mem_map_emplace m k v e he with h1 | h1
  · rw [h1]; exact hv
  · exact h.2 e h1

theorem registry_inv_sweep (m : List (Int × notify)) (h : registry_inv m) :
    registry_inv (notification.sweep m).1 := by
  refine ⟨sweep_sorted m h.1, ?_⟩
  rw [sweep_fst]
  intro e he
  exact h.2 e (List.mem_filter.mp he).1

theorem registry_inv_mark_entry (m : List (Int × notify)) (id : Int) (h : registry_inv m) :
    registry_inv (notification.mark_entry m id) := by
  refine ⟨mark_entry_sorted m id h.1, ?_⟩
  intro e he
  simp only [notification.mark_entry, List.mem_map] at he
  obtain ⟨x, hx, rfl⟩ := he
  split
  · exact h.2 x hx
  · exact h.2 x hx

theorem registry_inv_erase (m : List (Int × notify)) (id : Int) (h : registry_inv m) :
    registry_inv (map_erase m id) := by
  refine ⟨List.Pairwise.filter _ h.1, ?_⟩
  intro e he
  exact h.2 e (List.mem_filter.mp he).1

/-- Every operation of the service keeps the registry invariant. -/
theorem registry_inv_operations (s : notification) (h : registry_inv s.notifys) :
    (∀ id, registry_inv (s.mark_as_ready_for_deletion id).1.notifys) ∧
    (∀ nc id r, s.hide nc id = .ok r → registry_inv r.2.1.notifys) ∧
    (∀ nc, registry_inv (s.clear nc).1.notifys) ∧
    (∀ p toast hp, registry_inv (s.show_ p toast hp).service.notifys) := by
  refine ⟨?_, ?_, ?_, ?_⟩
  · intro id
    unfold notification.mark_as_ready_for_deletion
    simp only []
    split
    · exact registry_inv_mark_entry _ id (registry_inv_sweep _ h)
    · exact registry_inv_sweep _ h
  · intro nc id r hr
    unfold notification.hide at hr
    split at hr
    · cases hr
    · split at hr
      · cases hr; exact h
      · split at hr
        · cases hr; exact h
        · cases hr; exact registry_inv_erase _ id h
  · intro nc
    unfold notification.clear
    split
    · exact h
    · exact ⟨List.Pairwise.nil, by simp⟩
  · intro p toast hp
    unfold notification.show_ notification.show_impl
    split
    · next r hr =>
      split at hr
      · cases hr; exact h
      · split at hr
        · cases hr; exact h
        · simp only [] at hr
          split at hr
          · cases hr
          · cases hr
            exact registry_inv_emplace _ _ _ rfl h
    · exact h

theorem map_find_erase_self {β : Type} (m : List (Int × β)) (id : Int) :
    map_find (map_erase m id) id = none := by
  induction m with
  | nil => rfl
  | cons e m ih =>
    by_cases hk : e.1 = id
    · simpa [map_erase, hk] using ih
    · have : map_erase (e :: m) id = e :: map_erase m id := by simp [map_erase, hk]
      rw [this, map_find_cons, if_neg hk, ih]

theorem map_find_erase_other {β : Type} (m : List (Int × β)) (id k : Int) (h : k ≠ id) :
    map_find (map_erase m id) k = map_find m k := by
  induction m with
  | nil => rfl
  | cons e m ih =>
    by_cases hk : e.1 = id
    · have : map_erase (e :: m) id = map_erase m id := by simp [map_erase, hk]
      rw [this, ih, map_find_cons, if_neg (by omega)]
    · have : map_erase (e :: m) id = e :: map_erase m id := by simp [map_erase, hk]
      rw [this, map_find_cons, map_find_cons, ih]

/-- Claim C10 as amended: on an initialized service for which `create_notifier()` yields a
notifier, `hide(id)` of an entry that is marked ready for deletion and not yet swept asks the
platform to hide the notification, erases the entry (and no other) and returns true. -/
theorem hide_ready_entry_with_notifier (s : notification) (id : Int) (n : notify)
    (hinit : s.is_initialized = true) (hf : map_find s.notifys id = some n)
    (_hr : n.is_ready_for_deletion = true) :
    s.hide true id = .ok (true,
      { s with notifys := map_erase s.notifys id, toast_mapper := map_erase s.toast_mapper id },
      ([platform_call.Hide n.notification] ++ n.remove_tokens.2 ++ n.remove_tokens.1.destroy).map
        (fun c => (id, c))) ∧
    map_find (map_erase s.notifys id) id = none ∧
    ∀ k, k ≠ id → map_find (map_erase s.notifys id) k = map_find s.notifys k := by
  refine ⟨?_, map_find_erase_self _ _, fun k hk => map_find_erase_other _ _ _ hk⟩
  simp only [notification.hide, hinit, hf]
  rfl

/-- Witness of claim C10 as amended, on the example service with the ready entry 7. -/
theorem hide_ready_entry_with_notifier_witness :
    example_ready_service.is_initialized = true ∧
    map_find example_ready_service.notifys 7 = some ⟨some 1, 11, 12, 13, true, false⟩ ∧
    notify.is_ready_for_deletion ⟨some 1, 11, 12, 13, true, false⟩ = true ∧
    example_ready_service.hide true 7 = .ok (true,
      { example_ready_service with notifys := [], toast_mapper := [] },
      [(7, .Hide (some 1)), (7, .Activated_remove 1 11), (7, .Dismissed_remove 1 12),
       (7, .Failed_remove 1 13)]) :=
  ⟨by decide, by decide, by decide,
    (hide_ready_entry_with_notifier example_ready_service 7 ⟨some 1, 11, 12, 13, true, false⟩
      (by decide) (by decide) (by decide)).1⟩

/-- Claim C10 as stated fails: on the initialized example service the entry 7 is ready for
deletion and not swept, and when `create_notifier()` yields no notifier `hide(7)` returns
false, makes no platform call and leaves the entry in the registry. -/
theorem hide_ready_entry_fails_without_notifier :
    example_ready_service.is_initialized = true ∧
    map_find example_ready_service.notifys 7 = some ⟨some 1, 11, 12, 13, true, false⟩ ∧
    notify.is_ready_for_deletion ⟨some 1, 11, 12, 13, true, false⟩ = true ∧
    example_ready_service.hide false 7 = .ok (false, example_ready_service, []) :=
  ⟨by decide, by decide, by decide, rfl⟩

/-- Claim C2, the code at the failing input: a template with `expiration(1000)` is shown at
clock reading 5000, so the platform expiration instant is 6000; the integer handed to the
`Dismissed` lambda is nevertheless 0, and a `user_canceled` dismissal is passed on to the
handler as `user_canceled` at every clock reading, also at and after the instant. -/
theorem dismissal_after_expiration_stays_user_canceled (from_time_t : Int → Int) (now : Int) :
    example_toast.expiration_ = 1000 ∧
    (notification.show_ example_service example_platform example_toast true).id = 7 ∧
    (notification.show_ example_service example_platform example_toast true).calls
      = [.ExpirationTime 1 6000, .subscribe 1 0 7, .Show 1] ∧
    notification.subscribed_expiration
      (notification.show_ example_service example_platform example_toast true).calls = some 0 ∧
    (notification.on_dismissed
      (notification.show_ example_service example_platform example_toast true).service
      from_time_t 0 7 now .user_canceled).1 = .dismissed .user_canceled := by
  refine ⟨by decide, by decide, by decide, by decide, ?_⟩
  simp [notification.on_dismissed, notification.dismissed_reason]


/-! ## Theorems: the markup document and the compiler -/

namespace XmlNodes

theorem get_elements_append (T : String) (xs ys : XmlNodes) :
    get_elements_by_tag_name T (xs.append ys)
      = get_elements_by_tag_name T xs ++ get_elements_by_tag_name T ys := by
  induction xs with
  | nil => simp [append, get_elements_by_tag_name]
  | element tg attrs ch nx _ ih => simp [append, get_elements_by_tag_name, ih]
  | text d nx ih => simp [append, get_elements_by_tag_name, ih]

theorem get_elements_to_nodes (T : String) (e : XmlElement) (nx : XmlNodes) :
    get_elements_by_tag_name T (e.to_nodes nx)
      = get_elements_by_tag_name T (e.to_nodes .nil) ++ get_elements_by_tag_name T nx := by
  simp [XmlElement.to_nodes, get_elements_by_tag_name]

/-- Frame lemma: a mutation through `GetAt(k)` that keeps what `g` reads from the `T` elements
of the mutated element keeps what `g` reads from the `T` elements of the document. -/
theorem map_get_elements_modify_nth {β : Type} (T tag : String) (f : XmlElement → XmlElement)
    (g : XmlElement → β)
    (hg : ∀ tg attrs ch ch1, g ⟨tg, attrs, ch⟩ = g ⟨tg, attrs, ch1⟩)
    (hf : ∀ e : XmlElement, e.tag = tag →
      (get_elements_by_tag_name T ((f e).to_nodes .nil)).map g
        = (get_elements_by_tag_name T (e.to_nodes .nil)).map g)
    (k : Nat) (xs : XmlNodes) :
    (get_elements_by_tag_name T (modify_nth tag f k xs)).map g
      = (get_elements_by_tag_name T xs).map g := by
  induction xs generalizing k with
  | nil => simp [modify_nth]
  | text d nx ih => simp [modify_nth, get_elements_by_tag_name, ih]
  | element tg attrs ch nx ihc ihn =>
    have hhead : ∀ ch1 : XmlNodes,
        (if tg = T then [(⟨tg, attrs, ch1⟩ : XmlElement)] else []).map g
          = (if tg = T then [(⟨tg, attrs, ch⟩ : XmlElement)] else []).map g := by
      intro ch1
      by_cases h : tg = T <;> simp [h, hg _ attrs ch1 ch]
    have hin : ∀ j, (get_elements_by_tag_name T (.element tg attrs (modify_nth tag f j ch) nx)).map g
        = (get_elements_by_tag_name T (.element tg attrs ch nx)).map g := by
      intro j
      simp only [get_elements_by_tag_name, List.map_append, hhead, ihc]
    have hnx : ∀ j, (get_elements_by_tag_name T (.element tg attrs ch (modify_nth tag f j nx))).map g
        = (get_elements_by_tag_name T (.element tg attrs ch nx)).map g := by
      intro j
      simp only [get_elements_by_tag_name, List.map_append, ihn]
    unfold modify_nth
    simp only []
    by_cases htag : tg = tag
    · subst htag
      simp only [if_true]
      cases k with
      | zero =>
        have h1 := hf ⟨tg, attrs, ch⟩ rfl
        simp only []
        rw [get_elements_to_nodes, List.map_append, h1]
        simp [XmlElement.to_nodes, get_elements_by_tag_name]
      | succ j =>
        simp only []
        split
        · exact hin j
        · exact hnx _
    · simp only [htag, if_false]
      split
      · exact hin k
      · exact hnx _

theorem length_get_elements_modify_nth (T tag : String) (f : XmlElement → XmlElement)
    (hf : ∀ e : XmlElement, e.tag = tag →
      (get_elements_by_tag_name T ((f e).to_nodes .nil)).length
        = (get_elements_by_tag_name T (e.to_nodes .nil)).length)
    (k : Nat) (xs : XmlNodes) :
    (get_elements_by_tag_name T (modify_nth tag f k xs)).length
      = (get_elements_by_tag_name T xs).length := by
  have := map_get_elements_modify_nth T tag f (fun _ => ()) (fun _ _ _ _ => rfl)
    (fun e he => by
      apply List.ext_getElem
      · simpa using hf e he
      · intros; rfl) k xs
  simpa using congrArg List.length this

/-- Modifying the first element with a tag that does not occur in `xs`, in `xs ++ ys`. -/
theorem modify_nth_append_of_absent (tag : String) (f : XmlElement → XmlElement) (k : Nat)
    (xs ys : XmlNodes) (h : get_elements_by_tag_name tag xs = []) :
    modify_nth tag f k (xs.append ys) = xs.append (modify_nth tag f k ys) := by
  induction xs generalizing k with
  | nil => simp [append]
  | text d nx ih =>
    simp only [get_elements_by_tag_name] at h
    simp [append, modify_nth, ih k h]
  | element tg attrs ch nx _ ihn =>
    simp only [get_elements_by_tag_name, List.append_eq_nil, ite_eq_right_iff, List.cons_ne_self,
      imp_false] at h
    obtain ⟨h1, h2, h3⟩ := h
    simp [append, modify_nth, h1, h2, ihn k h3]


theorem toast_root_modify_nth (tag : String) (f : XmlElement → XmlElement) (k : Nat)
    (xs : XmlNodes) (ht : tag ≠ "toast") (h : toast_root xs) :
    toast_root (modify_nth tag f k xs) := by
  obtain ⟨A, C, rfl⟩ := h
  unfold modify_nth
  simp only [Ne.symm ht, if_false]
  split
  · exact ⟨A, _, rfl⟩
  · exact ⟨A, C, by simp [modify_nth]⟩

/-- Frame lemma for a mutation that only changes attributes of an element with another tag. -/
theorem map_get_elements_modify_attrs {β : Type} (T tag : String) (f : XmlElement → XmlElement)
    (g : XmlElement → β)
    (hg : ∀ tg attrs ch ch1, g ⟨tg, attrs, ch⟩ = g ⟨tg, attrs, ch1⟩)
    (hne : T ≠ tag)
    (hf : ∀ e : XmlElement, (f e).tag = e.tag ∧ (f e).children = e.children)
    (k : Nat) (xs : XmlNodes) :
    (get_elements_by_tag_name T (modify_nth tag f k xs)).map g
      = (get_elements_by_tag_name T xs).map g := by
  apply map_get_elements_modify_nth T tag f g hg
  intro e he
  have h1 : ¬ e.tag = T := fun h => hne (h ▸ he)
  simp [XmlElement.to_nodes, get_elements_by_tag_name, (hf e).1, (hf e).2, h1]

theorem length_get_elements_modify_attrs (T tag : String) (f : XmlElement → XmlElement)
    (hf : ∀ e : XmlElement, (f e).tag = e.tag ∧ (f e).children = e.children)
    (k : Nat) (xs : XmlNodes) :
    (get_elements_by_tag_name T (modify_nth tag f k xs)).length
      = (get_elements_by_tag_name T xs).length := by
  apply length_get_elements_modify_nth T tag f
  intro e _
  by_cases h1 : e.tag = T <;>
    simp [XmlElement.to_nodes, get_elements_by_tag_name, (hf e).1, (hf e).2, h1]

/-- Frame lemma for appending children that hold no `T` element. -/
theorem map_get_elements_modify_append {β : Type} (T tag : String) (c : XmlNodes)
    (g : XmlElement → β)
    (hg : ∀ tg attrs ch ch1, g ⟨tg, attrs, ch⟩ = g ⟨tg, attrs, ch1⟩)
    (hc : get_elements_by_tag_name T c = [])
    (k : Nat) (xs : XmlNodes) :
    (get_elements_by_tag_name T
        (modify_nth tag (fun e => { e with children := e.children.append c }) k xs)).map g
      = (get_elements_by_tag_name T xs).map g := by
  apply map_get_elements_modify_nth T tag _ g hg
  intro e _
  by_cases h1 : e.tag = T <;>
    simp [XmlElement.to_nodes, get_elements_by_tag_name, get_elements_append, hc, h1,
      hg _ e.attributes (e.children.append c) e.children]

theorem length_get_elements_modify_append (T tag : String) (c : XmlNodes)
    (hc : get_elements_by_tag_name T c = [])
    (k : Nat) (xs : XmlNodes) :
    (get_elements_by_tag_name T
        (modify_nth tag (fun e => { e with children := e.children.append c }) k xs)).length
      = (get_elements_by_tag_name T xs).length := by
  have := map_get_elements_modify_append T tag c (fun _ => ()) (fun _ _ _ _ => rfl) hc k xs
  simpa using congrArg List.length this

end XmlNodes

namespace xml_notifcation_field
open XmlNodes

theorem before_actions_modify_attrs (tag : String) (f : XmlElement → XmlElement) (k : Nat)
    (xml : XmlNodes) (ht : tag ≠ "toast")
    (hf : ∀ e : XmlElement, (f e).tag = e.tag ∧ (f e).children = e.children)
    (h : before_actions xml) : before_actions (modify_nth tag f k xml) := by
  refine ⟨toast_root_modify_nth tag f k xml ht h.root, ?_, ?_, ?_⟩
  · rw [length_get_elements_modify_attrs _ tag f hf]; exact h.no_actions
  · rw [length_get_elements_modify_attrs _ tag f hf]; exact h.no_action
  · rw [length_get_elements_modify_attrs _ tag f hf]; exact h.binding

theorem before_actions_modify_append (tag : String) (c : XmlNodes) (k : Nat)
    (xml : XmlNodes) (ht : tag ≠ "toast")
    (h1 : get_elements_by_tag_name "actions" c = [])
    (h2 : get_elements_by_tag_name "action" c = [])
    (h3 : get_elements_by_tag_name "binding" c = [])
    (h : before_actions xml) :
    before_actions (modify_nth tag (fun e => { e with children := e.children.append c }) k xml) := by
  refine ⟨toast_root_modify_nth tag _ k xml ht h.root, ?_, ?_, ?_⟩
  · rw [length_get_elements_modify_append _ tag c h1]; exact h.no_actions
  · rw [length_get_elements_modify_append _ tag c h2]; exact h.no_action
  · rw [length_get_elements_modify_append _ tag c h3]; exact h.binding

theorem set_attribute_frame (name value : String) (e : XmlElement) :
    (e.set_attribute name value).tag = e.tag ∧ (e.set_attribute name value).children = e.children :=
  ⟨rfl, rfl⟩

theorem append_attribute_text_frame (name value : String) (e : XmlElement) :
    (e.append_attribute_text name value).tag = e.tag ∧
    (e.append_attribute_text name value).children = e.children :=
  ⟨rfl, rfl⟩

theorem skeleton_texts_elements (T : String) (hT : T ≠ "text") (first count : Nat) :
    get_elements_by_tag_name T (skeleton_texts first count) = [] := by
  induction count generalizing first with
  | zero => rfl
  | succ n ih => simp [skeleton_texts, get_elements_by_tag_name, Ne.symm hT, ih]

theorem skeleton_texts_length (first count : Nat) :
    (get_elements_by_tag_name "text" (skeleton_texts first count)).length = count := by
  induction count generalizing first with
  | zero => rfl
  | succ n ih => simp [skeleton_texts, get_elements_by_tag_name, ih]

theorem get_template_content_before_actions (type : notification_template_type) :
    before_actions (get_template_content type) := by
  refine ⟨⟨_, _, rfl⟩, ?_, ?_, ?_⟩ <;>
  · unfold get_template_content
    simp only []
    split <;>
      simp [get_elements_by_tag_name, skeleton_texts_elements]

theorem get_template_content_text_length (type : notification_template_type) :
    (get_elements_by_tag_name "text" (get_template_content type)).length
      = internals.text_fields_count.getD type.toNat 0 := by
  unfold get_template_content
  simp only []
  split <;> simp [get_elements_by_tag_name, skeleton_texts_length]


theorem set_bind_toast_generic_spec (xml : XmlNodes) (h : before_actions xml) :
    (set_bind_toast_generic xml).1 = .S_OK ∧ before_actions (set_bind_toast_generic xml).2 ∧
    (get_elements_by_tag_name "text" (set_bind_toast_generic xml).2).length
      = (get_elements_by_tag_name "text" xml).length := by
  unfold set_bind_toast_generic
  rw [if_pos (by simpa using h.binding)]
  refine ⟨rfl, ?_, ?_⟩
  · exact before_actions_modify_attrs "binding" _ 0 xml (by decide)
      (fun e => set_attribute_frame "template" "ToastGeneric" e) h
  · exact length_get_elements_modify_attrs "text" "binding" _
      (fun e => set_attribute_frame "template" "ToastGeneric" e) 0 xml

theorem set_text_field_spec (xml : XmlNodes) (text : String) (pos : Nat)
    (h : before_actions xml) (hpos : pos < (get_elements_by_tag_name "text" xml).length) :
    (set_text_field xml text pos).1 = .S_OK ∧ before_actions (set_text_field xml text pos).2 ∧
    (get_elements_by_tag_name "text" (set_text_field xml text pos).2).length
      = (get_elements_by_tag_name "text" xml).length := by
  unfold set_text_field
  rw [if_pos (by simpa using hpos)]
  refine ⟨rfl, ?_, ?_⟩
  · exact before_actions_modify_append "text" (.text text .nil) pos xml (by decide) rfl rfl rfl h
  · exact length_get_elements_modify_append "text" "text" (.text text .nil) rfl pos xml

theorem text_fields_loop_spec (t : notification_template) (steps i : Nat) (xml : XmlNodes)
    (h : before_actions xml) (hlen : i + steps ≤ (get_elements_by_tag_name "text" xml).length) :
    (text_fields_loop t i steps (.S_OK, xml)).1 = .S_OK ∧
    before_actions (text_fields_loop t i steps (.S_OK, xml)).2 := by
  induction steps generalizing i xml with
  | zero => exact ⟨rfl, h⟩
  | succ n ih =>
    obtain ⟨h1, h2, h3⟩ := set_text_field_spec xml (t.text_field i) i h (by omega)
    have key : text_fields_loop t i (n + 1) (.S_OK, xml)
        = text_fields_loop t (i + 1) n (.S_OK, (set_text_field xml (t.text_field i) i).2) := by
      rw [text_fields_loop]
      simp only [SUCCEEDED, beq_self_eq_true, if_true]
      rw [← h1]
    rw [key]
    exact ih (i + 1) _ h2 (by omega)

theorem find_placement_lt (l : List XmlElement) (start i : Nat)
    (h : find_placement l start = some i) : start ≤ i ∧ i < start + l.length := by
  induction l generalizing start with
  | nil => simp [find_placement] at h
  | cons e rest ih =>
    simp only [find_placement] at h
    split at h
    · simp only [Option.some.injEq] at h
      subst h
      simp
    · have := ih (start + 1) h
      simp only [List.length_cons]
      omega

theorem fold_add_attribute_frame (names : List String) (e : XmlElement) :
    (names.foldl (fun e a => XmlElement.add_attribute e a) e).tag = e.tag ∧
    (names.foldl (fun e a => XmlElement.add_attribute e a) e).children = e.children := by
  induction names generalizing e with
  | nil => exact ⟨rfl, rfl⟩
  | cons a rest ih =>
    simp only [List.foldl_cons]
    exact ⟨(ih _).1, (ih _).2⟩

theorem created_element_elements (T name : String) (names : List String) (h : name ≠ T) :
    get_elements_by_tag_name T
      ((names.foldl (fun e a => XmlElement.add_attribute e a) (XmlElement.create name)).to_nodes
        .nil) = [] := by
  have hf := fold_add_attribute_frame names (XmlElement.create name)
  simp only [XmlElement.to_nodes, get_elements_by_tag_name, hf.1, hf.2]
  simp [XmlElement.create, get_elements_by_tag_name, h]

theorem set_attribution_text_field_spec (xml : XmlNodes) (text : String)
    (h : before_actions xml) :
    (set_attribution_text_field xml text).1 = .S_OK ∧
    before_actions (set_attribution_text_field xml text).2 := by
  have hb : (get_elements_by_tag_name "binding" xml).length > 0 := h.binding
  have h1 : before_actions (util.create_element xml "binding" "text" ["placement"]).2 := by
    unfold util.create_element
    rw [if_pos hb]
    exact before_actions_modify_append "binding" _ 0 xml (by decide)
      (created_element_elements _ _ _ (by decide)) (created_element_elements _ _ _ (by decide))
      (created_element_elements _ _ _ (by decide)) h
  unfold set_attribution_text_field
  simp only []
  split
  · next i hi =>
    have hlt := (find_placement_lt _ 0 i hi).2
    have h2 := before_actions_modify_attrs "text"
      (fun e => e.append_attribute_text "placement" "attribution") i
      (util.create_element xml "binding" "text" ["placement"]).2 (by decide)
      (fun e => append_attribute_text_frame _ _ e) h1
    have hl := length_get_elements_modify_attrs "text" "text"
      (fun e => e.append_attribute_text "placement" "attribution")
      (fun e => append_attribute_text_frame _ _ e) i
      (util.create_element xml "binding" "text" ["placement"]).2
    have := set_text_field_spec _ text i h2 (by rw [hl]; omega)
    exact ⟨this.1, this.2.1⟩
  · exact ⟨rfl, h1⟩


theorem action_element_view (content arguments : String) :
    action_view (action_element content arguments) = (some content, some arguments) := by
  simp [action_view, action_element, XmlElement.get_named_item, XmlElement.set_attribute,
    XmlElement.create, XmlElement.set_in]

theorem action_element_elements (content arguments : String) :
    get_elements_by_tag_name "action" ((action_element content arguments).to_nodes .nil)
      = [action_element content arguments] := by
  simp [action_element, XmlElement.to_nodes, XmlElement.set_attribute, XmlElement.create,
    get_elements_by_tag_name]

theorem expected_actions_succ (t : notification_template) (j : Nat) :
    expected_actions t (j + 1)
      = expected_actions t j ++ [(some (t.actions.action_label j), some (format_index j))] := by
  simp [expected_actions, List.range_succ]

/-- One `add_action` on a document that already has its `actions` element. -/
theorem add_action_on_actions (A : List (String × String)) (C acts : XmlNodes)
    (content arguments : String) (hC : get_elements_by_tag_name "actions" C = []) :
    add_action (.element "toast" A (C.append (.element "actions" [] acts .nil)) .nil) content
        arguments
      = (.S_OK, .element "toast" A
          (C.append (.element "actions" []
            (acts.append ((action_element content arguments).to_nodes .nil)) .nil)) .nil) := by
  unfold add_action
  have hlen : (get_elements_by_tag_name "actions"
      (XmlNodes.element "toast" A (C.append (.element "actions" [] acts .nil)) .nil)).length > 0 := by
    simp [get_elements_by_tag_name, get_elements_append]
  rw [if_pos hlen]
  congr 1
  have hin : 0 < (get_elements_by_tag_name "actions"
      (C.append (.element "actions" [] acts .nil))).length := by
    simp [get_elements_by_tag_name, get_elements_append]
  rw [modify_nth]
  simp only [show ¬ ("toast" = "actions") by decide, if_false, hin, if_true]
  rw [modify_nth_append_of_absent _ _ _ _ _ hC]
  simp [modify_nth, XmlElement.append_child, XmlElement.to_nodes, action_element]

/-- The first `add_action`, on a document without an `actions` element. -/
theorem add_action_on_toast (A : List (String × String)) (C : XmlNodes)
    (content arguments : String) (hC : get_elements_by_tag_name "actions" C = []) :
    ∃ A1, add_action (.element "toast" A C .nil) content arguments
      = (.S_OK, .element "toast" A1
          (C.append (.element "actions" [] ((action_element content arguments).to_nodes .nil) .nil))
          .nil) := by
  unfold add_action
  have hlen : ¬ (get_elements_by_tag_name "actions" (XmlNodes.element "toast" A C .nil)).length > 0 := by
    simp [get_elements_by_tag_name, hC]
  have hlen2 : (get_elements_by_tag_name "toast" (XmlNodes.element "toast" A C .nil)).length > 0 := by
    simp [get_elements_by_tag_name]
  rw [if_neg hlen, if_pos hlen2]
  refine ⟨XmlElement.set_in (XmlElement.set_in A "template" "ToastGeneric") "duration" "long", ?_⟩
  simp [modify_nth, XmlElement.append_child, XmlElement.to_nodes, action_element,
    XmlElement.set_attribute, XmlElement.create, XmlNodes.append]

theorem actions_loop_on_actions (t : notification_template) (C : XmlNodes)
    (hC : get_elements_by_tag_name "actions" C = []) (steps j : Nat)
    (A : List (String × String)) (acts : XmlNodes)
    (hv : (get_elements_by_tag_name "action" acts).map action_view = expected_actions t j) :
    ∃ acts1, actions_loop t j steps
        (.S_OK, .element "toast" A (C.append (.element "actions" [] acts .nil)) .nil)
      = .ok (.S_OK, .element "toast" A (C.append (.element "actions" [] acts1 .nil)) .nil) ∧
      (get_elements_by_tag_name "action" acts1).map action_view = expected_actions t (j + steps) := by
  induction steps generalizing j acts with
  | zero => exact ⟨acts, rfl, hv⟩
  | succ n ih =>
    have hstep := add_action_on_actions A C acts (t.actions.action_label j) (format_index j) hC
    have hv1 : (get_elements_by_tag_name "action"
        (acts.append ((action_element (t.actions.action_label j) (format_index j)).to_nodes .nil))).map
          action_view = expected_actions t (j + 1) := by
      rw [get_elements_append, List.map_append, hv, action_element_elements, expected_actions_succ]
      simp [action_element_view]
    obtain ⟨acts1, h1, h2⟩ := ih (j + 1) _ hv1
    refine ⟨acts1, ?_, by rw [h2]; congr 1; omega⟩
    rw [actions_loop]
    simp only [SUCCEEDED, beq_self_eq_true, if_true, hstep, check_hresult]
    exact h1


theorem action_view_children (tg : String) (attrs : List (String × String)) (ch ch1 : XmlNodes) :
    action_view ⟨tg, attrs, ch⟩ = action_view ⟨tg, attrs, ch1⟩ := rfl

theorem after_actions_modify_attrs (L : List (Option String × Option String)) (tag : String)
    (f : XmlElement → XmlElement) (k : Nat) (xml : XmlNodes) (ht : "action" ≠ tag)
    (hf : ∀ e : XmlElement, (f e).tag = e.tag ∧ (f e).children = e.children)
    (h : after_actions L xml) : after_actions L (modify_nth tag f k xml) := by
  refine ⟨?_, ?_⟩
  · rw [length_get_elements_modify_attrs _ tag f hf]; exact h.binding
  · unfold action_views
    rw [map_get_elements_modify_attrs "action" tag f action_view action_view_children ht hf]
    exact h.views

theorem after_actions_modify_append (L : List (Option String × Option String)) (tag : String)
    (c : XmlNodes) (k : Nat) (xml : XmlNodes)
    (h1 : get_elements_by_tag_name "action" c = [])
    (h2 : get_elements_by_tag_name "binding" c = [])
    (h : after_actions L xml) :
    after_actions L (modify_nth tag (fun e => { e with children := e.children.append c }) k xml) := by
  refine ⟨?_, ?_⟩
  · rw [length_get_elements_modify_append _ tag c h2]; exact h.binding
  · unfold action_views
    rw [map_get_elements_modify_append "action" tag c action_view action_view_children h1]
    exact h.views

theorem actions_loop_spec (t : notification_template) (n : Nat) (xml : XmlNodes)
    (h : before_actions xml) :
    ∃ xml1, actions_loop t 0 n (.S_OK, xml) = .ok (.S_OK, xml1) ∧
      after_actions (expected_actions t n) xml1 := by
  obtain ⟨A, C, rfl⟩ := h.root
  have hC : get_elements_by_tag_name "actions" C = [] := by
    have := h.no_actions
    simpa [get_elements_by_tag_name] using this
  have hCa : get_elements_by_tag_name "action" C = [] := by
    have := h.no_action
    simpa [get_elements_by_tag_name] using this
  have hCb : 0 < (get_elements_by_tag_name "binding" C).length := by
    have := h.binding
    simpa [get_elements_by_tag_name] using this
  cases n with
  | zero =>
    refine ⟨_, rfl, h.binding, ?_⟩
    simp [action_views, get_elements_by_tag_name, hCa, expected_actions]
  | succ m =>
    obtain ⟨A1, hfirst⟩ := add_action_on_toast A C (t.actions.action_label 0) (format_index 0) hC
    have hv : (get_elements_by_tag_name "action"
        ((action_element (t.actions.action_label 0) (format_index 0)).to_nodes .nil)).map action_view
          = expected_actions t 1 := by
      rw [action_element_elements]
      simp [action_element_view, expected_actions, List.range_succ]
    obtain ⟨acts1, h1, h2⟩ := actions_loop_on_actions t C hC m 1 A1 _ hv
    refine ⟨.element "toast" A1 (C.append (.element "actions" [] acts1 .nil)) .nil, ?_, ⟨?_, ?_⟩⟩
    · rw [actions_loop]
      simp only [SUCCEEDED, beq_self_eq_true, if_true, hfirst, check_hresult]
      exact h1
    · simp [get_elements_by_tag_name, get_elements_append]
      omega
    · simp only [action_views, get_elements_by_tag_name, get_elements_append, hCa]
      simp [h2, Nat.add_comm]

theorem add_duration_spec (L : List (Option String × Option String)) (xml : XmlNodes)
    (duration : String) (h : after_actions L xml) :
    (add_duration xml duration).1 = .S_OK ∧ after_actions L (add_duration xml duration).2 := by
  unfold add_duration
  split
  · exact ⟨rfl, after_actions_modify_attrs L "toast" _ 0 xml (by decide)
      (fun e => set_attribute_frame _ _ e) h⟩
  · exact ⟨rfl, h⟩

theorem add_scenario_spec (L : List (Option String × Option String)) (xml : XmlNodes)
    (scenario : String) (h : after_actions L xml) :
    (add_scenario xml scenario).1 = .S_OK ∧ after_actions L (add_scenario xml scenario).2 := by
  unfold add_scenario
  split
  · exact ⟨rfl, after_actions_modify_attrs L "toast" _ 0 xml (by decide)
      (fun e => set_attribute_frame _ _ e) h⟩
  · exact ⟨rfl, h⟩

theorem create_element_after_actions (L : List (Option String × Option String)) (xml : XmlNodes)
    (root_node element_name : String) (names : List String)
    (h1 : element_name ≠ "action") (h2 : element_name ≠ "binding") (h : after_actions L xml) :
    after_actions L (util.create_element xml root_node element_name names).2 := by
  unfold util.create_element
  split
  · exact after_actions_modify_append L root_node _ 0 xml
      (created_element_elements _ _ _ h1) (created_element_elements _ _ _ h2) h
  · exact h

theorem audio_attributes_spec (L : List (Option String × Option String)) (xml1 : XmlNodes)
    (f : XmlElement → XmlElement)
    (hf : ∀ e : XmlElement, (f e).tag = e.tag ∧ (f e).children = e.children)
    (h1 : after_actions L xml1) :
    (if (get_elements_by_tag_name "audio" xml1).length > 0 then
        (HRESULT.S_OK, modify_nth "audio" f 0 xml1) else (HRESULT.S_OK, xml1)).1 = .S_OK ∧
    after_actions L (if (get_elements_by_tag_name "audio" xml1).length > 0 then
        (HRESULT.S_OK, modify_nth "audio" f 0 xml1) else (HRESULT.S_OK, xml1)).2 := by
  split
  · exact ⟨rfl, after_actions_modify_attrs L "audio" f 0 _ (by decide) hf h1⟩
  · exact ⟨rfl, h1⟩

theorem set_audio_field_spec (L : List (Option String × Option String)) (xml : XmlNodes)
    (path : String) (option : audio_option_t) (h : after_actions L xml) :
    (set_audio_field xml path option).1 = .S_OK ∧
    after_actions L (set_audio_field xml path option).2 := by
  unfold set_audio_field
  refine audio_attributes_spec L _ _ ?_
    (create_element_after_actions L xml "toast" "audio" _ (by decide) (by decide) h)
  intro e
  cases option <;> cases path.isEmpty <;> exact ⟨rfl, rfl⟩

theorem set_image_field_spec (L : List (Option String × Option String)) (xml : XmlNodes)
    (path : String) (generic circle : Bool) (h : after_actions L xml) :
    (set_image_field xml path generic circle).1 = .S_OK ∧
    after_actions L (set_image_field xml path generic circle).2 := by
  unfold set_image_field
  simp only []
  split
  · refine ⟨rfl, after_actions_modify_attrs L "image" _ 0 _ (by decide) ?_ h⟩
    intro e
    cases generic <;> cases circle <;> exact ⟨rfl, rfl⟩
  · exact ⟨rfl, h⟩

theorem set_hero_image_spec (L : List (Option String × Option String)) (xml : XmlNodes)
    (path : String) (is_inline : Bool) (h : after_actions L xml) :
    (set_hero_image xml path is_inline).1 = .S_OK ∧
    after_actions L (set_hero_image xml path is_inline).2 := by
  unfold set_hero_image
  rw [if_pos (by simpa using h.binding)]
  refine ⟨rfl, ?_⟩
  refine after_actions_modify_append L "binding" _ 0 xml ?_ ?_ h
  · cases is_inline <;>
      simp [XmlElement.to_nodes, XmlElement.set_attribute, XmlElement.create,
        get_elements_by_tag_name]
  · cases is_inline <;>
      simp [XmlElement.to_nodes, XmlElement.set_attribute, XmlElement.create,
        get_elements_by_tag_name]


theorem modern_features_spec (t : notification_template) (xml : XmlNodes)
    (h : before_actions xml) (hin : t.has_input = false) :
    ∃ xml1, modern_features t (.S_OK, xml) = .ok (.S_OK, xml1) ∧
      after_actions (expected_actions t t.actions.count) xml1 := by
  have hs1 : ∃ xml1,
      (if !t.attribution_text_.isEmpty then set_attribution_text_field xml t.attribution_text_
        else (HRESULT.S_OK, xml)) = (.S_OK, xml1) ∧ before_actions xml1 := by
    split
    · obtain ⟨a, b⟩ := set_attribution_text_field_spec xml t.attribution_text_ h
      exact ⟨_, Prod.ext a rfl, b⟩
    · exact ⟨xml, rfl, h⟩
  obtain ⟨xml1, e1, b1⟩ := hs1
  obtain ⟨xml2, e2, a2⟩ := actions_loop_spec t t.actions.count xml1 b1
  have hs3 : ∃ xml3,
      (if t.audio_path_.isEmpty && t.audio_option_ == .default_option then (HRESULT.S_OK, xml2)
        else set_audio_field xml2 t.audio_path_ t.audio_option_) = (.S_OK, xml3) ∧
      after_actions (expected_actions t t.actions.count) xml3 := by
    split
    · exact ⟨xml2, rfl, a2⟩
    · obtain ⟨a, b⟩ := set_audio_field_spec _ xml2 t.audio_path_ t.audio_option_ a2
      exact ⟨_, Prod.ext a rfl, b⟩
  obtain ⟨xml3, e3, a3⟩ := hs3
  have hs4 : ∃ xml4,
      (if t.duration_ != .system then
          add_duration xml3 (if t.duration_ == .short_duration then "short" else "long")
        else (HRESULT.S_OK, xml3)) = (.S_OK, xml4) ∧
      after_actions (expected_actions t t.actions.count) xml4 := by
    split
    · obtain ⟨a, b⟩ := add_duration_spec _ xml3
        (if t.duration_ == .short_duration then "short" else "long") a3
      exact ⟨_, Prod.ext a rfl, b⟩
    · exact ⟨xml3, rfl, a3⟩
  obtain ⟨xml4, e4, a4⟩ := hs4
  obtain ⟨a5, b5⟩ := add_scenario_spec _ xml4 t.scenario_ a4
  refine ⟨(add_scenario xml4 t.scenario_).2, ?_, b5⟩
  unfold modern_features
  simp only [e1, hin, Bool.false_and, if_false, e2, e3, e4, bind, Except.bind, pure, Except.pure,
    check_hresult, SUCCEEDED, beq_self_eq_true, if_true, Bool.false_eq_true]
  exact congrArg Except.ok (Prod.ext a5 rfl)

theorem compile_action_views (ctx_bridge : context_bridge) (win10 : Bool)
    (t : notification_template)
    (hsup : ctx_bridge.is_supporting_modern_features = true)
    (hen : ctx_bridge.is_enable_modern_features = true) (hin : t.has_input = false) :
    ∃ doc, compile ctx_bridge win10 t = .ok doc ∧
      action_views doc = expected_actions t t.actions.count := by
  have hs0 : ∃ xml0,
      (if t.is_toast_generic then set_bind_toast_generic (get_template_content t.template_type)
        else (HRESULT.S_OK, get_template_content t.template_type)) = (.S_OK, xml0) ∧
      before_actions xml0 ∧
      (get_elements_by_tag_name "text" xml0).length = t.text_fields_count := by
    have hb := get_template_content_before_actions t.template_type
    have hl := get_template_content_text_length t.template_type
    split
    · obtain ⟨a, b, c⟩ := set_bind_toast_generic_spec _ hb
      exact ⟨_, Prod.ext a rfl, b, by rw [c, hl]; rfl⟩
    · exact ⟨_, rfl, hb, by rw [hl]; rfl⟩
  obtain ⟨xml0, e0, b0, l0⟩ := hs0
  obtain ⟨a1, b1⟩ := text_fields_loop_spec t t.text_fields_count 0 xml0 b0 (by omega)
  obtain ⟨xml2, e2, a2⟩ := modern_features_spec t _ b1 hin
  have e1 : text_fields_loop t 0 t.text_fields_count (.S_OK, xml0)
      = (.S_OK, (text_fields_loop t 0 t.text_fields_count (.S_OK, xml0)).2) := Prod.ext a1 rfl
  rw [← e1] at e2
  have hs3 : ∃ xml3,
      (if t.has_image then
          set_image_field xml2 t.image_path_ t.is_toast_generic
            (if win10 then t.is_crop_hint_circle else false)
        else (HRESULT.S_OK, xml2)) = (.S_OK, xml3) ∧
      after_actions (expected_actions t t.actions.count) xml3 := by
    split
    · obtain ⟨a, b⟩ := set_image_field_spec _ xml2 t.image_path_ t.is_toast_generic
        (if win10 then t.is_crop_hint_circle else false) a2
      exact ⟨_, Prod.ext a rfl, b⟩
    · exact ⟨xml2, rfl, a2⟩
  obtain ⟨xml3, e3, a3⟩ := hs3
  have hs4 : ∃ xml4,
      (if win10 && t.has_hero_image then
          set_hero_image xml3 t.hero_image_path_ t.is_inline_hero_image
        else (HRESULT.S_OK, xml3)) = (.S_OK, xml4) ∧
      after_actions (expected_actions t t.actions.count) xml4 := by
    split
    · obtain ⟨a, b⟩ := set_hero_image_spec _ xml3 t.hero_image_path_ t.is_inline_hero_image a3
      exact ⟨_, Prod.ext a rfl, b⟩
    · exact ⟨xml3, rfl, a3⟩
  obtain ⟨xml4, e4, a4⟩ := hs4
  refine ⟨xml4, ?_, a4.views⟩
  unfold compile
  simp only [e0, a1, hsup, hen, Bool.and_self, if_true, e2, e3, e4, bind, Except.bind, pure,
    Except.pure, check_hresult, SUCCEEDED, beq_self_eq_true]


theorem format_index_small (i : Nat) (h : i < 5) : format_index i = toString i := by
  interval_cases i <;> decide

/-- Claim C8: a template without input that holds `n` action labels (`n <= 5`, the class
invariant) compiles, with modern features supported and enabled, to a document with exactly
`n` action elements, in label order, the `i`-th with content label `i` and arguments the
decimal string of `i`. -/
theorem compile_action_buttons (ctx_bridge : context_bridge) (win10 : Bool)
    (t : notification_template)
    (hsup : ctx_bridge.is_supporting_modern_features = true)
    (hen : ctx_bridge.is_enable_modern_features = true)
    (hwf : t.actions.wf) (hin : t.has_input = false) :
    ∃ doc, compile ctx_bridge win10 t = .ok doc ∧
      (doc.get_elements_by_tag_name "action").length = t.actions.count ∧
      action_views doc = (List.range t.actions.count).map
        (fun i => (some (t.actions.action_label i), some (toString i))) := by
  obtain ⟨doc, h1, h2⟩ := compile_action_views ctx_bridge win10 t hsup hen hin
  have h3 : expected_actions t t.actions.count = (List.range t.actions.count).map
      (fun i => (some (t.actions.action_label i), some (toString i))) := by
    unfold expected_actions
    apply List.map_congr_left
    intro i hi
    have : i < 5 := by
      have := List.mem_range.mp hi
      have := hwf.2
      simp only [actions_t.count] at *
      omega
    rw [format_index_small i this]
  refine ⟨doc, h1, ?_, by rw [h2, h3]⟩
  have := congrArg List.length h2
  simpa [action_views, expected_actions] using this

/-- Witness of claim C8: the labels Yes and No give two actions with arguments 0 and 1. -/
theorem compile_action_buttons_witness :
    (context_bridge.make true true true).is_supporting_modern_features = true ∧
    (context_bridge.make true true true).is_enable_modern_features = true ∧
    yes_no.actions.wf ∧ yes_no.has_input = false ∧
    ∃ doc, compile (context_bridge.make true true true) true yes_no = .ok doc ∧
      (doc.get_elements_by_tag_name "action").length = 2 ∧
      action_views doc = [(some "Yes", some "0"), (some "No", some "1")] :=
  ⟨by decide, by decide, by decide, by decide,
    compile_action_buttons (context_bridge.make true true true) true yes_no (by decide) (by decide)
      (by decide) (by decide)⟩

end xml_notifcation_field

/-! ## Theorems: initialisation, preconditions, hiding, clearing and the events -/

/-- Claim C11 as amended: for a service whose app name is empty, `is_initialized()` is false
after `init()`; when the shortcut-policy gate does not fire (the policy is not `ignore`, or
modern features are disabled) `init()` fails with the error output `invalid_parameters` and
throws; when the policy is `ignore` and modern features are enabled it returns false with the
error output `shell_link_not_created`. -/
theorem init_empty_app_name (s : notification) (p : init_platform)
    (hname : s.appname_ = "") :
    (¬ (s.shortcut_policy_ = .ignore ∧ s.is_enable_modern_features = true) →
      (s.init p).outcome
        = .thrown "Error while initializing, did you set up a valid AUMI and App name?" ∧
      (s.init p).error = .invalid_parameters ∧
      (s.init p).service.is_initialized = false) ∧
    ((s.shortcut_policy_ = .ignore ∧ s.is_enable_modern_features = true) →
      (s.init p).outcome = .returned false ∧
      (s.init p).error = .shell_link_not_created ∧
      (s.init p).service.is_initialized = false) := by
  have he : ("" : String).isEmpty = true := by decide
  constructor
  · intro hgate
    have h1 : (s.shortcut_policy_ == shortcut_policy.ignore && s.enable_modern_features_) = false := by
      cases hp : s.shortcut_policy_ <;> cases hm : s.enable_modern_features_ <;>
        simp_all [notification.is_enable_modern_features]
    simp [notification.init, notification.is_enable_modern_features, h1, hname,
      notification.is_initialized, he]
  · rintro ⟨hp, hm⟩
    have hm1 : s.enable_modern_features_ = true := hm
    simp [notification.init, notification.is_enable_modern_features, hp, hm1,
      notification.is_initialized]

/-- Witness of claim C11 as amended, on the freshly constructed service. -/
theorem init_empty_app_name_witness :
    notification.init_state.appname_ = "" ∧
    ¬ (notification.init_state.shortcut_policy_ = .ignore ∧
        notification.init_state.is_enable_modern_features = true) ∧
    (notification.init_state.init example_init_platform).outcome
      = .thrown "Error while initializing, did you set up a valid AUMI and App name?" ∧
    (notification.init_state.init example_init_platform).error = .invalid_parameters ∧
    (notification.init_state.init example_init_platform).service.is_initialized = false :=
  ⟨by decide, by decide,
    (init_empty_app_name notification.init_state example_init_platform (by decide)).1
      (by decide)⟩

/-- Claim C11 as stated fails: with the shortcut policy `ignore` and modern features enabled
(the default), `init()` on an empty app name returns false with the error output
`shell_link_not_created`, not `invalid_parameters`. -/
theorem init_empty_app_name_ignore_policy :
    ignore_policy_service.appname_ = "" ∧
    (ignore_policy_service.init example_init_platform).outcome = .returned false ∧
    (ignore_policy_service.init example_init_platform).error = .shell_link_not_created := by
  decide

/-- Claim C12: on a service that is not initialized `show` returns -1 with the error output
`not_initialized`, whatever the handler; on an initialized service with a null handler it
returns -1 with `invalid_handler`; in both cases the service, its registry included, is
unchanged and no platform call is made. -/
theorem show_preconditions (s : notification) (p : show_platform) (toast : notification_template) :
    (s.is_initialized = false → ∀ handler_present,
      s.show_ p toast handler_present = ⟨-1, s, .not_initialized, []⟩) ∧
    (s.is_initialized = true → s.show_ p toast false = ⟨-1, s, .invalid_handler, []⟩) := by
  constructor
  · intro h hp
    simp [notification.show_, notification.show_impl, h]
  · intro h
    simp [notification.show_, notification.show_impl, h]

/-- Witness of claim C12 on the fresh service and on the initialized example service. -/
theorem show_preconditions_witness :
    notification.init_state.is_initialized = false ∧
    example_shown_service.is_initialized = true ∧
    notification.init_state.show_ example_platform example_toast true
      = ⟨-1, notification.init_state, .not_initialized, []⟩ ∧
    notification.init_state.show_ example_platform example_toast false
      = ⟨-1, notification.init_state, .not_initialized, []⟩ ∧
    example_shown_service.show_ example_platform example_toast false
      = ⟨-1, example_shown_service, .invalid_handler, []⟩ :=
  ⟨by decide, by decide,
    (show_preconditions notification.init_state example_platform example_toast).1 (by decide) true,
    (show_preconditions notification.init_state example_platform example_toast).1 (by decide) false,
    (show_preconditions example_shown_service example_platform example_toast).2 (by decide)⟩

/-- Claim C13 as amended: on an initialized service, `hide(id)` of an id that is not in the
registry returns false as a normal result, makes no platform call and leaves the service
unchanged. -/
theorem hide_unknown_id (s : notification) (notifier_created : Bool) (id : Int)
    (hinit : s.is_initialized = true) (hf : map_find s.notifys id = none) :
    s.hide notifier_created id = .ok (false, s, []) := by
  simp [notification.hide, hinit, hf]

/-- Witness of claim C13 as amended: the id 8 is unknown to the example service. -/
theorem hide_unknown_id_witness :
    example_shown_service.is_initialized = true ∧
    map_find example_shown_service.notifys 8 = none ∧
    example_shown_service.hide true 8 = .ok (false, example_shown_service, []) :=
  ⟨by decide, by decide, hide_unknown_id example_shown_service true 8 (by decide) (by decide)⟩

/-- Claim C13 as stated fails: on a service that is not initialized `hide(8)` throws, although
the id 8 is not in the registry. -/
theorem hide_unknown_id_not_initialized :
    notification.init_state.is_initialized = false ∧
    map_find notification.init_state.notifys 8 = none ∧
    notification.init_state.hide true 8
      = .error "Error when hiding the toast. notification is not initialized." :=
  ⟨by decide, by decide, rfl⟩

/-- Claim C14 as amended: on an initialized service for which `create_notifier()` yields a
notifier, `hide(id)` of an entry that is marked ready for deletion (non-null handle, tokens
not yet removed) makes the three unsubscribing calls at once, after the `Hide` call; for an
entry that is not marked ready it only makes the `Hide` call. In both cases the entry is
erased and true is returned. -/
theorem hide_unsubscribes_ready_entry (s : notification) (id : Int) (n : notify)
    (hinit : s.is_initialized = true) (hf : map_find s.notifys id = some n) :
    (∀ h, n.is_ready_for_deletion = true → n._notify = some h →
      n._previously_token_removed = false →
      s.hide true id = .ok (true,
        { s with notifys := map_erase s.notifys id, toast_mapper := map_erase s.toast_mapper id },
        [(id, .Hide (some h)), (id, .Activated_remove h n._activated_token),
         (id, .Dismissed_remove h n._dismissed_token),
         (id, .Failed_remove h n._failed_token)])) ∧
    (n.is_ready_for_deletion = false →
      s.hide true id = .ok (true,
        { s with notifys := map_erase s.notifys id, toast_mapper := map_erase s.toast_mapper id },
        [(id, .Hide n._notify)])) := by
  constructor
  · intro h hr hh hrem
    have hr0 : n._ready_for_deletion = true := hr
    simp [notification.hide, hinit, hf, notify.remove_tokens, notify.destroy,
      notify.notification, hr0, hh, hrem]
  · intro hr
    have hr0 : n._ready_for_deletion = false := hr
    simp [notification.hide, hinit, hf, notify.remove_tokens, notify.destroy,
      notify.notification, hr0]

/-- Witness of claim C14 as amended, on the example service with the ready entry 7. -/
theorem hide_unsubscribes_ready_entry_witness :
    example_ready_service.is_initialized = true ∧
    map_find example_ready_service.notifys 7 = some ⟨some 1, 11, 12, 13, true, false⟩ ∧
    example_ready_service.hide true 7 = .ok (true,
      { example_ready_service with notifys := [], toast_mapper := [] },
      [(7, .Hide (some 1)), (7, .Activated_remove 1 11), (7, .Dismissed_remove 1 12),
       (7, .Failed_remove 1 13)]) :=
  ⟨by decide, by decide,
    (hide_unsubscribes_ready_entry example_ready_service 7 ⟨some 1, 11, 12, 13, true, false⟩
      (by decide) (by decide)).1 1 rfl rfl rfl⟩

/-- Claim C14 as stated fails: the entry 7 of the example service is present and not marked
ready for deletion; `hide(7)` asks the platform to hide it and erases it, and makes no
unsubscribing call (the guard of `remove_tokens` returns first, in `hide` and in the
destructor). -/
theorem hide_active_entry_keeps_subscriptions :
    example_shown_service.is_initialized = true ∧
    map_find example_shown_service.notifys 7 = some ⟨some 1, 11, 12, 13, false, false⟩ ∧
    example_shown_service.hide true 7 = .ok (true,
      { example_shown_service with notifys := [], toast_mapper := [] },
      [(7, .Hide (some 1))]) :=
  ⟨by decide, by decide, rfl⟩

/-- The loop of `clear()` calls `Hide` for every entry. -/
theorem clear_calls_hide (m : List (Int × notify)) (e : Int × notify) (he : e ∈ m) :
    (e.1, platform_call.Hide e.2.notification) ∈ notification.clear_calls m := by
  induction m with
  | nil => simp at he
  | cons x m ih =>
    obtain ⟨k, n⟩ := x
    simp only [notification.clear_calls, List.mem_append]
    rcases List.mem_cons.mp he with h | h
    · left
      subst h
      simp
    · right
      exact ih h

/-- Claim C15 as amended: for every service state, when `create_notifier()` yields a notifier,
the registry holds no entry after `clear()`, and `Hide` was called for every entry it held. -/
theorem clear_with_notifier (s : notification) :
    (s.clear true).1.notifys = [] ∧
    (∀ id, map_find (s.clear true).1.notifys id = none) ∧
    ∀ e ∈ s.notifys, (e.1, platform_call.Hide e.2.notification) ∈ (s.clear true).2 :=
  ⟨rfl, fun _ => rfl, fun e he => clear_calls_hide s.notifys e he⟩

/-- Claim C15 as stated fails: when `create_notifier()` yields no notifier, `clear()` returns at
once; the entry 7 of the example service stays in the registry and no platform call is made. -/
theorem clear_without_notifier :
    (example_shown_service.clear false).1.notifys = [(7, ⟨some 1, 11, 12, 13, false, false⟩)] ∧
    (example_shown_service.clear false).2 = [] := by
  decide

/-- Claim C16, the code at the failing input: the table of `strerror` has no entry for
`invalid_handler`, so the lookup ends at `Labels.end()` and the assertion fails; the eight
other values are found. -/
theorem strerror_invalid_handler_missing :
    strerror .invalid_handler = none ∧
    (strerror .no_error).isSome = true ∧ (strerror .not_initialized).isSome = true ∧
    (strerror .system_not_supported).isSome = true ∧
    (strerror .shell_link_not_created).isSome = true ∧
    (strerror .invalid_app_user_model_id).isSome = true ∧
    (strerror .invalid_parameters).isSome = true ∧ (strerror .not_displayed).isSome = true ∧
    (strerror .unknown_error).isSome = true := by
  decide

/-- Claim C17, the code at the failing input: on a fresh template (no actions, input off)
`toggle_input(false)` turns input on. -/
theorem toggle_input_false_enables_input :
    notification_template.mk_default.actions.count = 0 ∧
    notification_template.mk_default.has_input = false ∧
    (notification_template.mk_default.toggle_input false).has_input = true := by
  decide

/-- The two outcomes of `remove_tokens()`: nothing happens (one of the three guards returns), or
the entry is ready, not yet unsubscribed and has a handle, and the three calls are made. -/
theorem remove_tokens_cases (n : notify) :
    (n.remove_tokens = (n, []) ∧
      (n._ready_for_deletion = false ∨ n._previously_token_removed = true ∨ n._notify = none)) ∨
    (∃ h, n._notify = some h ∧ n._ready_for_deletion = true ∧
      n._previously_token_removed = false ∧
      n.remove_tokens = ({ n with _previously_token_removed := true }, n.unsubscribe_calls h)) := by
  obtain ⟨h, a, d, f, r, p⟩ := n
  cases r <;> cases p <;> cases h <;>
    simp [notify.remove_tokens, notify.unsubscribe_calls]

/-- Along any sequence of member calls on an entry that satisfies "removed implies ready": the
implication is kept, nothing is unsubscribed once the flag is set, and all the calls made are
none or one round of the three unsubscribing calls. -/
theorem run_spec (n : notify) (ops : List notify_op)
    (hI : n._previously_token_removed = true → n._ready_for_deletion = true) :
    ((n.run ops).1._previously_token_removed = true → (n.run ops).1._ready_for_deletion = true) ∧
    (n._previously_token_removed = true → (n.run ops).2 = []) ∧
    ((n.run ops).2 = [] ∨ ∃ h, n._notify = some h ∧ (n.run ops).2 = n.unsubscribe_calls h) := by
  induction ops generalizing n with
  | nil => exact ⟨hI, fun _ => rfl, Or.inl rfl⟩
  | cons op rest ih =>
    cases op with
    | mark_as_ready_for_deletion =>
      have h1 := ih n.mark_as_ready_for_deletion (fun _ => rfl)
      simp only [notify.run, notify.apply, List.nil_append]
      exact ⟨h1.1, h1.2.1, h1.2.2⟩
    | remove_tokens =>
      rcases remove_tokens_cases n with ⟨he, _⟩ | ⟨h, hh, hr, hp, he⟩
      · have h1 := ih n hI
        simp only [notify.run, notify.apply, he, List.nil_append]
        exact h1
      · have h1 := ih { n with _previously_token_removed := true } (fun _ => hr)
        simp only [notify.run, notify.apply, he]
        refine ⟨h1.1, fun hc => by simp [hp] at hc, Or.inr ⟨h, hh, ?_⟩⟩
        rw [h1.2.1 rfl]
        simp

/-- Without a call of `mark_as_ready_for_deletion()` an entry that is not ready is never
unsubscribed. -/
theorem run_without_mark (n : notify) (ops : List notify_op)
    (hr : n._ready_for_deletion = false)
    (hops : ∀ op ∈ ops, op ≠ notify_op.mark_as_ready_for_deletion) :
    (n.run ops).2 = [] := by
  induction ops with
  | nil => rfl
  | cons op rest ih =>
    have h1 := ih (fun o ho => hops o (List.mem_cons_of_mem _ ho))
    cases op with
    | mark_as_ready_for_deletion => exact absurd rfl (hops _ (List.mem_cons_self _ _))
    | remove_tokens =>
      have he : n.remove_tokens = (n, []) := by simp [notify.remove_tokens, hr]
      simp only [notify.run, notify.apply, he, List.nil_append]
      exact h1

/-- Claim C18: for every entry `n`, `remove_tokens()` makes platform calls only if the entry is
marked ready, has a non-null handle and its tokens are not yet removed; a second
`remove_tokens()` does nothing; once `tokens_removed` is set no member call clears it or
unsubscribes again. For every entry built by the constructor and every sequence of member
calls on it: `tokens_removed` implies `ready_for_deletion`, the calls made are none or exactly
one round of the three unsubscribing calls (on a non-null handle), and none when the entry was
never marked ready. -/
theorem unsubscription_guarded (n : notify) (handle : Option Nat) (a d f : Int)
    (ops : List notify_op) :
    (n.remove_tokens.2 ≠ [] →
      n._ready_for_deletion = true ∧ n._notify ≠ none ∧ n._previously_token_removed = false) ∧
    (n.remove_tokens.1.remove_tokens = (n.remove_tokens.1, [])) ∧
    (∀ op, n._previously_token_removed = true →
      (n.apply op).1._previously_token_removed = true ∧ (n.apply op).2 = []) ∧
    (((notify.make handle a d f).run ops).1._previously_token_removed = true →
      ((notify.make handle a d f).run ops).1._ready_for_deletion = true) ∧
    (((notify.make handle a d f).run ops).2 = [] ∨
      ∃ h, handle = some h ∧
        ((notify.make handle a d f).run ops).2
          = [.Activated_remove h a, .Dismissed_remove h d, .Failed_remove h f]) ∧
    ((∀ op ∈ ops, op ≠ notify_op.mark_as_ready_for_deletion) →
      ((notify.make handle a d f).run ops).2 = []) := by
  refine ⟨?_, ?_, ?_, ?_, ?_, ?_⟩
  · intro hne
    rcases remove_tokens_cases n with ⟨he, _⟩ | ⟨h, hh, hr, hp, _⟩
    · rw [he] at hne; exact absurd rfl hne
    · exact ⟨hr, by simp [hh], hp⟩
  · rcases remove_tokens_cases n with ⟨he, _⟩ | ⟨h, hh, hr, hp, he⟩
    · rw [he]; exact he
    · rw [he]
      simp [notify.remove_tokens, hr]
  · intro op hp
    cases op with
    | mark_as_ready_for_deletion => exact ⟨hp, rfl⟩
    | remove_tokens =>
      rcases remove_tokens_cases n with ⟨he, _⟩ | ⟨h, hh, hr, hp1, he⟩
      · show n.remove_tokens.1._previously_token_removed = true ∧ n.remove_tokens.2 = []
        rw [he]
        exact ⟨hp, rfl⟩
      · rw [hp] at hp1; cases hp1
  · exact (run_spec (notify.make handle a d f) ops (fun hc => by cases hc)).1
  · exact (run_spec (notify.make handle a d f) ops (fun hc => by cases hc)).2.2
  · exact run_without_mark (notify.make handle a d f) ops rfl

/-- Witness of claim C18: one round of calls for a marked entry however often `remove_tokens()`
runs, none on a null handle, none without the mark. -/
theorem unsubscription_guarded_witness :
    ((notify.make (some 1) 11 12 13).run
        [.remove_tokens, .mark_as_ready_for_deletion, .remove_tokens, .remove_tokens]).2
      = [.Activated_remove 1 11, .Dismissed_remove 1 12, .Failed_remove 1 13] ∧
    ((notify.make none 11 12 13).run
        [.mark_as_ready_for_deletion, .remove_tokens, .remove_tokens]).2 = [] ∧
    ((notify.make (some 1) 11 12 13).run [.remove_tokens, .remove_tokens]).2 = [] :=
  ⟨by decide, by decide,
    (unsubscription_guarded (notify.make (some 1) 11 12 13) (some 1) 11 12 13
      [.remove_tokens, .remove_tokens]).2.2.2.2.2 (by decide)⟩

/-- Claim C19, the code at the failing input: for an activation with the arguments
`action=reply` and a text in the text box the `Activated` lambda calls `activated(text)` and
returns without reaching `mark_as_ready_for_deletion_func()`; the entry 7 of the example
service stays not ready. The other kinds of event (activation without arguments, with an
action index, dismissal, failure) do reach it. -/
theorem reply_activation_skips_mark :
    notification.activated_lambda (some reply_activation) = .ok ([.activated_reply "hi"], false) ∧
    map_find example_shown_service.notifys 7 = some ⟨some 1, 11, 12, 13, false, false⟩ ∧
    example_shown_service.on_activated 7 (some reply_activation)
      = .ok ([.activated_reply "hi"], example_shown_service, []) ∧
    notification.activated_lambda (some ⟨"", none⟩) = .ok ([.activated], true) ∧
    notification.activated_lambda (some ⟨"1", none⟩) = .ok ([.activated_idx 1], true) ∧
    (∀ from_time_t e now reason,
      (notification.dismissed_lambda from_time_t e now reason).2 = true) ∧
    notification.failed_lambda.2 = true ∧
    map_find (example_shown_service.on_failed 7).2.1.notifys 7
      = some ⟨some 1, 11, 12, 13, true, false⟩ :=
  ⟨rfl, by decide, rfl, rfl, rfl, fun _ _ _ _ => rfl, rfl, by decide⟩

/-! ## Theorems: the attributes of the toast element -/

namespace xml_notifcation_field
open XmlNodes

theorem toast_doc_shape (A : List (String × String)) (xml : XmlNodes) (h : toast_doc A xml) :
    ∃ C, xml = .element "toast" A C .nil ∧ 0 < (get_elements_by_tag_name "binding" C).length := by
  obtain ⟨A1, C, rfl⟩ := h.root
  have ha : A1 = A := h.attributes
  subst ha
  refine ⟨C, rfl, ?_⟩
  have := h.binding
  simpa [get_elements_by_tag_name] using this

theorem toast_doc_of_shape (A : List (String × String)) (C : XmlNodes)
    (h : 0 < (get_elements_by_tag_name "binding" C).length) :
    toast_doc A (.element "toast" A C .nil) :=
  ⟨⟨A, C, rfl⟩, rfl, by simpa [get_elements_by_tag_name] using h⟩

theorem root_attributes_modify_nth (tag : String) (f : XmlElement → XmlElement) (k : Nat)
    (xs : XmlNodes) (ht : tag ≠ "toast") (h : toast_root xs) :
    root_attributes (modify_nth tag f k xs) = root_attributes xs := by
  obtain ⟨A, C, rfl⟩ := h
  unfold modify_nth
  simp only [Ne.symm ht, if_false]
  split <;> rfl

theorem toast_doc_modify_attrs (A : List (String × String)) (tag : String)
    (f : XmlElement → XmlElement) (k : Nat) (xml : XmlNodes) (ht : tag ≠ "toast")
    (hf : ∀ e : XmlElement, (f e).tag = e.tag ∧ (f e).children = e.children)
    (h : toast_doc A xml) : toast_doc A (modify_nth tag f k xml) := by
  refine ⟨toast_root_modify_nth tag f k xml ht h.root, ?_, ?_⟩
  · rw [root_attributes_modify_nth tag f k xml ht h.root]; exact h.attributes
  · rw [length_get_elements_modify_attrs _ tag f hf]; exact h.binding

theorem toast_doc_modify_append (A : List (String × String)) (tag : String) (c : XmlNodes)
    (k : Nat) (xml : XmlNodes) (ht : tag ≠ "toast")
    (hc : get_elements_by_tag_name "binding" c = [])
    (h : toast_doc A xml) :
    toast_doc A (modify_nth tag (fun e => { e with children := e.children.append c }) k xml) := by
  refine ⟨toast_root_modify_nth tag _ k xml ht h.root, ?_, ?_⟩
  · rw [root_attributes_modify_nth tag _ k xml ht h.root]; exact h.attributes
  · rw [length_get_elements_modify_append _ tag c hc]; exact h.binding

theorem toast_doc_set_attribute (A : List (String × String)) (name value : String)
    (xml : XmlNodes) (h : toast_doc A xml) :
    toast_doc (XmlElement.set_in A name value)
      (modify_nth "toast" (fun e => e.set_attribute name value) 0 xml) := by
  obtain ⟨C, rfl, hb⟩ := toast_doc_shape A xml h
  simp only [modify_nth, if_true, XmlElement.set_attribute, XmlElement.to_nodes]
  exact toast_doc_of_shape _ C hb

theorem toast_doc_toast_append (A : List (String × String)) (c : XmlNodes) (xml : XmlNodes)
    (hc : get_elements_by_tag_name "binding" c = []) (h : toast_doc A xml) :
    toast_doc A
      (modify_nth "toast" (fun e => { e with children := e.children.append c }) 0 xml) := by
  obtain ⟨C, rfl, hb⟩ := toast_doc_shape A xml h
  simp only [modify_nth, if_true, XmlElement.to_nodes]
  exact toast_doc_of_shape _ _ (by simpa [get_elements_append, hc] using hb)

theorem toast_doc_has_toast (A : List (String × String)) (xml : XmlNodes) (h : toast_doc A xml) :
    (get_elements_by_tag_name "toast" xml).length > 0 := by
  obtain ⟨C, rfl, _⟩ := toast_doc_shape A xml h
  simp [get_elements_by_tag_name]

theorem toast_attribute_of_toast_doc (A : List (String × String)) (xml : XmlNodes)
    (name : String) (h : toast_doc A xml) :
    toast_attribute xml name = (A.find? (fun a => a.1 == name)).map (fun a => a.2) := by
  obtain ⟨C, rfl, _⟩ := toast_doc_shape A xml h
  simp [toast_attribute, get_elements_by_tag_name, XmlElement.get_named_item]

theorem create_element_toast_doc (A : List (String × String)) (xml : XmlNodes)
    (root_node element_name : String) (names : List String)
    (h2 : element_name ≠ "binding") (h : toast_doc A xml) :
    toast_doc A (util.create_element xml root_node element_name names).2 := by
  unfold util.create_element
  split
  · by_cases hr : root_node = "toast"
    · subst hr
      exact toast_doc_toast_append A _ xml (created_element_elements _ _ _ h2) h
    · exact toast_doc_modify_append A root_node _ 0 xml hr
        (created_element_elements _ _ _ h2) h
  · exact h

theorem guarded_modify_toast_doc (A : List (String × String)) (tag : String)
    (f : XmlElement → XmlElement) (xml : XmlNodes) (ht : tag ≠ "toast")
    (hf : ∀ e : XmlElement, (f e).tag = e.tag ∧ (f e).children = e.children)
    (h : toast_doc A xml) :
    toast_doc A (if (get_elements_by_tag_name tag xml).length > 0 then modify_nth tag f 0 xml
      else xml) := by
  split
  · exact toast_doc_modify_attrs A tag f 0 xml ht hf h
  · exact h

theorem guarded_pair_toast_doc (A : List (String × String)) (tag : String)
    (f : XmlElement → XmlElement) (xml : XmlNodes) (ht : tag ≠ "toast")
    (hf : ∀ e : XmlElement, (f e).tag = e.tag ∧ (f e).children = e.children)
    (h : toast_doc A xml) :
    (if (get_elements_by_tag_name tag xml).length > 0 then
        (HRESULT.S_OK, modify_nth tag f 0 xml) else (HRESULT.S_OK, xml)).1 = .S_OK ∧
    toast_doc A (if (get_elements_by_tag_name tag xml).length > 0 then
        (HRESULT.S_OK, modify_nth tag f 0 xml) else (HRESULT.S_OK, xml)).2 := by
  split
  · exact ⟨rfl, toast_doc_modify_attrs A tag f 0 xml ht hf h⟩
  · exact ⟨rfl, h⟩

theorem add_input_toast_doc (A : List (String × String)) (xml : XmlNodes) (h : toast_doc A xml) :
    (add_input xml).1 = .S_OK ∧ toast_doc A (add_input xml).2 := by
  refine ⟨rfl, ?_⟩
  unfold add_input
  simp only []
  refine guarded_modify_toast_doc A "action" _ _ (by decide) (fun e => ⟨rfl, rfl⟩) ?_
  refine guarded_modify_toast_doc A "input" _ _ (by decide) (fun e => ⟨rfl, rfl⟩) ?_
  refine create_element_toast_doc A _ "actions" "action" _ (by decide) ?_
  refine create_element_toast_doc A _ "actions" "input" _ (by decide) ?_
  exact create_element_toast_doc A xml "toast" "actions" _ (by decide) h

theorem set_audio_field_toast_doc (A : List (String × String)) (xml : XmlNodes)
    (path : String) (option : audio_option_t) (h : toast_doc A xml) :
    (set_audio_field xml path option).1 = .S_OK ∧
    toast_doc A (set_audio_field xml path option).2 := by
  unfold set_audio_field
  refine guarded_pair_toast_doc A "audio" _ _ (by decide) ?_
    (create_element_toast_doc A xml "toast" "audio" _ (by decide) h)
  intro e
  cases option <;> cases path.isEmpty <;> exact ⟨rfl, rfl⟩

theorem add_duration_toast_doc (A : List (String × String)) (xml : XmlNodes)
    (duration : String) (h : toast_doc A xml) :
    (add_duration xml duration).1 = .S_OK ∧
    toast_doc (XmlElement.set_in A "duration" duration) (add_duration xml duration).2 := by
  unfold add_duration
  rw [if_pos (toast_doc_has_toast A xml h)]
  exact ⟨rfl, toast_doc_set_attribute A "duration" duration xml h⟩

theorem add_scenario_toast_doc (A : List (String × String)) (xml : XmlNodes)
    (scenario : String) (h : toast_doc A xml) :
    (add_scenario xml scenario).1 = .S_OK ∧
    toast_doc (XmlElement.set_in A "scenario" scenario) (add_scenario xml scenario).2 := by
  unfold add_scenario
  rw [if_pos (toast_doc_has_toast A xml h)]
  exact ⟨rfl, toast_doc_set_attribute A "scenario" scenario xml h⟩

theorem set_image_field_toast_doc (A : List (String × String)) (xml : XmlNodes)
    (path : String) (generic circle : Bool) (h : toast_doc A xml) :
    (set_image_field xml path generic circle).1 = .S_OK ∧
    toast_doc A (set_image_field xml path generic circle).2 := by
  unfold set_image_field
  refine guarded_pair_toast_doc A "image" _ _ (by decide) ?_ h
  intro e
  cases generic <;> cases circle <;> exact ⟨rfl, rfl⟩

theorem set_hero_image_toast_doc (A : List (String × String)) (xml : XmlNodes)
    (path : String) (is_inline : Bool) (h : toast_doc A xml) :
    (set_hero_image xml path is_inline).1 = .S_OK ∧
    toast_doc A (set_hero_image xml path is_inline).2 := by
  unfold set_hero_image
  rw [if_pos (by simpa using h.binding)]
  refine ⟨rfl, ?_⟩
  refine toast_doc_modify_append A "binding" _ 0 xml (by decide) ?_ h
  cases is_inline <;>
    simp [XmlElement.to_nodes, XmlElement.set_attribute, XmlElement.create,
      get_elements_by_tag_name]


theorem set_bind_toast_generic_root (xml : XmlNodes) (h : toast_root xml) :
    root_attributes (set_bind_toast_generic xml).2 = root_attributes xml := by
  unfold set_bind_toast_generic
  split
  · exact root_attributes_modify_nth "binding" _ 0 xml (by decide) h
  · rfl

theorem set_text_field_root (xml : XmlNodes) (text : String) (pos : Nat) (h : toast_root xml) :
    toast_root (set_text_field xml text pos).2 ∧
    root_attributes (set_text_field xml text pos).2 = root_attributes xml := by
  unfold set_text_field
  split
  · exact ⟨toast_root_modify_nth "text" _ pos xml (by decide) h,
      root_attributes_modify_nth "text" _ pos xml (by decide) h⟩
  · exact ⟨h, rfl⟩

theorem text_fields_loop_root (t : notification_template) (steps i : Nat) (hr : HRESULT)
    (xml : XmlNodes) (h : toast_root xml) :
    toast_root (text_fields_loop t i steps (hr, xml)).2 ∧
    root_attributes (text_fields_loop t i steps (hr, xml)).2 = root_attributes xml := by
  induction steps generalizing i hr xml with
  | zero => exact ⟨h, rfl⟩
  | succ n ih =>
    rw [text_fields_loop]
    split
    · obtain ⟨h1, h2⟩ := set_text_field_root xml (t.text_field i) i h
      have := ih (i + 1) (set_text_field xml (t.text_field i) i).1
        (set_text_field xml (t.text_field i) i).2 h1
      exact ⟨this.1, by rw [this.2, h2]⟩
    · exact ⟨h, rfl⟩

theorem set_attribution_text_field_root (xml : XmlNodes) (text : String) (h : toast_root xml) :
    root_attributes (set_attribution_text_field xml text).2 = root_attributes xml := by
  have h1 : toast_root (util.create_element xml "binding" "text" ["placement"]).2 ∧
      root_attributes (util.create_element xml "binding" "text" ["placement"]).2
        = root_attributes xml := by
    unfold util.create_element
    split
    · exact ⟨toast_root_modify_nth "binding" _ 0 xml (by decide) h,
        root_attributes_modify_nth "binding" _ 0 xml (by decide) h⟩
    · exact ⟨h, rfl⟩
  unfold set_attribution_text_field
  simp only []
  split
  · next i _ =>
    have h2 := toast_root_modify_nth "text"
      (fun e => e.append_attribute_text "placement" "attribution") i _ (by decide) h1.1
    have h3 := root_attributes_modify_nth "text"
      (fun e => e.append_attribute_text "placement" "attribution") i _ (by decide) h1.1
    rw [(set_text_field_root _ text i h2).2, h3, h1.2]
  · exact h1.2

/-- The first `add_action`, with the attributes it writes on the `toast` element. -/
theorem add_action_on_toast_attributes (A : List (String × String)) (C : XmlNodes)
    (content arguments : String) (hC : get_elements_by_tag_name "actions" C = []) :
    add_action (.element "toast" A C .nil) content arguments
      = (.S_OK, .element "toast"
          (XmlElement.set_in (XmlElement.set_in A "template" "ToastGeneric") "duration" "long")
          (C.append (.element "actions" [] ((action_element content arguments).to_nodes .nil) .nil))
          .nil) := by
  unfold add_action
  have hlen : ¬ (get_elements_by_tag_name "actions" (XmlNodes.element "toast" A C .nil)).length > 0 := by
    simp [get_elements_by_tag_name, hC]
  have hlen2 : (get_elements_by_tag_name "toast" (XmlNodes.element "toast" A C .nil)).length > 0 := by
    simp [get_elements_by_tag_name]
  rw [if_neg hlen, if_pos hlen2]
  simp [modify_nth, XmlElement.append_child, XmlElement.to_nodes, action_element,
    XmlElement.set_attribute, XmlElement.create, XmlNodes.append]

theorem actions_loop_toast_doc (t : notification_template) (n : Nat) (xml : XmlNodes)
    (h : before_actions xml) :
    ∃ xml1, actions_loop t 0 n (.S_OK, xml) = .ok (.S_OK, xml1) ∧
      toast_doc
        (if n = 0 then root_attributes xml
          else XmlElement.set_in (XmlElement.set_in (root_attributes xml) "template" "ToastGeneric")
            "duration" "long") xml1 := by
  obtain ⟨A, C, rfl⟩ := h.root
  have hC : get_elements_by_tag_name "actions" C = [] := by
    have := h.no_actions
    simpa [get_elements_by_tag_name] using this
  have hCb : 0 < (get_elements_by_tag_name "binding" C).length := by
    have := h.binding
    simpa [get_elements_by_tag_name] using this
  cases n with
  | zero => exact ⟨_, rfl, toast_doc_of_shape A C hCb⟩
  | succ m =>
    have hfirst := add_action_on_toast_attributes A C (t.actions.action_label 0) (format_index 0) hC
    have hv : (get_elements_by_tag_name "action"
        ((action_element (t.actions.action_label 0) (format_index 0)).to_nodes .nil)).map action_view
          = expected_actions t 1 := by
      rw [action_element_elements]
      simp [action_element_view, expected_actions, List.range_succ]
    obtain ⟨acts1, h1, _⟩ := actions_loop_on_actions t C hC m 1
      (XmlElement.set_in (XmlElement.set_in A "template" "ToastGeneric") "duration" "long") _ hv
    refine ⟨.element "toast"
      (XmlElement.set_in (XmlElement.set_in A "template" "ToastGeneric") "duration" "long")
      (C.append (.element "actions" [] acts1 .nil)) .nil, ?_, ?_⟩
    · rw [actions_loop]
      simp only [SUCCEEDED, beq_self_eq_true, if_true, hfirst, check_hresult]
      exact h1
    · simp only [root_attributes, Nat.succ_ne_zero, if_false]
      exact toast_doc_of_shape _ _ (by simp [get_elements_append]; omega)


theorem pair_eq_of_fst {α β : Type} (r : α × β) (a : α) (h : r.1 = a) : r = (a, r.2) := by
  obtain ⟨x, y⟩ := r
  simp only at h
  rw [h]

theorem modern_features_toast_doc (t : notification_template) (xml : XmlNodes)
    (h : before_actions xml) (hroot : root_attributes xml = []) :
    ∃ xml1, modern_features t (.S_OK, xml) = .ok (.S_OK, xml1) ∧
      toast_doc (final_attributes t) xml1 := by
  have hs1 : ∃ xml1,
      (if !t.attribution_text_.isEmpty then set_attribution_text_field xml t.attribution_text_
        else (HRESULT.S_OK, xml)) = (.S_OK, xml1) ∧ before_actions xml1 ∧
      root_attributes xml1 = [] := by
    split
    · obtain ⟨a, b⟩ := set_attribution_text_field_spec xml t.attribution_text_ h
      exact ⟨_, Prod.ext a rfl, b, by rw [set_attribution_text_field_root _ _ h.root, hroot]⟩
    · exact ⟨xml, rfl, h, hroot⟩
  obtain ⟨xml1, e1, b1, r1⟩ := hs1
  have hs2 : ∃ xml2, toast_doc (attributes_after_actions t) xml2 ∧
      (((t.has_input && t.actions.count != 0) = true ∧ add_input xml1 = (.S_OK, xml2)) ∨
       ((t.has_input && t.actions.count != 0) = false ∧
        ∃ xml_a, actions_loop t 0 t.actions.count (.S_OK, xml1) = .ok (.S_OK, xml_a) ∧
          (if t.has_input then add_input xml_a else (HRESULT.S_OK, xml_a)) = (.S_OK, xml2))) := by
    have hd1 : toast_doc [] xml1 := ⟨b1.root, r1, b1.binding⟩
    obtain ⟨xml_a, ea, ta⟩ := actions_loop_toast_doc t t.actions.count xml1 b1
    rw [r1] at ta
    cases hin : t.has_input
    · have hA : attributes_after_actions t
          = (if t.actions.count = 0 then []
              else XmlElement.set_in (XmlElement.set_in [] "template" "ToastGeneric") "duration"
                "long") := by
        by_cases hc : t.actions.count = 0 <;> simp [attributes_after_actions, hin, hc]
      rw [hA]
      exact ⟨xml_a, ta, Or.inr ⟨by simp, xml_a, ea, by simp⟩⟩
    · have hA : attributes_after_actions t = [] := by simp [attributes_after_actions, hin]
      rw [hA]
      by_cases hc : t.actions.count = 0
      · rw [if_pos hc] at ta
        obtain ⟨i1, i2⟩ := add_input_toast_doc _ xml_a ta
        refine ⟨(add_input xml_a).2, i2, Or.inr ⟨by simp [hc], xml_a, ea, ?_⟩⟩
        rw [if_pos rfl]
        exact pair_eq_of_fst (add_input xml_a) .S_OK i1
      · obtain ⟨i1, i2⟩ := add_input_toast_doc _ xml1 hd1
        exact ⟨(add_input xml1).2, i2, Or.inl ⟨by simp [hc],
          pair_eq_of_fst (add_input xml1) .S_OK i1⟩⟩
  obtain ⟨xml2, a2, e2⟩ := hs2
  have hs3 : ∃ xml3,
      (if t.audio_path_.isEmpty && t.audio_option_ == .default_option then (HRESULT.S_OK, xml2)
        else set_audio_field xml2 t.audio_path_ t.audio_option_) = (.S_OK, xml3) ∧
      toast_doc (attributes_after_actions t) xml3 := by
    split
    · exact ⟨xml2, rfl, a2⟩
    · obtain ⟨a, b⟩ := set_audio_field_toast_doc _ xml2 t.audio_path_ t.audio_option_ a2
      exact ⟨_, Prod.ext a rfl, b⟩
  obtain ⟨xml3, e3, a3⟩ := hs3
  have hs4 : ∃ xml4,
      (if t.duration_ != .system then
          add_duration xml3 (if t.duration_ == .short_duration then "short" else "long")
        else (HRESULT.S_OK, xml3)) = (.S_OK, xml4) ∧
      toast_doc (if t.duration_ != .system then
          XmlElement.set_in (attributes_after_actions t) "duration"
            (if t.duration_ == .short_duration then "short" else "long")
        else attributes_after_actions t) xml4 := by
    split
    · obtain ⟨a, b⟩ := add_duration_toast_doc _ xml3
        (if t.duration_ == .short_duration then "short" else "long") a3
      exact ⟨_, Prod.ext a rfl, b⟩
    · exact ⟨xml3, rfl, a3⟩
  obtain ⟨xml4, e4, a4⟩ := hs4
  obtain ⟨a5, b5⟩ := add_scenario_toast_doc _ xml4 t.scenario_ a4
  refine ⟨(add_scenario xml4 t.scenario_).2, ?_, b5⟩
  have e5 := pair_eq_of_fst (add_scenario xml4 t.scenario_) .S_OK a5
  unfold modern_features
  rcases e2 with ⟨hc, ein⟩ | ⟨hc, xml_a, ea, ein⟩
  · simp only [e1, hc, if_true, ein, e3, e4, bind, Except.bind, pure, Except.pure,
      check_hresult, SUCCEEDED, beq_self_eq_true]
    exact congrArg Except.ok e5
  · simp only [e1, hc, Bool.false_eq_true, if_false, ea, ein, e3, e4, bind, Except.bind, pure,
      Except.pure, check_hresult, SUCCEEDED, beq_self_eq_true, if_true]
    exact congrArg Except.ok e5


theorem compile_toast_attributes (ctx_bridge : context_bridge) (win10 : Bool)
    (t : notification_template)
    (hsup : ctx_bridge.is_supporting_modern_features = true)
    (hen : ctx_bridge.is_enable_modern_features = true) :
    ∃ doc, compile ctx_bridge win10 t = .ok doc ∧ toast_doc (final_attributes t) doc := by
  have hs0 : ∃ xml0,
      (if t.is_toast_generic then set_bind_toast_generic (get_template_content t.template_type)
        else (HRESULT.S_OK, get_template_content t.template_type)) = (.S_OK, xml0) ∧
      before_actions xml0 ∧
      (get_elements_by_tag_name "text" xml0).length = t.text_fields_count ∧
      root_attributes xml0 = [] := by
    have hb := get_template_content_before_actions t.template_type
    have hl := get_template_content_text_length t.template_type
    split
    · obtain ⟨a, b, c⟩ := set_bind_toast_generic_spec _ hb
      exact ⟨_, Prod.ext a rfl, b, by rw [c, hl]; rfl,
        by rw [set_bind_toast_generic_root _ hb.root]; rfl⟩
    · exact ⟨_, rfl, hb, by rw [hl]; rfl, rfl⟩
  obtain ⟨xml0, e0, b0, l0, r0⟩ := hs0
  obtain ⟨a1, b1⟩ := text_fields_loop_spec t t.text_fields_count 0 xml0 b0 (by omega)
  have r1 := (text_fields_loop_root t t.text_fields_count 0 .S_OK xml0 b0.root).2
  rw [r0] at r1
  obtain ⟨xml2, e2, a2⟩ := modern_features_toast_doc t _ b1 r1
  have e1 := pair_eq_of_fst (text_fields_loop t 0 t.text_fields_count (.S_OK, xml0)) .S_OK a1
  rw [← e1] at e2
  have hs3 : ∃ xml3,
      (if t.has_image then
          set_image_field xml2 t.image_path_ t.is_toast_generic
            (if win10 then t.is_crop_hint_circle else false)
        else (HRESULT.S_OK, xml2)) = (.S_OK, xml3) ∧
      toast_doc (final_attributes t) xml3 := by
    split
    · obtain ⟨a, b⟩ := set_image_field_toast_doc _ xml2 t.image_path_ t.is_toast_generic
        (if win10 then t.is_crop_hint_circle else false) a2
      exact ⟨_, Prod.ext a rfl, b⟩
    · exact ⟨xml2, rfl, a2⟩
  obtain ⟨xml3, e3, a3⟩ := hs3
  have hs4 : ∃ xml4,
      (if win10 && t.has_hero_image then
          set_hero_image xml3 t.hero_image_path_ t.is_inline_hero_image
        else (HRESULT.S_OK, xml3)) = (.S_OK, xml4) ∧
      toast_doc (final_attributes t) xml4 := by
    split
    · obtain ⟨a, b⟩ := set_hero_image_toast_doc _ xml3 t.hero_image_path_
        t.is_inline_hero_image a3
      exact ⟨_, Prod.ext a rfl, b⟩
    · exact ⟨xml3, rfl, a3⟩
  obtain ⟨xml4, e4, a4⟩ := hs4
  refine ⟨xml4, ?_, a4⟩
  unfold compile
  simp only [e0, a1, hsup, hen, Bool.and_self, if_true, e2, e3, e4, bind, Except.bind, pure,
    Except.pure, check_hresult, SUCCEEDED, beq_self_eq_true]

theorem final_attributes_duration (t : notification_template) :
    ((final_attributes t).find? (fun a => a.1 == "duration")).map (fun a => a.2)
      = expected_duration t := by
  cases hd : t.duration_ <;> cases hc : (!t.has_input && t.actions.count != 0) <;>
    simp [final_attributes, attributes_after_actions, expected_duration, XmlElement.set_in, hd, hc]

/-- Claim C20 as amended: every template compiles, with modern features supported and enabled,
to a document whose `toast` element carries `duration="short"` for `short_duration` and
`duration="long"` for `long_duration` (also with action buttons); for `system` it carries no
`duration` attribute unless the template has action buttons and no input, in which case
`add_action` has written `duration="long"`. -/
theorem compile_duration_attribute (ctx_bridge : context_bridge) (win10 : Bool)
    (t : notification_template)
    (hsup : ctx_bridge.is_supporting_modern_features = true)
    (hen : ctx_bridge.is_enable_modern_features = true) :
    ∃ doc, compile ctx_bridge win10 t = .ok doc ∧
      doc.toast_attribute "duration" =
        (match t.duration_ with
         | .short_duration => some "short"
         | .long_duration => some "long"
         | .system => if !t.has_input && t.actions.count != 0 then some "long" else none) := by
  obtain ⟨doc, h1, h2⟩ := compile_toast_attributes ctx_bridge win10 t hsup hen
  refine ⟨doc, h1, ?_⟩
  rw [toast_attribute_of_toast_doc _ doc "duration" h2, final_attributes_duration]
  rfl

/-- Witness of claim C20 as amended: `short` for a short duration, no attribute for the default
template. -/
theorem compile_duration_attribute_witness :
    (context_bridge.make true true true).is_supporting_modern_features = true ∧
    (context_bridge.make true true true).is_enable_modern_features = true ∧
    (∃ doc, compile (context_bridge.make true true true) true
        (notification_template.mk_default.set_duration .short_duration) = .ok doc ∧
      doc.toast_attribute "duration" = some "short") ∧
    (∃ doc, compile (context_bridge.make true true true) true
        notification_template.mk_default = .ok doc ∧
      doc.toast_attribute "duration" = none) :=
  ⟨by decide, by decide,
    compile_duration_attribute (context_bridge.make true true true) true
      (notification_template.mk_default.set_duration .short_duration) (by decide) (by decide),
    compile_duration_attribute (context_bridge.make true true true) true
      notification_template.mk_default (by decide) (by decide)⟩

/-- Claim C20 as stated fails: the template with one action button has the duration `system`,
and its compiled `toast` element carries `duration="long"`. -/
theorem compile_system_duration_with_action :
    one_action.duration_ = .system ∧ one_action.actions.count = 1 ∧
    (compile (context_bridge.make true true true) true one_action).toOption.map
      (fun doc => doc.toast_attribute "duration") = some (some "long") := by
  refine ⟨by decide, by decide, ?_⟩
  rfl

end xml_notifcation_field

/-! ## Theorems: the constructor, step after step -/

namespace XmlNodes

theorem append_nil (xs : XmlNodes) : xs.append .nil = xs := by
  induction xs with
  | nil => rfl
  | element tg attrs ch nx _ ih => simp [append, ih]
  | text d nx ih => simp [append, ih]

end XmlNodes

namespace xml_notifcation_field
open XmlNodes

theorem text_stage_spec (t : notification_template) :
    (text_stage t).1 = .S_OK ∧ before_actions (text_stage t).2 ∧
    root_attributes (text_stage t).2 = [] := by
  have hs0 : ∃ xml0,
      (if t.is_toast_generic then set_bind_toast_generic (get_template_content t.template_type)
        else (HRESULT.S_OK, get_template_content t.template_type)) = (.S_OK, xml0) ∧
      before_actions xml0 ∧
      (get_elements_by_tag_name "text" xml0).length = t.text_fields_count ∧
      root_attributes xml0 = [] := by
    have hb := get_template_content_before_actions t.template_type
    have hl := get_template_content_text_length t.template_type
    split
    · obtain ⟨a, b, c⟩ := set_bind_toast_generic_spec _ hb
      exact ⟨_, Prod.ext a rfl, b, by rw [c, hl]; rfl,
        by rw [set_bind_toast_generic_root _ hb.root]; rfl⟩
    · exact ⟨_, rfl, hb, by rw [hl]; rfl, rfl⟩
  obtain ⟨xml0, e0, b0, l0, r0⟩ := hs0
  unfold text_stage
  rw [e0]
  obtain ⟨a1, b1⟩ := text_fields_loop_spec t t.text_fields_count 0 xml0 b0 (by omega)
  have r1 := (text_fields_loop_root t t.text_fields_count 0 .S_OK xml0 b0.root).2
  exact ⟨a1, b1, by rw [r1, r0]⟩

theorem attribution_stage_spec (t : notification_template) (xml : XmlNodes)
    (h : before_actions xml) (hroot : root_attributes xml = []) :
    (if !t.attribution_text_.isEmpty then set_attribution_text_field xml t.attribution_text_
      else (HRESULT.S_OK, xml)) = (.S_OK, attribution_stage t xml) ∧
    before_actions (attribution_stage t xml) ∧ root_attributes (attribution_stage t xml) = [] := by
  unfold attribution_stage
  split
  · obtain ⟨a, b⟩ := set_attribution_text_field_spec xml t.attribution_text_ h
    exact ⟨Prod.ext a rfl, b, by rw [set_attribution_text_field_root _ _ h.root, hroot]⟩
  · exact ⟨rfl, h, hroot⟩

theorem actions_stage_spec (t : notification_template) (xml1 : XmlNodes)
    (b1 : before_actions xml1) (r1 : root_attributes xml1 = []) :
    toast_doc (attributes_after_actions t) (actions_stage t xml1) ∧
      (((t.has_input && t.actions.count != 0) = true ∧
          add_input xml1 = (.S_OK, actions_stage t xml1)) ∨
       ((t.has_input && t.actions.count != 0) = false ∧
        ∃ xml_a, actions_loop t 0 t.actions.count (.S_OK, xml1) = .ok (.S_OK, xml_a) ∧
          (if t.has_input then add_input xml_a else (HRESULT.S_OK, xml_a))
            = (.S_OK, actions_stage t xml1))) := by
  have hd1 : toast_doc [] xml1 := ⟨b1.root, r1, b1.binding⟩
  obtain ⟨xml_a, ea, ta⟩ := actions_loop_toast_doc t t.actions.count xml1 b1
  rw [r1] at ta
  by_cases hc : (t.has_input && t.actions.count != 0) = true
  · have hA : actions_stage t xml1 = (add_input xml1).2 := by
      unfold actions_stage
      rw [if_pos hc]
    have hin : t.has_input = true := by
      cases h : t.has_input
      · rw [h] at hc; cases hc
      · rfl
    have hattr : attributes_after_actions t = [] := by simp [attributes_after_actions, hin]
    rw [hA, hattr]
    exact ⟨(add_input_toast_doc _ xml1 hd1).2,
      Or.inl ⟨hc, pair_eq_of_fst (add_input xml1) .S_OK rfl⟩⟩
  · have hc1 : (t.has_input && t.actions.count != 0) = false := by
      simpa using hc
    have hA : actions_stage t xml1
        = (if t.has_input then add_input xml_a else (HRESULT.S_OK, xml_a)).2 := by
      unfold actions_stage
      rw [if_neg hc, ea]
    rw [hA]
    cases hin : t.has_input
    · have hattr : attributes_after_actions t
          = (if t.actions.count = 0 then []
              else XmlElement.set_in (XmlElement.set_in [] "template" "ToastGeneric") "duration"
                "long") := by
        by_cases h0 : t.actions.count = 0 <;> simp [attributes_after_actions, hin, h0]
      rw [hattr]
      exact ⟨ta, Or.inr ⟨by simp, xml_a, ea, rfl⟩⟩
    · have h0 : t.actions.count = 0 := by
        rw [hin] at hc1
        simpa using hc1
      have hattr : attributes_after_actions t = [] := by simp [attributes_after_actions, hin]
      rw [hattr]
      rw [if_pos h0] at ta
      refine ⟨?_, Or.inr ⟨by simp [h0], xml_a, ea, ?_⟩⟩
      · rw [if_pos rfl]
        exact (add_input_toast_doc _ xml_a ta).2
      · rw [if_pos rfl]
        exact pair_eq_of_fst (add_input xml_a) .S_OK rfl

theorem audio_stage_spec (A : List (String × String)) (t : notification_template)
    (xml : XmlNodes) (h : toast_doc A xml) :
    (if t.audio_path_.isEmpty && t.audio_option_ == .default_option then (HRESULT.S_OK, xml)
      else set_audio_field xml t.audio_path_ t.audio_option_) = (.S_OK, audio_stage t xml) ∧
    toast_doc A (audio_stage t xml) := by
  unfold audio_stage
  split
  · exact ⟨rfl, h⟩
  · obtain ⟨a, b⟩ := set_audio_field_toast_doc _ xml t.audio_path_ t.audio_option_ h
    exact ⟨Prod.ext a rfl, b⟩

theorem duration_stage_spec (A : List (String × String)) (t : notification_template)
    (xml : XmlNodes) (h : toast_doc A xml) :
    (if t.duration_ != .system then
        add_duration xml (if t.duration_ == .short_duration then "short" else "long")
      else (HRESULT.S_OK, xml)) = (.S_OK, duration_stage t xml) ∧
    toast_doc (if t.duration_ != .system then
        XmlElement.set_in A "duration" (if t.duration_ == .short_duration then "short" else "long")
      else A) (duration_stage t xml) := by
  unfold duration_stage
  split
  · obtain ⟨a, b⟩ := add_duration_toast_doc _ xml
      (if t.duration_ == .short_duration then "short" else "long") h
    exact ⟨Prod.ext a rfl, b⟩
  · exact ⟨rfl, h⟩

theorem image_stage_spec (A : List (String × String)) (win10 : Bool) (t : notification_template)
    (xml : XmlNodes) (h : toast_doc A xml) :
    (if t.has_image then
        set_image_field xml t.image_path_ t.is_toast_generic
          (if win10 then t.is_crop_hint_circle else false)
      else (HRESULT.S_OK, xml)) = (.S_OK, image_stage win10 t xml) ∧
    toast_doc A (image_stage win10 t xml) := by
  unfold image_stage
  split
  · obtain ⟨a, b⟩ := set_image_field_toast_doc _ xml t.image_path_ t.is_toast_generic
      (if win10 then t.is_crop_hint_circle else false) h
    exact ⟨Prod.ext a rfl, b⟩
  · exact ⟨rfl, h⟩

theorem hero_stage_spec (A : List (String × String)) (win10 : Bool) (t : notification_template)
    (xml : XmlNodes) (h : toast_doc A xml) :
    (if win10 && t.has_hero_image then
        set_hero_image xml t.hero_image_path_ t.is_inline_hero_image
      else (HRESULT.S_OK, xml)) = (.S_OK, hero_stage win10 t xml) ∧
    toast_doc A (hero_stage win10 t xml) := by
  unfold hero_stage
  split
  · obtain ⟨a, b⟩ := set_hero_image_toast_doc _ xml t.hero_image_path_
      t.is_inline_hero_image h
    exact ⟨Prod.ext a rfl, b⟩
  · exact ⟨rfl, h⟩

theorem modern_features_stages (t : notification_template) (xml : XmlNodes)
    (h : before_actions xml) (hroot : root_attributes xml = []) :
    modern_features t (.S_OK, xml) = .ok (.S_OK,
      (add_scenario
        (duration_stage t (audio_stage t (actions_stage t (attribution_stage t xml))))
        t.scenario_).2) ∧
    toast_doc (final_attributes t)
      (add_scenario
        (duration_stage t (audio_stage t (actions_stage t (attribution_stage t xml))))
        t.scenario_).2 := by
  obtain ⟨e1, b1, r1⟩ := attribution_stage_spec t xml h hroot
  obtain ⟨a2, e2⟩ := actions_stage_spec t _ b1 r1
  obtain ⟨e3, a3⟩ := audio_stage_spec _ t _ a2
  obtain ⟨e4, a4⟩ := duration_stage_spec _ t _ a3
  obtain ⟨a5, b5⟩ := add_scenario_toast_doc _ _ t.scenario_ a4
  refine ⟨?_, b5⟩
  have e5 := pair_eq_of_fst _ .S_OK a5
  unfold modern_features
  rcases e2 with ⟨hc, ein⟩ | ⟨hc, xml_a, ea, ein⟩
  · simp only [e1, hc, if_true, ein, e3, e4, bind, Except.bind, pure, Except.pure,
      check_hresult, SUCCEEDED, beq_self_eq_true]
    exact congrArg Except.ok e5
  · simp only [e1, hc, Bool.false_eq_true, if_false, ea, ein, e3, e4, bind, Except.bind, pure,
      Except.pure, check_hresult, SUCCEEDED, beq_self_eq_true, if_true]
    exact congrArg Except.ok e5

theorem modern_stage_toast_doc (modern : Bool) (t : notification_template) :
    toast_doc (if modern then final_attributes t else []) (modern_stage modern t) := by
  obtain ⟨a1, b1, r1⟩ := text_stage_spec t
  cases modern
  · exact ⟨b1.root, r1, b1.binding⟩
  · exact (modern_features_stages t _ b1 r1).2

/-- The constructor succeeds on every template and builds the staged document. -/
theorem compile_eq_compiled_document (ctx_bridge : context_bridge) (win10 : Bool)
    (t : notification_template) :
    compile ctx_bridge win10 t = .ok (compiled_document
      (ctx_bridge.is_supporting_modern_features && ctx_bridge.is_enable_modern_features) win10 t) := by
  obtain ⟨a1, b1, r1⟩ := text_stage_spec t
  have e1 := pair_eq_of_fst (text_stage t) .S_OK a1
  have hm := modern_stage_toast_doc
    (ctx_bridge.is_supporting_modern_features && ctx_bridge.is_enable_modern_features) t
  obtain ⟨e3, a3⟩ := image_stage_spec _ win10 t _ hm
  obtain ⟨e4, a4⟩ := hero_stage_spec _ win10 t _ a3
  have hfold : text_fields_loop t 0 t.text_fields_count
      (if t.is_toast_generic then set_bind_toast_generic (get_template_content t.template_type)
        else (HRESULT.S_OK, get_template_content t.template_type)) = text_stage t := rfl
  unfold compile
  simp only [hfold]
  rw [e1]
  cases hmod : (ctx_bridge.is_supporting_modern_features && ctx_bridge.is_enable_modern_features)
  · rw [hmod] at e3 e4
    have hms : modern_stage false t = (text_stage t).2 := rfl
    rw [hms] at e3 e4
    simp only [compiled_document, hms, a1, Bool.false_eq_true, if_false, e3, e4, bind, Except.bind,
      pure, Except.pure, check_hresult, SUCCEEDED, beq_self_eq_true, if_true]
  · rw [hmod] at e3 e4
    have e2 := (modern_features_stages t _ b1 r1).1
    have hms : modern_stage true t = (add_scenario
        (duration_stage t (audio_stage t (actions_stage t (attribution_stage t (text_stage t).2))))
        t.scenario_).2 := rfl
    rw [hms] at e3 e4
    simp only [compiled_document, hms, a1, if_true, e2, e3, e4, bind, Except.bind,
      pure, Except.pure, check_hresult, SUCCEEDED, beq_self_eq_true]

/-- The input block that `add_input()` leaves under the `actions` element. -/
theorem add_input_on_toast (A : List (String × String)) (C : XmlNodes)
    (h1 : get_elements_by_tag_name "actions" C = [])
    (h2 : get_elements_by_tag_name "input" C = [])
    (h3 : get_elements_by_tag_name "action" C = []) :
    (add_input (.element "toast" A C .nil)).2
      = .element "toast" A
          (C.append (.element "actions" []
            (.element "input" [("id", "textBox"), ("type", "text"), ("placeHolderContent", "...")]
              .nil
              (.element "action"
                [("content", "Reply"), ("arguments", "action=reply"), ("hint-inputId", "textBox")]
                .nil .nil)) .nil)) .nil := by
  have e1 : (util.create_element (.element "toast" A C .nil) "toast" "actions" []).2
      = .element "toast" A (C.append (.element "actions" [] .nil .nil)) .nil := by
    simp [util.create_element, get_elements_by_tag_name, modify_nth, XmlElement.append_child,
      XmlElement.to_nodes, XmlElement.create]
  have e2 : (util.create_element (.element "toast" A (C.append (.element "actions" [] .nil .nil)) .nil)
      "actions" "input" ["id", "type", "placeHolderContent"]).2
      = .element "toast" A (C.append (.element "actions" []
          (.element "input" [("id", ""), ("type", ""), ("placeHolderContent", "")] .nil .nil)
          .nil)) .nil := by
    unfold util.create_element
    rw [if_pos (by simp [get_elements_by_tag_name, get_elements_append])]
    simp only []
    rw [modify_nth]
    simp only [show ¬ ("toast" = "actions") by decide, if_false]
    rw [if_pos (by simp [get_elements_by_tag_name, get_elements_append]),
      modify_nth_append_of_absent _ _ _ _ _ h1]
    simp [modify_nth, XmlElement.append_child, XmlElement.to_nodes, XmlElement.create,
      XmlElement.add_attribute, XmlElement.set_attribute, XmlElement.set_in, XmlNodes.append]
  have e3 : (util.create_element (.element "toast" A (C.append (.element "actions" []
          (.element "input" [("id", ""), ("type", ""), ("placeHolderContent", "")] .nil .nil)
          .nil)) .nil) "actions" "action" ["content", "arguments"]).2
      = .element "toast" A (C.append (.element "actions" []
          (.element "input" [("id", ""), ("type", ""), ("placeHolderContent", "")] .nil
            (.element "action" [("content", ""), ("arguments", "")] .nil .nil))
          .nil)) .nil := by
    unfold util.create_element
    rw [if_pos (by simp [get_elements_by_tag_name, get_elements_append])]
    simp only []
    rw [modify_nth]
    simp only [show ¬ ("toast" = "actions") by decide, if_false]
    rw [if_pos (by simp [get_elements_by_tag_name, get_elements_append]),
      modify_nth_append_of_absent _ _ _ _ _ h1]
    simp [modify_nth, XmlElement.append_child, XmlElement.to_nodes, XmlElement.create,
      XmlElement.add_attribute, XmlElement.set_attribute, XmlElement.set_in, XmlNodes.append]
  have e4 : ∀ f : XmlElement → XmlElement,
      (if (get_elements_by_tag_name "input" (.element "toast" A (C.append (.element "actions" []
          (.element "input" [("id", ""), ("type", ""), ("placeHolderContent", "")] .nil
            (.element "action" [("content", ""), ("arguments", "")] .nil .nil))
          .nil)) .nil)).length > 0 then
        modify_nth "input" f 0 (.element "toast" A (C.append (.element "actions" []
          (.element "input" [("id", ""), ("type", ""), ("placeHolderContent", "")] .nil
            (.element "action" [("content", ""), ("arguments", "")] .nil .nil))
          .nil)) .nil)
        else (.element "toast" A (C.append (.element "actions" []
          (.element "input" [("id", ""), ("type", ""), ("placeHolderContent", "")] .nil
            (.element "action" [("content", ""), ("arguments", "")] .nil .nil))
          .nil)) .nil))
      = .element "toast" A (C.append (.element "actions" []
          ((f ⟨"input", [("id", ""), ("type", ""), ("placeHolderContent", "")], .nil⟩).to_nodes
            (.element "action" [("content", ""), ("arguments", "")] .nil .nil))
          .nil)) .nil := by
    intro f
    rw [if_pos (by simp [get_elements_by_tag_name, get_elements_append])]
    rw [modify_nth]
    simp only [show ¬ ("toast" = "input") by decide, if_false]
    rw [if_pos (by simp [get_elements_by_tag_name, get_elements_append]),
      modify_nth_append_of_absent _ _ _ _ _ h2]
    simp [modify_nth, get_elements_by_tag_name]
  have e5 : ∀ (I : List (String × String)) (f : XmlElement → XmlElement),
      (if (get_elements_by_tag_name "action" (.element "toast" A (C.append (.element "actions" []
          (.element "input" I .nil
            (.element "action" [("content", ""), ("arguments", "")] .nil .nil))
          .nil)) .nil)).length > 0 then
        modify_nth "action" f 0 (.element "toast" A (C.append (.element "actions" []
          (.element "input" I .nil
            (.element "action" [("content", ""), ("arguments", "")] .nil .nil))
          .nil)) .nil)
        else (.element "toast" A (C.append (.element "actions" []
          (.element "input" I .nil
            (.element "action" [("content", ""), ("arguments", "")] .nil .nil))
          .nil)) .nil))
      = .element "toast" A (C.append (.element "actions" []
          (.element "input" I .nil
            ((f ⟨"action", [("content", ""), ("arguments", "")], .nil⟩).to_nodes .nil))
          .nil)) .nil := by
    intro I f
    rw [if_pos (by simp [get_elements_by_tag_name, get_elements_append])]
    rw [modify_nth]
    simp only [show ¬ ("toast" = "action") by decide, if_false]
    rw [if_pos (by simp [get_elements_by_tag_name, get_elements_append]),
      modify_nth_append_of_absent _ _ _ _ _ h3]
    simp [modify_nth, get_elements_by_tag_name]
  unfold add_input
  simp only []
  rw [e1, e2, e3, e4]
  simp only [XmlElement.to_nodes, XmlElement.set_attribute, XmlElement.set_in]
  simp only [show (("id" : String) == "id") = true by decide,
    show (("id" : String) == "type") = false by decide,
    show (("type" : String) == "type") = true by decide,
    show (("id" : String) == "placeHolderContent") = false by decide,
    show (("type" : String) == "placeHolderContent") = false by decide,
    show (("placeHolderContent" : String) == "placeHolderContent") = true by decide,
    if_true, Bool.false_eq_true, if_false]
  rw [e5]
  simp only [XmlElement.to_nodes, XmlElement.set_attribute, XmlElement.set_in]
  simp only [show (("content" : String) == "content") = true by decide,
    show (("content" : String) == "arguments") = false by decide,
    show (("arguments" : String) == "arguments") = true by decide,
    show (("content" : String) == "hint-inputId") = false by decide,
    show (("arguments" : String) == "hint-inputId") = false by decide,
    if_true, Bool.false_eq_true, if_false]

theorem create_element_views {β : Type} (T : String) (g : XmlElement → β)
    (hg : ∀ tg attrs ch ch1, g ⟨tg, attrs, ch⟩ = g ⟨tg, attrs, ch1⟩)
    (xml : XmlNodes) (root_node element_name : String) (names : List String)
    (hT : element_name ≠ T) :
    (get_elements_by_tag_name T (util.create_element xml root_node element_name names).2).map g
      = (get_elements_by_tag_name T xml).map g := by
  unfold util.create_element
  split
  · exact map_get_elements_modify_append T root_node _ g hg
      (created_element_elements T element_name names hT) 0 xml
  · rfl

theorem guarded_pair_views {β : Type} (T tag : String) (f : XmlElement → XmlElement)
    (g : XmlElement → β)
    (hg : ∀ tg attrs ch ch1, g ⟨tg, attrs, ch⟩ = g ⟨tg, attrs, ch1⟩)
    (hne : T ≠ tag)
    (hf : ∀ e : XmlElement, (f e).tag = e.tag ∧ (f e).children = e.children)
    (xml : XmlNodes) :
    (get_elements_by_tag_name T
        (if (get_elements_by_tag_name tag xml).length > 0 then
          (HRESULT.S_OK, modify_nth tag f 0 xml) else (HRESULT.S_OK, xml)).2).map g
      = (get_elements_by_tag_name T xml).map g := by
  split
  · exact map_get_elements_modify_attrs T tag f g hg hne hf 0 xml
  · rfl

theorem set_text_field_views {β : Type} (T : String) (g : XmlElement → β)
    (hg : ∀ tg attrs ch ch1, g ⟨tg, attrs, ch⟩ = g ⟨tg, attrs, ch1⟩)
    (xml : XmlNodes) (text : String) (pos : Nat) :
    (get_elements_by_tag_name T (set_text_field xml text pos).2).map g
      = (get_elements_by_tag_name T xml).map g := by
  unfold set_text_field
  split
  · exact map_get_elements_modify_append T "text" (.text text .nil) g hg rfl pos xml
  · rfl

theorem text_fields_loop_views {β : Type} (T : String) (g : XmlElement → β)
    (hg : ∀ tg attrs ch ch1, g ⟨tg, attrs, ch⟩ = g ⟨tg, attrs, ch1⟩)
    (t : notification_template) (steps i : Nat) (hr : HRESULT) (xml : XmlNodes) :
    (get_elements_by_tag_name T (text_fields_loop t i steps (hr, xml)).2).map g
      = (get_elements_by_tag_name T xml).map g := by
  induction steps generalizing i hr xml with
  | zero => rfl
  | succ n ih =>
    rw [text_fields_loop]
    split
    · rw [ih (i + 1) _ _, set_text_field_views T g hg]
    · rfl

theorem text_stage_views {β : Type} (T : String) (g : XmlElement → β)
    (hg : ∀ tg attrs ch ch1, g ⟨tg, attrs, ch⟩ = g ⟨tg, attrs, ch1⟩)
    (t : notification_template)
    (h1 : T ≠ "toast") (h2 : T ≠ "visual") (h3 : T ≠ "binding") (h4 : T ≠ "image")
    (h5 : T ≠ "text") :
    (get_elements_by_tag_name T (text_stage t).2).map g = [] := by
  have h0 : get_elements_by_tag_name T (get_template_content t.template_type) = [] := by
    unfold get_template_content
    simp only []
    split <;>
      simp [get_elements_by_tag_name, Ne.symm h1, Ne.symm h2, Ne.symm h3, Ne.symm h4,
        skeleton_texts_elements T h5]
  unfold text_stage
  split
  · rw [text_fields_loop_views T g hg]
    unfold set_bind_toast_generic
    split
    · rw [map_get_elements_modify_attrs T "binding" _ g hg h3
        (fun e => set_attribute_frame "template" "ToastGeneric" e), h0]
      rfl
    · rw [h0]
      rfl
  · rw [text_fields_loop_views T g hg, h0]
    rfl

theorem attribution_stage_views {β : Type} (T : String) (g : XmlElement → β)
    (hg : ∀ tg attrs ch ch1, g ⟨tg, attrs, ch⟩ = g ⟨tg, attrs, ch1⟩)
    (t : notification_template) (xml : XmlNodes) (h5 : T ≠ "text") :
    (get_elements_by_tag_name T (attribution_stage t xml)).map g
      = (get_elements_by_tag_name T xml).map g := by
  unfold attribution_stage
  split
  · unfold set_attribution_text_field
    simp only []
    have h1 := create_element_views T g hg xml "binding" "text" ["placement"] (Ne.symm h5)
    split
    · next i _ =>
      rw [set_text_field_views T g hg,
        map_get_elements_modify_attrs T "text" _ g hg h5
          (fun e => append_attribute_text_frame "placement" "attribution" e), h1]
    · exact h1
  · rfl

theorem add_action_views {β : Type} (T : String) (g : XmlElement → β)
    (hg : ∀ tg attrs ch ch1, g ⟨tg, attrs, ch⟩ = g ⟨tg, attrs, ch1⟩)
    (xml : XmlNodes) (content arguments : String)
    (h1 : T ≠ "toast") (h2 : T ≠ "actions") (h3 : T ≠ "action") :
    (get_elements_by_tag_name T (add_action xml content arguments).2).map g
      = (get_elements_by_tag_name T xml).map g := by
  unfold add_action
  simp only []
  split
  · refine map_get_elements_modify_append T "actions" _ g hg ?_ 0 xml
    simp [XmlElement.to_nodes, XmlElement.set_attribute, XmlElement.create,
      get_elements_by_tag_name, Ne.symm h3]
  · split
    · apply map_get_elements_modify_nth T "toast" _ g hg
      intro e he
      simp [XmlElement.to_nodes, XmlElement.set_attribute, XmlElement.create,
        XmlElement.append_child, get_elements_by_tag_name, get_elements_append, he,
        Ne.symm h1, Ne.symm h2, Ne.symm h3, XmlNodes.append]
    · rfl

theorem actions_loop_views {β : Type} (T : String) (g : XmlElement → β)
    (hg : ∀ tg attrs ch ch1, g ⟨tg, attrs, ch⟩ = g ⟨tg, attrs, ch1⟩)
    (t : notification_template)
    (h1 : T ≠ "toast") (h2 : T ≠ "actions") (h3 : T ≠ "action")
    (steps i : Nat) (st st1 : HRESULT × XmlNodes)
    (he : actions_loop t i steps st = .ok st1) :
    (get_elements_by_tag_name T st1.2).map g = (get_elements_by_tag_name T st.2).map g := by
  induction steps generalizing i st with
  | zero =>
    simp only [actions_loop] at he
    cases he
    rfl
  | succ n ih =>
    obtain ⟨hr, xml⟩ := st
    rw [actions_loop] at he
    split at he
    · simp only [] at he
      split at he
      · rw [ih (i + 1) _ he, add_action_views T g hg xml _ _ h1 h2 h3]
      · cases he
    · cases he
      rfl

theorem audio_stage_views {β : Type} (T : String) (g : XmlElement → β)
    (hg : ∀ tg attrs ch ch1, g ⟨tg, attrs, ch⟩ = g ⟨tg, attrs, ch1⟩)
    (t : notification_template) (xml : XmlNodes) (h : T ≠ "audio") :
    (get_elements_by_tag_name T (audio_stage t xml)).map g
      = (get_elements_by_tag_name T xml).map g := by
  unfold audio_stage
  split
  · rfl
  · unfold set_audio_field
    rw [guarded_pair_views T "audio" _ g hg h ?_,
      create_element_views T g hg xml "toast" "audio" _ (Ne.symm h)]
    intro e
    cases t.audio_option_ <;> cases t.audio_path_.isEmpty <;> exact ⟨rfl, rfl⟩

theorem toast_attribute_views {β : Type} (T : String) (g : XmlElement → β)
    (hg : ∀ tg attrs ch ch1, g ⟨tg, attrs, ch⟩ = g ⟨tg, attrs, ch1⟩)
    (name value : String) (xml : XmlNodes) (h : T ≠ "toast") :
    (get_elements_by_tag_name T
        (if (get_elements_by_tag_name "toast" xml).length > 0 then
          (HRESULT.S_OK, modify_nth "toast" (fun e => e.set_attribute name value) 0 xml)
        else (HRESULT.S_OK, xml)).2).map g
      = (get_elements_by_tag_name T xml).map g :=
  guarded_pair_views T "toast" _ g hg h (fun e => set_attribute_frame name value e) xml

theorem duration_stage_views {β : Type} (T : String) (g : XmlElement → β)
    (hg : ∀ tg attrs ch ch1, g ⟨tg, attrs, ch⟩ = g ⟨tg, attrs, ch1⟩)
    (t : notification_template) (xml : XmlNodes) (h : T ≠ "toast") :
    (get_elements_by_tag_name T (duration_stage t xml)).map g
      = (get_elements_by_tag_name T xml).map g := by
  unfold duration_stage
  split
  · exact toast_attribute_views T g hg "duration" _ xml h
  · rfl

theorem image_stage_views {β : Type} (T : String) (g : XmlElement → β)
    (hg : ∀ tg attrs ch ch1, g ⟨tg, attrs, ch⟩ = g ⟨tg, attrs, ch1⟩)
    (win10 : Bool) (t : notification_template) (xml : XmlNodes) (h : T ≠ "image") :
    (get_elements_by_tag_name T (image_stage win10 t xml)).map g
      = (get_elements_by_tag_name T xml).map g := by
  unfold image_stage
  split
  · unfold set_image_field
    refine guarded_pair_views T "image" _ g hg h ?_ xml
    intro e
    cases t.is_toast_generic <;> cases (if win10 then t.is_crop_hint_circle else false) <;>
      exact ⟨rfl, rfl⟩
  · rfl

theorem hero_stage_views {β : Type} (T : String) (g : XmlElement → β)
    (hg : ∀ tg attrs ch ch1, g ⟨tg, attrs, ch⟩ = g ⟨tg, attrs, ch1⟩)
    (win10 : Bool) (t : notification_template) (xml : XmlNodes) (h : T ≠ "image") :
    (get_elements_by_tag_name T (hero_stage win10 t xml)).map g
      = (get_elements_by_tag_name T xml).map g := by
  unfold hero_stage
  split
  · unfold set_hero_image
    split
    · refine map_get_elements_modify_append T "binding" _ g hg ?_ 0 xml
      cases t.is_inline_hero_image <;>
        simp [XmlElement.to_nodes, XmlElement.set_attribute, XmlElement.create,
          get_elements_by_tag_name, Ne.symm h]
    · rfl
  · rfl

/-- What `g` reads from the `T` elements is the same in the compiled document as after the
step that adds the input block or the action buttons. -/
theorem compiled_document_views {β : Type} (T : String) (g : XmlElement → β)
    (hg : ∀ tg attrs ch ch1, g ⟨tg, attrs, ch⟩ = g ⟨tg, attrs, ch1⟩)
    (win10 : Bool) (t : notification_template)
    (h1 : T ≠ "toast") (h2 : T ≠ "audio") (h3 : T ≠ "image") :
    (get_elements_by_tag_name T (compiled_document true win10 t)).map g
      = (get_elements_by_tag_name T
          (actions_stage t (attribution_stage t (text_stage t).2))).map g := by
  unfold compiled_document
  rw [hero_stage_views T g hg win10 t _ h3, image_stage_views T g hg win10 t _ h3]
  show (get_elements_by_tag_name T (add_scenario _ t.scenario_).2).map g = _
  unfold add_scenario
  rw [toast_attribute_views T g hg "scenario" _ _ h1, duration_stage_views T g hg t _ h1,
    audio_stage_views T g hg t _ h2]

theorem input_view_children (tg : String) (attrs : List (String × String)) (ch ch1 : XmlNodes) :
    input_view ⟨tg, attrs, ch⟩ = input_view ⟨tg, attrs, ch1⟩ := rfl

theorem actions_stage_with_input (t : notification_template) (xml : XmlNodes)
    (h : t.has_input = true) : actions_stage t xml = (add_input xml).2 := by
  unfold actions_stage
  by_cases hc : (t.has_input && t.actions.count != 0) = true
  · rw [if_pos hc]
  · rw [if_neg hc]
    have h0 : t.actions.count = 0 := by
      rw [h] at hc
      simpa using hc
    rw [h0]
    simp only [actions_loop]
    rw [if_pos h]

theorem format_index_ne_reply (i : Nat) : format_index i ≠ "action=reply" := by
  intro h
  have h1 := congrArg (fun s : String => s.data.length) h
  simp only [format_index, String.data_take, List.length_take] at h1
  have h2 : ("action=reply" : String).data.length = 12 := by decide
  rw [h2] at h1
  omega

/-- Claim C21: with modern features supported and enabled every template compiles, and the
document holds either the input block or the enumerated action buttons, never both. With
`has_input()` it has exactly one `input` element, with id `textBox`, and exactly one `action`
element, the reply action with the arguments `action=reply`; without `has_input()` it has no
`input` element and exactly `actions.count()` `action` elements, the `i`-th with the content
label `i` and the formatted index `i` as arguments, none of them the reply action. -/
theorem compile_input_or_actions (ctx_bridge : context_bridge) (win10 : Bool)
    (t : notification_template)
    (hsup : ctx_bridge.is_supporting_modern_features = true)
    (hen : ctx_bridge.is_enable_modern_features = true) :
    ∃ doc, compile ctx_bridge win10 t = .ok doc ∧
      (if t.has_input then
        input_views doc = [some "textBox"] ∧
        action_views doc = [(some "Reply", some "action=reply")]
      else
        input_views doc = [] ∧
        action_views doc = (List.range t.actions.count).map
          (fun i => (some (t.actions.action_label i), some (format_index i))) ∧
        (action_views doc).length = t.actions.count ∧
        ∀ v ∈ action_views doc, v.2 ≠ some "action=reply") := by
  have hc : compile ctx_bridge win10 t = .ok (compiled_document true win10 t) := by
    have := compile_eq_compiled_document ctx_bridge win10 t
    rw [hsup, hen] at this
    exact this
  refine ⟨_, hc, ?_⟩
  obtain ⟨_, b0, r0⟩ := text_stage_spec t
  obtain ⟨_, b1, _⟩ := attribution_stage_spec t _ b0 r0
  have hin0 : (get_elements_by_tag_name "input"
      (attribution_stage t (text_stage t).2)).map input_view = [] := by
    rw [attribution_stage_views "input" input_view input_view_children t _ (by decide)]
    exact text_stage_views "input" input_view input_view_children t (by decide) (by decide)
      (by decide) (by decide) (by decide)
  have hi := compiled_document_views "input" input_view input_view_children win10 t
    (by decide) (by decide) (by decide)
  have ha := compiled_document_views "action" action_view action_view_children win10 t
    (by decide) (by decide) (by decide)
  cases hin : t.has_input
  · simp only [Bool.false_eq_true, if_false]
    have hviews : action_views (compiled_document true win10 t)
        = expected_actions t t.actions.count := by
      obtain ⟨doc, h1, h2⟩ := compile_action_views ctx_bridge win10 t hsup hen hin
      rw [hc] at h1
      cases h1
      exact h2
    refine ⟨?_, hviews, ?_, ?_⟩
    · show (get_elements_by_tag_name "input" (compiled_document true win10 t)).map input_view = []
      rw [hi]
      unfold actions_stage
      rw [hin]
      simp only [Bool.false_and, Bool.false_eq_true, if_false]
      split
      · next st_a he =>
        rw [actions_loop_views "input" input_view input_view_children t (by decide) (by decide)
          (by decide) _ 0 _ st_a he]
        exact hin0
      · exact hin0
    · rw [hviews]
      simp [expected_actions]
    · intro v hv
      rw [hviews] at hv
      simp only [expected_actions, List.mem_map, List.mem_range] at hv
      obtain ⟨i, _, rfl⟩ := hv
      simp only [ne_eq, Option.some.injEq]
      exact format_index_ne_reply i
  · simp only [if_true]
    obtain ⟨A, C, hx⟩ := b1.root
    have h1 : get_elements_by_tag_name "actions" C = [] := by
      have := b1.no_actions
      rw [hx] at this
      simpa [get_elements_by_tag_name] using this
    have h3 : get_elements_by_tag_name "action" C = [] := by
      have := b1.no_action
      rw [hx] at this
      simpa [get_elements_by_tag_name] using this
    have h2 : get_elements_by_tag_name "input" C = [] := by
      have := hin0
      rw [hx] at this
      simpa [get_elements_by_tag_name] using this
    have hdoc := add_input_on_toast A C h1 h2 h3
    constructor
    · show (get_elements_by_tag_name "input" (compiled_document true win10 t)).map input_view = _
      rw [hi, actions_stage_with_input t _ hin, hx, hdoc]
      simp [get_elements_by_tag_name, get_elements_append, h2, input_view,
        XmlElement.get_named_item]
    · show (get_elements_by_tag_name "action" (compiled_document true win10 t)).map action_view = _
      rw [ha, actions_stage_with_input t _ hin, hx, hdoc]
      simp [get_elements_by_tag_name, get_elements_append, h3, action_view,
        XmlElement.get_named_item]

/-- Witness of claim C21: the template with the input block gives one `input` element and the
reply action; the template with the labels Yes and No gives no `input` element and two action
buttons. -/
theorem compile_input_or_actions_witness :
    (context_bridge.make true true true).is_supporting_modern_features = true ∧
    (context_bridge.make true true true).is_enable_modern_features = true ∧
    input_toast.has_input = true ∧ yes_no.has_input = false ∧
    (∃ doc, compile (context_bridge.make true true true) true input_toast = .ok doc ∧
      input_views doc = [some "textBox"] ∧
      action_views doc = [(some "Reply", some "action=reply")]) ∧
    (∃ doc, compile (context_bridge.make true true true) true yes_no = .ok doc ∧
      input_views doc = [] ∧
      action_views doc = [(some "Yes", some "0"), (some "No", some "1")] ∧
      (action_views doc).length = 2 ∧
      ∀ v ∈ action_views doc, v.2 ≠ some "action=reply") :=
  ⟨by decide, by decide, by decide, by decide,
    compile_input_or_actions (context_bridge.make true true true) true input_toast (by decide)
      (by decide),
    compile_input_or_actions (context_bridge.make true true true) true yes_no (by decide)
      (by decide)⟩

theorem slot_doc_modify_other (I : List (String × String)) (tag : String)
    (f : XmlElement → XmlElement) (k : Nat) (xml : XmlNodes)
    (h1 : tag ≠ "toast") (h2 : tag ≠ "visual") (h3 : tag ≠ "binding") (h4 : tag ≠ "image")
    (h : slot_doc I xml) : slot_doc I (modify_nth tag f k xml) := by
  obtain ⟨A, V, B, X, R, rfl⟩ := h
  simp only [modify_nth, Ne.symm h1, Ne.symm h2, Ne.symm h3, Ne.symm h4, if_false]
  split_ifs <;> exact ⟨_, _, _, _, _, rfl⟩

theorem slot_doc_modify_toast (I : List (String × String))
    (f : XmlElement → XmlElement) (xml : XmlNodes)
    (hf : ∀ e : XmlElement, (f e).tag = e.tag ∧ ∃ c, (f e).children = e.children.append c)
    (h : slot_doc I xml) : slot_doc I (modify_nth "toast" f 0 xml) := by
  obtain ⟨A, V, B, X, R, rfl⟩ := h
  obtain ⟨ht, c, hc⟩ := hf ⟨"toast", A,
    .element "visual" V (.element "binding" B (.element "image" I .nil X) .nil) R⟩
  simp only [modify_nth, if_true, XmlElement.to_nodes, ht, hc, XmlNodes.append]
  exact ⟨_, _, _, _, _, rfl⟩

theorem slot_doc_modify_binding (I : List (String × String))
    (f : XmlElement → XmlElement) (xml : XmlNodes)
    (hf : ∀ e : XmlElement, (f e).tag = e.tag ∧ ∃ c, (f e).children = e.children.append c)
    (h : slot_doc I xml) : slot_doc I (modify_nth "binding" f 0 xml) := by
  obtain ⟨A, V, B, X, R, rfl⟩ := h
  obtain ⟨ht, c, hc⟩ := hf ⟨"binding", B, .element "image" I .nil X⟩
  have n1 : ¬ ("toast" = "binding") := by decide
  have n2 : ¬ ("visual" = "binding") := by decide
  simp only [modify_nth, n1, n2, if_false, if_true, get_elements_by_tag_name, List.length_append,
    List.length_cons, List.length_nil, XmlElement.to_nodes, ht, hc, XmlNodes.append]
  rw [if_pos (by omega), if_pos (by omega)]
  exact ⟨_, _, _, _, _, rfl⟩

theorem slot_doc_modify_image (I : List (String × String))
    (f : XmlElement → XmlElement) (xml : XmlNodes)
    (hf : ∀ e : XmlElement, (f e).tag = e.tag ∧ (f e).children = e.children)
    (h : slot_doc I xml) :
    slot_doc (f ⟨"image", I, .nil⟩).attributes (modify_nth "image" f 0 xml) := by
  obtain ⟨A, V, B, X, R, rfl⟩ := h
  obtain ⟨ht, hc⟩ := hf ⟨"image", I, .nil⟩
  have n1 : ¬ ("toast" = "image") := by decide
  have n2 : ¬ ("visual" = "image") := by decide
  have n3 : ¬ ("binding" = "image") := by decide
  simp only [modify_nth, n1, n2, n3, if_false, if_true, get_elements_by_tag_name,
    List.length_append, List.length_cons, List.length_nil, XmlElement.to_nodes, ht, hc]
  rw [if_pos (by omega), if_pos (by omega), if_pos (by omega)]
  exact ⟨_, _, _, _, _, rfl⟩

/-- The image slot is kept by every mutation of an element other than `visual` and `image`
that keeps the tag and only appends children. -/
theorem slot_doc_modify (I : List (String × String)) (tag : String)
    (f : XmlElement → XmlElement) (k : Nat) (xml : XmlNodes)
    (h2 : tag ≠ "visual") (h4 : tag ≠ "image")
    (hk : tag = "toast" ∨ tag = "binding" → k = 0)
    (hf : ∀ e : XmlElement, (f e).tag = e.tag ∧ ∃ c, (f e).children = e.children.append c)
    (h : slot_doc I xml) : slot_doc I (modify_nth tag f k xml) := by
  by_cases h1 : tag = "toast"
  · subst h1
    rw [hk (Or.inl rfl)]
    exact slot_doc_modify_toast I f xml hf h
  · by_cases h3 : tag = "binding"
    · subst h3
      rw [hk (Or.inr rfl)]
      exact slot_doc_modify_binding I f xml hf h
    · exact slot_doc_modify_other I tag f k xml h1 h2 h3 h4 h

theorem appends_of_attrs (f : XmlElement → XmlElement)
    (hf : ∀ e : XmlElement, (f e).tag = e.tag ∧ (f e).children = e.children) :
    ∀ e : XmlElement, (f e).tag = e.tag ∧ ∃ c, (f e).children = e.children.append c :=
  fun e => ⟨(hf e).1, .nil, by rw [append_nil]; exact (hf e).2⟩

theorem appends_of_append (c : XmlNodes) :
    ∀ e : XmlElement, ({ e with children := e.children.append c } : XmlElement).tag = e.tag ∧
      ∃ c1, ({ e with children := e.children.append c } : XmlElement).children
        = e.children.append c1 :=
  fun _ => ⟨rfl, c, rfl⟩

theorem create_element_slot_doc (I : List (String × String)) (xml : XmlNodes)
    (root_node element_name : String) (names : List String)
    (h2 : root_node ≠ "visual") (h4 : root_node ≠ "image") (h : slot_doc I xml) :
    slot_doc I (util.create_element xml root_node element_name names).2 := by
  unfold util.create_element
  split
  · exact slot_doc_modify I root_node _ 0 xml h2 h4 (fun _ => rfl) (appends_of_append _) h
  · exact h

theorem set_text_field_slot_doc (I : List (String × String)) (xml : XmlNodes) (text : String)
    (pos : Nat) (h : slot_doc I xml) : slot_doc I (set_text_field xml text pos).2 := by
  unfold set_text_field
  split
  · exact slot_doc_modify_other I "text" _ pos xml (by decide) (by decide) (by decide) (by decide) h
  · exact h

theorem text_fields_loop_slot_doc (I : List (String × String)) (t : notification_template)
    (steps i : Nat) (hr : HRESULT) (xml : XmlNodes) (h : slot_doc I xml) :
    slot_doc I (text_fields_loop t i steps (hr, xml)).2 := by
  induction steps generalizing i hr xml with
  | zero => exact h
  | succ n ih =>
    rw [text_fields_loop]
    split
    · exact ih (i + 1) _ _ (set_text_field_slot_doc I xml _ i h)
    · exact h

theorem get_template_content_slot_doc (type : notification_template_type)
    (h : type.toNat < notification_template_type.text01.toNat) :
    slot_doc [("id", "1"), ("src", "")] (get_template_content type) := by
  unfold get_template_content
  simp only [h, if_true]
  exact ⟨_, _, _, _, _, rfl⟩

theorem text_stage_slot_doc (t : notification_template) (h : t.has_image = true) :
    slot_doc [("id", "1"), ("src", "")] (text_stage t).2 := by
  have h0 : slot_doc [("id", "1"), ("src", "")] (get_template_content t.template_type) := by
    apply get_template_content_slot_doc
    simpa [notification_template.has_image] using h
  unfold text_stage
  split
  · have h1 : slot_doc [("id", "1"), ("src", "")]
        (set_bind_toast_generic (get_template_content t.template_type)).2 := by
      unfold set_bind_toast_generic
      split
      · exact slot_doc_modify_binding _ _ _
          (appends_of_attrs _ (fun e => set_attribute_frame "template" "ToastGeneric" e)) h0
      · exact h0
    exact text_fields_loop_slot_doc _ t _ 0 _ _ h1
  · exact text_fields_loop_slot_doc _ t _ 0 _ _ h0

theorem attribution_stage_slot_doc (I : List (String × String)) (t : notification_template)
    (xml : XmlNodes) (h : slot_doc I xml) : slot_doc I (attribution_stage t xml) := by
  unfold attribution_stage
  split
  · unfold set_attribution_text_field
    simp only []
    have h1 := create_element_slot_doc I xml "binding" "text" ["placement"] (by decide)
      (by decide) h
    split
    · next i _ =>
      exact set_text_field_slot_doc I _ _ i
        (slot_doc_modify_other I "text" _ i _ (by decide) (by decide) (by decide) (by decide) h1)
    · exact h1
  · exact h

theorem add_action_slot_doc (I : List (String × String)) (xml : XmlNodes)
    (content arguments : String) (h : slot_doc I xml) :
    slot_doc I (add_action xml content arguments).2 := by
  unfold add_action
  simp only []
  split
  · exact slot_doc_modify_other I "actions" _ 0 xml (by decide) (by decide) (by decide)
      (by decide) h
  · split
    · exact slot_doc_modify_toast I _ xml (fun e => ⟨rfl, _, rfl⟩) h
    · exact h

theorem actions_loop_slot_doc (I : List (String × String)) (t : notification_template)
    (steps i : Nat) (st st1 : HRESULT × XmlNodes) (h : slot_doc I st.2)
    (he : actions_loop t i steps st = .ok st1) : slot_doc I st1.2 := by
  induction steps generalizing i st with
  | zero =>
    simp only [actions_loop] at he
    cases he
    exact h
  | succ n ih =>
    obtain ⟨hr, xml⟩ := st
    rw [actions_loop] at he
    split at he
    · simp only [] at he
      split at he
      · exact ih (i + 1) _ (add_action_slot_doc I xml _ _ h) he
      · cases he
    · cases he
      exact h

theorem add_input_slot_doc (I : List (String × String)) (xml : XmlNodes) (h : slot_doc I xml) :
    slot_doc I (add_input xml).2 := by
  have h1 := create_element_slot_doc I xml "toast" "actions" [] (by decide) (by decide) h
  have h2 := create_element_slot_doc I _ "actions" "input" ["id", "type", "placeHolderContent"]
    (by decide) (by decide) h1
  have h3 := create_element_slot_doc I _ "actions" "action" ["content", "arguments"]
    (by decide) (by decide) h2
  unfold add_input
  simp only []
  have step : ∀ (tag : String) (f : XmlElement → XmlElement) (x : XmlNodes),
      tag ≠ "toast" → tag ≠ "visual" → tag ≠ "binding" → tag ≠ "image" → slot_doc I x →
      slot_doc I (if (get_elements_by_tag_name tag x).length > 0 then modify_nth tag f 0 x
        else x) := by
    intro tag f x a b c d hx
    split
    · exact slot_doc_modify_other I tag f 0 x a b c d hx
    · exact hx
  refine step "action" _ _ (by decide) (by decide) (by decide) (by decide) ?_
  exact step "input" _ _ (by decide) (by decide) (by decide) (by decide) h3

theorem actions_stage_slot_doc (I : List (String × String)) (t : notification_template)
    (xml : XmlNodes) (h : slot_doc I xml) : slot_doc I (actions_stage t xml) := by
  unfold actions_stage
  split
  · exact add_input_slot_doc I xml h
  · split
    · next st_a he =>
      have ha := actions_loop_slot_doc I t _ 0 (.S_OK, xml) st_a h he
      split
      · exact add_input_slot_doc I _ ha
      · exact ha
    · exact h

theorem guarded_pair_slot_doc (I : List (String × String)) (tag : String)
    (f : XmlElement → XmlElement) (xml : XmlNodes)
    (h1 : tag ≠ "toast") (h2 : tag ≠ "visual") (h3 : tag ≠ "binding") (h4 : tag ≠ "image")
    (h : slot_doc I xml) :
    slot_doc I (if (get_elements_by_tag_name tag xml).length > 0 then
        (HRESULT.S_OK, modify_nth tag f 0 xml) else (HRESULT.S_OK, xml)).2 := by
  split
  · exact slot_doc_modify_other I tag f 0 xml h1 h2 h3 h4 h
  · exact h

theorem audio_stage_slot_doc (I : List (String × String)) (t : notification_template)
    (xml : XmlNodes) (h : slot_doc I xml) : slot_doc I (audio_stage t xml) := by
  unfold audio_stage
  split
  · exact h
  · unfold set_audio_field
    exact guarded_pair_slot_doc I "audio" _ _ (by decide) (by decide) (by decide) (by decide)
      (create_element_slot_doc I xml "toast" "audio" _ (by decide) (by decide) h)

theorem toast_attribute_slot_doc (I : List (String × String)) (name value : String)
    (xml : XmlNodes) (h : slot_doc I xml) :
    slot_doc I (if (get_elements_by_tag_name "toast" xml).length > 0 then
        (HRESULT.S_OK, modify_nth "toast" (fun e => e.set_attribute name value) 0 xml)
      else (HRESULT.S_OK, xml)).2 := by
  split
  · exact slot_doc_modify_toast I _ xml
      (appends_of_attrs _ (fun e => set_attribute_frame name value e)) h
  · exact h

theorem duration_stage_slot_doc (I : List (String × String)) (t : notification_template)
    (xml : XmlNodes) (h : slot_doc I xml) : slot_doc I (duration_stage t xml) := by
  unfold duration_stage
  split
  · exact toast_attribute_slot_doc I "duration" _ xml h
  · exact h

theorem modern_stage_slot_doc (modern : Bool) (t : notification_template)
    (h : t.has_image = true) :
    slot_doc [("id", "1"), ("src", "")] (modern_stage modern t) := by
  have h0 := text_stage_slot_doc t h
  cases modern
  · exact h0
  · exact toast_attribute_slot_doc _ "scenario" _ _
      (duration_stage_slot_doc _ t _
        (audio_stage_slot_doc _ t _
          (actions_stage_slot_doc _ t _ (attribution_stage_slot_doc _ t _ h0))))

theorem set_image_field_slot_doc (path : String) (generic circle : Bool) (xml : XmlNodes)
    (h : slot_doc [("id", "1"), ("src", "")] xml) :
    slot_doc (slot_attributes path generic circle) (set_image_field xml path generic circle).2 := by
  have hlen : (get_elements_by_tag_name "image" xml).length > 0 := by
    obtain ⟨A, V, B, X, R, rfl⟩ := h
    simp [get_elements_by_tag_name]
  unfold set_image_field
  simp only []
  rw [if_pos hlen]
  refine slot_doc_modify_image _ _ _ ?_ h
  intro e
  cases generic <;> cases circle <;> exact ⟨rfl, rfl⟩

theorem image_stage_slot_doc (win10 : Bool)
    (t : notification_template) (xml : XmlNodes) (hi : t.has_image = true)
    (h : slot_doc [("id", "1"), ("src", "")] xml) :
    slot_doc (slot_attributes t.image_path_ t.is_toast_generic
        (if win10 then t.is_crop_hint_circle else false)) (image_stage win10 t xml) := by
  unfold image_stage
  rw [if_pos hi]
  exact set_image_field_slot_doc _ _ _ xml h

theorem hero_stage_slot_doc (I : List (String × String)) (win10 : Bool)
    (t : notification_template) (xml : XmlNodes) (h : slot_doc I xml) :
    slot_doc I (hero_stage win10 t xml) := by
  unfold hero_stage
  split
  · unfold set_hero_image
    split
    · exact slot_doc_modify_binding I _ xml (fun e => ⟨rfl, _, rfl⟩) h
    · exact h
  · exact h

theorem slot_attributes_spec (path : String) (generic circle : Bool) :
    ((slot_attributes path generic circle).find? (fun a => a.1 == "src")).map (fun a => a.2)
      = some ("file:///" ++ c_string path) ∧
    ((slot_attributes path generic circle).find? (fun a => a.1 == "placement")).map (fun a => a.2)
      = (if generic then some "app_logo_override" else none) ∧
    ((slot_attributes path generic circle).find? (fun a => a.1 == "hint_crop")).map (fun a => a.2)
      = (if generic && circle then some "circle" else none) := by
  cases generic <;> cases circle <;>
    simp [slot_attributes, XmlElement.set_attribute, XmlElement.set_in,
      XmlElement.append_attribute_text]

theorem slot_doc_first_image (I : List (String × String)) (xml : XmlNodes)
    (h : slot_doc I xml) :
    ∃ rest, get_elements_by_tag_name "image" xml = ⟨"image", I, .nil⟩ :: rest := by
  obtain ⟨A, V, B, X, R, rfl⟩ := h
  exact ⟨get_elements_by_tag_name "image" X ++ get_elements_by_tag_name "image" R,
    by simp [get_elements_by_tag_name]⟩

/-- The image slot of the compiled document, for every context and every template of a kind
with an image slot: its `src` is `file:///` followed by the image path read as a C string. -/
theorem compile_image_slot_c_string (ctx_bridge : context_bridge) (win10 : Bool)
    (t : notification_template) (hi : t.has_image = true) :
    ∃ doc e rest, compile ctx_bridge win10 t = .ok doc ∧
      doc.get_elements_by_tag_name "image" = e :: rest ∧
      e.get_named_item "src" = some ("file:///" ++ c_string t.image_path_) ∧
      e.get_named_item "placement"
        = (if t.is_toast_generic then some "app_logo_override" else none) ∧
      e.get_named_item "hint_crop"
        = (if t.is_toast_generic && (win10 && t.is_crop_hint_circle) then some "circle"
            else none) := by
  have h1 := modern_stage_slot_doc
    (ctx_bridge.is_supporting_modern_features && ctx_bridge.is_enable_modern_features) t hi
  have h2 := image_stage_slot_doc win10 t _ hi h1
  have h3 := hero_stage_slot_doc _ win10 t _ h2
  obtain ⟨rest, hrest⟩ := slot_doc_first_image _ _ h3
  obtain ⟨s1, s2, s3⟩ := slot_attributes_spec t.image_path_ t.is_toast_generic
    (if win10 then t.is_crop_hint_circle else false)
  refine ⟨_, ⟨"image", slot_attributes t.image_path_ t.is_toast_generic
    (if win10 then t.is_crop_hint_circle else false), .nil⟩, rest,
    compile_eq_compiled_document ctx_bridge win10 t, hrest, s1, s2, ?_⟩
  show ((slot_attributes t.image_path_ t.is_toast_generic
      (if win10 then t.is_crop_hint_circle else false)).find? (fun a => a.1 == "hint_crop")).map
        (fun a => a.2) = _
  rw [s3]
  cases win10 <;> simp

theorem c_string_of_no_nul (s : String) (h : ∀ c ∈ s.data, c ≠ Char.ofNat 0) :
    c_string s = s := by
  unfold c_string
  have : s.data.takeWhile (fun c => c != Char.ofNat 0) = s.data := by
    rw [List.takeWhile_eq_self_iff]
    intro c hc
    simpa using h c hc
  rw [this]

/-- Claim C27 as amended: a template of a kind with an image slot whose image path holds no NUL
character and passes the assertion `path.size() < MAX_PATH` of `set_image_field` compiles, in
every context, to a document whose first `image` element (the slot of the skeleton) has as
`src` the image path prefixed with `file:///`; it has `placement="app_logo_override"` exactly
when the template is generic (it has a hero image or asks for the circle crop), and no
`placement` otherwise; it has `hint_crop="circle"` only when the template is generic and asks
for the circle crop (and the system is the anniversary update or later), and no `hint_crop`
otherwise. -/
theorem compile_image_slot (ctx_bridge : context_bridge) (win10 : Bool)
    (t : notification_template) (hi : t.has_image = true)
    (hnul : ∀ c ∈ t.image_path_.data, c ≠ Char.ofNat 0)
    (_hassert : set_image_field_assertion t.image_path_ = true) :
    ∃ doc e rest, compile ctx_bridge win10 t = .ok doc ∧
      doc.get_elements_by_tag_name "image" = e :: rest ∧
      e.get_named_item "src" = some ("file:///" ++ t.image_path_) ∧
      e.get_named_item "placement"
        = (if t.is_toast_generic then some "app_logo_override" else none) ∧
      e.get_named_item "hint_crop"
        = (if t.is_toast_generic && (win10 && t.is_crop_hint_circle) then some "circle"
            else none) := by
  have h := compile_image_slot_c_string ctx_bridge win10 t hi
  rw [c_string_of_no_nul t.image_path_ hnul] at h
  exact h

/-- Witness of claim C27 as amended: the example template with the image path `C:/logo.png`
and the circle crop. -/
theorem compile_image_slot_witness :
    image_toast.has_image = true ∧
    (∀ c ∈ image_toast.image_path_.data, c ≠ Char.ofNat 0) ∧
    set_image_field_assertion image_toast.image_path_ = true ∧
    ∃ doc e rest, compile (context_bridge.make true true true) true image_toast = .ok doc ∧
      doc.get_elements_by_tag_name "image" = e :: rest ∧
      e.get_named_item "src" = some "file:///C:/logo.png" ∧
      e.get_named_item "placement" = some "app_logo_override" ∧
      e.get_named_item "hint_crop" = some "circle" :=
  ⟨by decide, by decide, by decide,
    compile_image_slot (context_bridge.make true true true) true image_toast (by decide)
      (by decide) (by decide)⟩

/-- Claim C27 as stated fails: the template has an image slot and its image path `C:/a`, NUL,
`b.png` passes the assertion of `set_image_field`, but the `src` of the compiled image element
is `file:///C:/a`, which is not the image path prefixed with `file:///`. -/
theorem compile_image_path_cut_at_nul :
    nul_toast.has_image = true ∧
    set_image_field_assertion nul_toast.image_path_ = true ∧
    (compile (context_bridge.make true true true) true nul_toast).toOption.map
      (fun doc => (doc.get_elements_by_tag_name "image").map
        (fun e => e.get_named_item "src")) = some [some "file:///C:/a"] ∧
    "file:///C:/a" ≠ "file:///" ++ nul_toast.image_path_ := by
  refine ⟨by decide, by decide, ?_, by decide⟩
  rfl

end xml_notifcation_field

/-! ## Theorems: showing, ids and the sweep -/

/-- Without a failing step, `show_steps` is the member `show_`. -/
theorem show_steps_none (s : notification) (p : show_platform) (toast : notification_template)
    (handler_present : Bool) :
    s.show_steps p toast handler_present none = s.show_ p toast handler_present := by
  unfold notification.show_steps notification.show_impl_steps notification.show_
    notification.show_impl
  cases s.is_initialized <;> cases handler_present <;> try rfl
  simp only [Bool.not_true, Bool.false_eq_true, if_false,
    xml_notifcation_field.compile_eq_compiled_document]
  have h1 : (none == some show_step.markup_compilation) = false := rfl
  have h2 : (none == some show_step.notification_creation) = false := rfl
  have h3 : (none == some show_step.event_wiring) = false := rfl
  have h4 : (none == some show_step.platform_show) = false := rfl
  have h5 : (!SUCCEEDED HRESULT.S_OK) = false := rfl
  simp only [h1, h2, h3, h4, h5, check_hresult, SUCCEEDED, beq_self_eq_true, if_true,
    Bool.false_eq_true, if_false, List.append_assoc, List.singleton_append]
  rfl

/-- Whichever platform step throws on an initialized service with a handler, `show` returns
`-1`, the service is as it was, and the value written through `error` is `no_error`. -/
theorem show_steps_thrown (s : notification) (p : show_platform) (toast : notification_template)
    (failing : show_step) (hinit : s.is_initialized = true) :
    (s.show_steps p toast true (some failing)).id = -1 ∧
    (s.show_steps p toast true (some failing)).service = s ∧
    (s.show_steps p toast true (some failing)).error = .no_error := by
  unfold notification.show_steps notification.show_impl_steps
  simp only [hinit, Bool.not_true, Bool.false_eq_true, if_false,
    xml_notifcation_field.compile_eq_compiled_document]
  cases failing <;> exact ⟨rfl, rfl, rfl⟩

/-- Claim C22 (the code at the failing input): the example service is initialized and the
handler is present; whichever platform step of `show` throws, `show` returns `-1` and leaves
the service as it was, but the value written through `error` is `no_error`. When it is
`notifier.Show` that throws, the expiration time was set and the events were subscribed
before. -/
theorem show_failing_leaves_no_error (failing : show_step) :
    example_service.is_initialized = true ∧
    (example_service.show_steps example_platform example_toast true (some failing)).id = -1 ∧
    (example_service.show_steps example_platform example_toast true (some failing)).service
      = example_service ∧
    (example_service.show_steps example_platform example_toast true (some failing)).error
      = .no_error ∧
    (example_service.show_steps example_platform example_toast true (some .platform_show)).calls
      = [.ExpirationTime 1 6000, .subscribe 1 0 7] ∧
    (example_service.show_steps example_platform example_toast true none).id = 7 := by
  cases failing <;> exact ⟨rfl, rfl, rfl, rfl, rfl, rfl⟩

theorem map_find_emplace_self {β : Type} (m : List (Int × β)) (k : Int) (v : β)
    (h : map_find m k = none) : map_find (map_emplace m k v) k = some v := by
  induction m with
  | nil => simp [map_emplace, map_find]
  | cons e m ih =>
    rw [map_find_cons] at h
    by_cases hk : e.1 = k
    · simp [hk] at h
    · rw [if_neg hk] at h
      simp only [map_emplace]
      split
      · rw [map_find_cons]; simp
      · rw [if_neg (fun h1 => hk h1.symm), map_find_cons, if_neg hk]
        exact ih h

theorem map_emplace_of_present {β : Type} (m : List (Int × β)) (k : Int) (v n : β)
    (hs : map_sorted m) (h : map_find m k = some n) : map_emplace m k v = m := by
  induction m with
  | nil => simp [map_find] at h
  | cons e m ih =>
    have hs1 : map_sorted m := (List.pairwise_cons.mp hs).2
    have hlt : ∀ x ∈ m, e.1 < x.1 := (List.pairwise_cons.mp hs).1
    rw [map_find_cons] at h
    simp only [map_emplace]
    by_cases hk : e.1 = k
    · rw [if_neg (by omega), if_pos hk.symm]
    · rw [if_neg hk] at h
      have hmem := mem_of_map_find m k n h
      have := hlt _ hmem
      simp only at this
      rw [if_neg (by omega), if_neg (fun h1 => hk h1.symm), ih hs1 h]

/-- On an initialized service and with a handler, `show` succeeds on every template: the id is
the first field of the GUID, the two maps get their entry and `error` is `no_error`. -/
theorem show_initialized (s : notification) (p : show_platform) (toast : notification_template)
    (hinit : s.is_initialized = true) :
    s.show_ p toast true =
      ⟨((p.guid_Data1 % 2 ^ 32 : Nat) : Int),
        { s with
          toast_mapper := map_emplace s.toast_mapper ((p.guid_Data1 % 2 ^ 32 : Nat) : Int) p.new_handle,
          notifys := map_emplace s.notifys ((p.guid_Data1 % 2 ^ 32 : Nat) : Int)
            (notify.make
              (map_find (map_emplace s.toast_mapper ((p.guid_Data1 % 2 ^ 32 : Nat) : Int) p.new_handle)
                ((p.guid_Data1 % 2 ^ 32 : Nat) : Int))
              p.activated_token p.dismissed_token p.failed_token) },
        .no_error,
        (if toast.expiration_ > 0 then
            [platform_call.ExpirationTime p.new_handle (p.now + toast.expiration_)]
          else []) ++
          [platform_call.subscribe p.new_handle 0 ((p.guid_Data1 % 2 ^ 32 : Nat) : Int),
            platform_call.Show p.new_handle]⟩ := by
  unfold notification.show_ notification.show_impl
  simp only [hinit, xml_notifcation_field.compile_eq_compiled_document, Bool.not_true,
    Bool.false_eq_true, if_false]

/-- Claim C23 as amended: a `show` on an initialized service with a handler succeeds and
returns the first field of the generated GUID. When that value is a key of neither the registry
nor the static `toast_mapper` at the time of the call, the registry afterwards maps the returned
id to the newly shown notification (its native object and its three tokens); when it is already
a key of the registry, the registry is left as it was, so the returned id still names the older
notification. -/
theorem show_registers_fresh_id (s : notification) (p : show_platform)
    (toast : notification_template) (hinit : s.is_initialized = true)
    (hs : map_sorted s.notifys) :
    (s.show_ p toast true).error = .no_error ∧
    (s.show_ p toast true).id = ((p.guid_Data1 % 2 ^ 32 : Nat) : Int) ∧
    (map_find s.notifys (s.show_ p toast true).id = none →
      map_find s.toast_mapper (s.show_ p toast true).id = none →
      map_find (s.show_ p toast true).service.notifys (s.show_ p toast true).id
        = some (notify.make (some p.new_handle) p.activated_token p.dismissed_token
            p.failed_token)) ∧
    (∀ n, map_find s.notifys (s.show_ p toast true).id = some n →
      (s.show_ p toast true).service.notifys = s.notifys) := by
  rw [show_initialized s p toast hinit]
  refine ⟨rfl, rfl, ?_, ?_⟩
  · intro h1 h2
    simp only [] at h1 h2 ⊢
    rw [map_find_emplace_self _ _ _ h1, map_find_emplace_self _ _ _ h2]
  · intro n h1
    simp only [] at h1 ⊢
    exact map_emplace_of_present _ _ _ n hs h1

/-- Witness of claim C23 as amended: the first `show` on the example service returns 7 and
registers the native object 1 with the tokens 11, 12 and 13 under it. -/
theorem show_registers_fresh_id_witness :
    example_service.is_initialized = true ∧ map_sorted example_service.notifys ∧
    (example_service.show_ example_platform example_toast true).id = 7 ∧
    map_find (example_service.show_ example_platform example_toast true).service.notifys
        (example_service.show_ example_platform example_toast true).id
      = some (notify.make (some 1) 11 12 13) :=
  ⟨by decide, by decide,
    (show_registers_fresh_id example_service example_platform example_toast (by decide)
      (by decide)).2.1,
    (show_registers_fresh_id example_service example_platform example_toast (by decide)
      (by decide)).2.2.1 (by decide) (by decide)⟩

/-- Claim C23 as stated fails: the entry 7 is in the registry, a second `show` whose GUID has
the first field 7 succeeds and returns 7, and the registry still maps 7 to the first
notification (native object 1, tokens 11, 12, 13), not to the newly shown one. -/
theorem show_colliding_id :
    example_shown_service.is_initialized = true ∧
    map_find example_shown_service.notifys 7 = some (notify.make (some 1) 11 12 13) ∧
    (example_shown_service.show_ colliding_platform example_toast true).id = 7 ∧
    (example_shown_service.show_ colliding_platform example_toast true).error = .no_error ∧
    map_find (example_shown_service.show_ colliding_platform example_toast true).service.notifys 7
      = some (notify.make (some 1) 11 12 13) := by
  decide

/-- Claim C24: a `show` on an initialized service with a handler succeeds (the error output is
`no_error`), and the id it returns is the first field of the GUID, an unsigned 32-bit value
widened to the signed 64-bit id: it is not `-1` and lies in `[0, 2^32)`. -/
theorem show_id_range (s : notification) (p : show_platform) (toast : notification_template)
    (hinit : s.is_initialized = true) :
    (s.show_ p toast true).error = .no_error ∧
    (s.show_ p toast true).id = ((p.guid_Data1 % 2 ^ 32 : Nat) : Int) ∧
    (s.show_ p toast true).id ≠ -1 ∧
    0 ≤ (s.show_ p toast true).id ∧ (s.show_ p toast true).id < 2 ^ 32 := by
  rw [show_initialized s p toast hinit]
  have h := Nat.mod_lt p.guid_Data1 (by decide : 0 < 2 ^ 32)
  refine ⟨rfl, rfl, ?_, ?_, ?_⟩
  · simp only []; omega
  · simp only []; omega
  · simp only []; omega

/-- Witness of claim C24: the example call returns the id 7 with the error output `no_error`. -/
theorem show_id_range_witness :
    example_service.is_initialized = true ∧
    (example_service.show_ example_platform example_toast true).error = .no_error ∧
    (example_service.show_ example_platform example_toast true).id = 7 ∧
    (example_service.show_ example_platform example_toast true).id ≠ -1 :=
  ⟨by decide, (show_id_range example_service example_platform example_toast (by decide)).1,
    (show_id_range example_service example_platform example_toast (by decide)).2.1,
    (show_id_range example_service example_platform example_toast (by decide)).2.2.1⟩

theorem mark_entry_of_absent (l : List (Int × notify)) (id : Int)
    (h : ∀ e ∈ l, e.1 ≠ id) : notification.mark_entry l id = l := by
  unfold notification.mark_entry
  conv_rhs => rw [← List.map_id l]
  apply List.map_congr_left
  intro e he
  simp [h e he]

theorem mark_entry_of_find_none (l : List (Int × notify)) (id : Int)
    (h : map_find l id = none) : notification.mark_entry l id = l := by
  apply mark_entry_of_absent
  intro e he hk
  induction l with
  | nil => simp at he
  | cons x l ih =>
    rw [map_find_cons] at h
    by_cases hx : x.1 = id
    · simp [hx] at h
    · rw [if_neg hx] at h
      rcases List.mem_cons.1 he with rfl | he
      · exact hx hk
      · exact ih h he

/-- The registry and the platform calls of `mark_as_ready_for_deletion(id)`: the entries that
are not ready survive the sweep, and the entry `id` among them is marked. -/
theorem mark_notifys (s : notification) (id : Int) :
    (s.mark_as_ready_for_deletion id).1.notifys
      = notification.mark_entry (s.notifys.filter (fun e => !e.2.is_ready_for_deletion)) id ∧
    (s.mark_as_ready_for_deletion id).2 = (notification.sweep s.notifys).2 := by
  unfold notification.mark_as_ready_for_deletion
  simp only []
  split
  · refine ⟨?_, rfl⟩
    show notification.mark_entry (notification.sweep s.notifys).1 id = _
    rw [sweep_fst]
  · next h =>
    refine ⟨?_, rfl⟩
    rw [sweep_fst] at h
    show (notification.sweep s.notifys).1 = _
    rw [sweep_fst, mark_entry_of_find_none _ id h]

theorem filter_mark_entry (l : List (Int × notify)) (id : Int)
    (h : ∀ e ∈ l, e.2.is_ready_for_deletion = false) :
    (notification.mark_entry l id).filter (fun e => !e.2.is_ready_for_deletion)
      = map_erase l id := by
  induction l with
  | nil => rfl
  | cons x l ih =>
    have hx := h x (List.mem_cons_self _ _)
    have ih1 := ih (fun e he => h e (List.mem_cons_of_mem _ he))
    unfold notification.mark_entry at ih1 ⊢
    by_cases hk : x.1 = id
    · simp [map_erase, hk, notify.mark_as_ready_for_deletion, notify.is_ready_for_deletion] at ih1 ⊢
      exact ih1
    · simp [map_erase, hk, hx] at ih1 ⊢
      exact ih1

theorem map_erase_absent (l : List (Int × notify)) (id : Int) :
    ∀ e ∈ map_erase l id, e.1 ≠ id := by
  intro e he
  have := (List.mem_filter.1 he).2
  simpa using this

theorem map_erase_mark_entry (l : List (Int × notify)) (id : Int) :
    map_erase (notification.mark_entry l id) id = map_erase l id := by
  induction l with
  | nil => rfl
  | cons x l ih =>
    unfold notification.mark_entry at ih ⊢
    by_cases hk : x.1 = id
    · simp [map_erase, hk] at ih ⊢
      exact ih
    · simp [map_erase, hk] at ih ⊢
      exact ih

theorem filter_not_ready (l : List (Int × notify)) :
    ∀ e ∈ l.filter (fun e => !e.2.is_ready_for_deletion), e.2.is_ready_for_deletion = false := by
  intro e he
  have := (List.mem_filter.1 he).2
  simpa using this

theorem map_find_mark_entry_other (m : List (Int × notify)) (id k : Int) (h : k ≠ id) :
    map_find (notification.mark_entry m id) k = map_find m k := by
  induction m with
  | nil => rfl
  | cons e m ih =>
    have : notification.mark_entry (e :: m) id
        = (if e.1 == id then (e.1, e.2.mark_as_ready_for_deletion) else e)
          :: notification.mark_entry m id := rfl
    rw [this, map_find_cons, map_find_cons, ih]
    by_cases hk : e.1 = id
    · simp [hk, Ne.symm h]
    · simp [hk]

/-- Claim C25 as amended: for a registry with the entry `id` not yet ready, one application of
`mark_as_ready_for_deletion(id)` leaves the entry present and marked ready; the second
application sweeps that entry out, so the registry after two applications is the registry after
one application without the entry `id`; every further application leaves that registry as it
is. -/
theorem mark_twice_erases_entry (s : notification) (id : Int) (n : notify)
    (hs : map_sorted s.notifys) (hf : map_find s.notifys id = some n)
    (hn : n.is_ready_for_deletion = false) :
    map_find (s.mark_as_ready_for_deletion id).1.notifys id
      = some n.mark_as_ready_for_deletion ∧
    ((s.mark_as_ready_for_deletion id).1.mark_as_ready_for_deletion id).1.notifys
      = map_erase (s.mark_as_ready_for_deletion id).1.notifys id ∧
    map_find ((s.mark_as_ready_for_deletion id).1.mark_as_ready_for_deletion id).1.notifys id
      = none ∧
    ((((s.mark_as_ready_for_deletion id).1.mark_as_ready_for_deletion id).1
        ).mark_as_ready_for_deletion id).1.notifys
      = ((s.mark_as_ready_for_deletion id).1.mark_as_ready_for_deletion id).1.notifys := by
  have h1 := (mark_notifys s id).1
  have h2 := (mark_notifys (s.mark_as_ready_for_deletion id).1 id).1
  have h3 := (mark_notifys ((s.mark_as_ready_for_deletion id).1.mark_as_ready_for_deletion id).1
    id).1
  have hF := filter_not_ready s.notifys
  have e2 : ((s.mark_as_ready_for_deletion id).1.mark_as_ready_for_deletion id).1.notifys
      = map_erase (s.notifys.filter (fun e => !e.2.is_ready_for_deletion)) id := by
    rw [h2, h1, filter_mark_entry _ id hF]
    exact mark_entry_of_absent _ id (map_erase_absent _ id)
  refine ⟨?_, ?_, ?_, ?_⟩
  · rw [h1, map_find_mark_entry,
      map_find_filter s.notifys (fun n => !n.is_ready_for_deletion) id hs, hf]
    simp [Option.filter, hn]
  · rw [e2, h1, map_erase_mark_entry]
  · rw [e2, map_find_erase_self]
  · rw [h3, e2]
    have hnr : ∀ e ∈ map_erase (s.notifys.filter (fun e => !e.2.is_ready_for_deletion)) id,
        e.2.is_ready_for_deletion = false := by
      intro e he
      exact hF e (List.mem_filter.1 he).1
    rw [List.filter_eq_self.2 (by intro e he; simp [hnr e he])]
    exact mark_entry_of_absent _ id (map_erase_absent _ id)

/-- Witness of claim C25 as amended: the entry 7 of the example service is ready after one
application and gone after two. -/
theorem mark_twice_erases_entry_witness :
    map_sorted example_shown_service.notifys ∧
    map_find example_shown_service.notifys 7 = some (notify.make (some 1) 11 12 13) ∧
    (notify.make (some 1) 11 12 13).is_ready_for_deletion = false ∧
    map_find (example_shown_service.mark_as_ready_for_deletion 7).1.notifys 7
      = some (notify.make (some 1) 11 12 13).mark_as_ready_for_deletion ∧
    map_find ((example_shown_service.mark_as_ready_for_deletion 7).1.mark_as_ready_for_deletion
      7).1.notifys 7 = none :=
  ⟨by decide, by decide, by decide,
    (mark_twice_erases_entry example_shown_service 7 (notify.make (some 1) 11 12 13) (by decide)
      (by decide) (by decide)).1,
    (mark_twice_erases_entry example_shown_service 7 (notify.make (some 1) 11 12 13) (by decide)
      (by decide) (by decide)).2.2.1⟩

/-- Claim C25 as stated fails: the entry 7 is registered; after one application of
`mark_as_ready_for_deletion(7)` the registry holds the entry 7 marked ready, after two
applications the registry is empty. -/
theorem mark_twice_differs_from_once :
    map_find example_shown_service.notifys 7 = some (notify.make (some 1) 11 12 13) ∧
    (example_shown_service.mark_as_ready_for_deletion 7).1.notifys
      = [(7, (notify.make (some 1) 11 12 13).mark_as_ready_for_deletion)] ∧
    ((example_shown_service.mark_as_ready_for_deletion 7).1.mark_as_ready_for_deletion 7).1.notifys
      = [] := by
  decide

theorem remove_tokens_of_ready (n : notify) (hr : n.is_ready_for_deletion = true)
    (hp : n._previously_token_removed = false) :
    n.remove_tokens.2 ++ n.remove_tokens.1.destroy
      = (match n._notify with
         | some h => n.unsubscribe_calls h
         | none => []) := by
  have hr1 : n._ready_for_deletion = true := hr
  cases hh : n._notify <;>
    simp [notify.remove_tokens, notify.destroy, notify.unsubscribe_calls, hr1, hp, hh]

/-- Claim C26: for a registry in its invariant and every key `k`, after
`mark_as_ready_for_deletion(id)` an entry that was ready is erased, and the platform calls made
for it are its three unsubscribing calls; an entry that was not ready is kept with its handle
and tokens, unchanged except that the entry `id` is now marked ready; a key that was absent
stays absent (so `id` is marked exactly when it is still present after the sweep); and an
entry that is ready afterwards is the entry `id`. -/
theorem mark_sweep_spec (s : notification) (id : Int) (hinv : registry_inv s.notifys) (k : Int) :
    map_find (s.mark_as_ready_for_deletion id).1.notifys k =
      (match map_find s.notifys k with
       | none => none
       | some n =>
         if n.is_ready_for_deletion then none
         else if k = id then some { n with _ready_for_deletion := true }
         else some n) ∧
    calls_for k (s.mark_as_ready_for_deletion id).2 =
      (match map_find s.notifys k with
       | none => []
       | some n =>
         if n.is_ready_for_deletion then
           (match n._notify with
            | some h => n.unsubscribe_calls h
            | none => [])
         else []) ∧
    (∀ n1, map_find (s.mark_as_ready_for_deletion id).1.notifys k = some n1 →
      n1.is_ready_for_deletion = true → k = id) := by
  have hs := hinv.1
  have h1 := (mark_notifys s id).1
  have h2 := (mark_notifys s id).2
  have hfind : map_find (s.mark_as_ready_for_deletion id).1.notifys k =
      (match map_find s.notifys k with
       | none => none
       | some n =>
         if n.is_ready_for_deletion then none
         else if k = id then some { n with _ready_for_deletion := true }
         else some n) := by
    rw [h1]
    by_cases hk : k = id
    · subst hk
      rw [map_find_mark_entry,
        map_find_filter s.notifys (fun n => !n.is_ready_for_deletion) k hs]
      cases hm : map_find s.notifys k with
      | none => rfl
      | some n => cases hr : n.is_ready_for_deletion <;>
          simp [hr, Option.filter, notify.mark_as_ready_for_deletion]
    · rw [map_find_mark_entry_other _ id k hk,
        map_find_filter s.notifys (fun n => !n.is_ready_for_deletion) k hs]
      cases hm : map_find s.notifys k with
      | none => rfl
      | some n => cases hr : n.is_ready_for_deletion <;> simp [hr, hk, Option.filter]
  refine ⟨hfind, ?_, ?_⟩
  · rw [h2]
    cases hm : map_find s.notifys k with
    | none => exact calls_for_sweep_of_find_none _ k hm
    | some n =>
      rw [sweep_calls_present _ k n hs hm]
      by_cases hr : n.is_ready_for_deletion = true
      · rw [if_pos hr]
        simp only [hr, if_true]
        exact remove_tokens_of_ready n hr (hinv.2 _ (mem_of_map_find _ k n hm))
      · rw [if_neg hr]
        simp only [hr, Bool.false_eq_true, if_false]
  · intro n1 hn1 hr1
    rw [hfind] at hn1
    cases hm : map_find s.notifys k with
    | none => rw [hm] at hn1; cases hn1
    | some n =>
      rw [hm] at hn1
      by_contra hk
      cases hr : n.is_ready_for_deletion
      · simp [hr, hk] at hn1
        subst hn1
        rw [hr] at hr1
        cases hr1
      · simp [hr] at hn1

/-- Witness of claim C26: the entry 7 of the example service is ready; the next
`mark_as_ready_for_deletion(7)` erases it and makes its three unsubscribing calls. -/
theorem mark_sweep_spec_witness :
    registry_inv example_ready_service.notifys ∧
    map_find (example_ready_service.mark_as_ready_for_deletion 7).1.notifys 7 = none ∧
    calls_for 7 (example_ready_service.mark_as_ready_for_deletion 7).2
      = [.Activated_remove 1 11, .Dismissed_remove 1 12, .Failed_remove 1 13] :=
  ⟨⟨by decide, by decide⟩,
    (mark_sweep_spec example_ready_service 7 ⟨by decide, by decide⟩ 7).1,
    (mark_sweep_spec example_ready_service 7 ⟨by decide, by decide⟩ 7).2.1⟩

/-! ## Theorems: the action arguments, `make_aumi` and the bounds of the action list -/

/-- Claim C28: for `i` in `0 .. 4` the arguments string that the compiler writes for the action
button `i` is not empty, differs from `action=reply` and is converted back to `i` by
`std::stoi`, so the `Activated` lambda called with it makes the handler call `activated(i)`
(and then reaches the mark). -/
theorem action_arguments_round_trip (i : Nat) (hi : i < 5) (textBox : Option String) :
    xml_notifcation_field.format_index i ≠ "" ∧
    xml_notifcation_field.format_index i ≠ "action=reply" ∧
    stoi (xml_notifcation_field.format_index i) = some (i : Int) ∧
    notification.activated_lambda (some ⟨xml_notifcation_field.format_index i, textBox⟩)
      = .ok ([.activated_idx (i : Int)], true) := by
  interval_cases i <;> refine ⟨by decide, by decide, by decide, ?_⟩ <;> cases textBox <;> rfl

/-- Witness of claim C28: the button 3. -/
theorem action_arguments_round_trip_witness :
    (3 : Nat) < 5 ∧ xml_notifcation_field.format_index 3 ≠ "" ∧
    xml_notifcation_field.format_index 3 ≠ "action=reply" ∧
    stoi (xml_notifcation_field.format_index 3) = some (3 : Int) ∧
    notification.activated_lambda (some ⟨xml_notifcation_field.format_index 3, none⟩)
      = .ok ([.activated_idx (3 : Int)], true) :=
  ⟨by decide, action_arguments_round_trip 3 (by decide) none⟩

theorem string_length_pos_iff (s : String) : s.length > 0 ↔ s ≠ "" := by
  cases s with
  | mk d =>
    cases d with
    | nil => simp [String.length]
    | cons c cs =>
      simp only [String.length, List.length_cons, gt_iff_lt, Nat.zero_lt_succ, ne_eq, true_iff]
      intro h
      have := congrArg String.length h
      simp [String.length] at this

/-- Claim C29: `make_aumi(c, p, s, v)` is `c.p` when `s` is empty, `c.p.s` when `s` is not
empty and `v` is empty, and `c.p.s.v` when both are not empty. -/
theorem make_aumi_spec (c p s v : String) :
    notification.make_aumi c p s v =
      if s = "" then c ++ "." ++ p
      else if v = "" then c ++ "." ++ p ++ "." ++ s
      else c ++ "." ++ p ++ "." ++ s ++ "." ++ v := by
  by_cases hs : s = ""
  · subst hs
    simp [notification.make_aumi]
  · have h1 := (string_length_pos_iff s).2 hs
    by_cases hv : v = ""
    · subst hv
      simp [notification.make_aumi, h1, hs, String.append_assoc]
    · have h2 := (string_length_pos_iff v).2 hv
      simp [notification.make_aumi, h1, h2, hs, hv, String.append_assoc]

theorem shift_left_accesses_in_bounds (count i steps : Nat) (hc : 0 < count)
    (h : i + steps < 5) :
    ∀ acc ∈ actions_t.shift_left_accesses count i steps, acc.in_bounds = true := by
  induction steps generalizing i with
  | zero => intro acc h; simp [actions_t.shift_left_accesses] at h
  | succ n ih =>
    intro acc hacc
    simp only [actions_t.shift_left_accesses, List.mem_cons] at hacc
    rcases hacc with rfl | rfl | rfl | hacc
    · simpa [actions_access.in_bounds] using hc
    · simp [actions_access.in_bounds]; omega
    · simp [actions_access.in_bounds]; omega
    · exact ih (i + 1) (by omega) acc hacc

theorem add_action_ilist_bounds (a : actions_t) (ilist : List String) (h : a.actions_count_ ≤ 5) :
    (a.add_action_ilist ilist).actions_count_ ≤ 5 ∧
    ∀ acc ∈ a.add_action_ilist_accesses ilist, acc.in_bounds = true := by
  induction ilist generalizing a with
  | nil => exact ⟨h, by intro acc h; simp [actions_t.add_action_ilist_accesses] at h⟩
  | cons l rest ih =>
    by_cases h5 : a.actions_count_ = 5
    · simp [actions_t.add_action_ilist, actions_t.add_action_ilist_accesses, h5]
    · have hlt : a.actions_count_ < 5 := by omega
      obtain ⟨i1, i2⟩ := ih ⟨a.actions_count_ + 1, a.data.set a.actions_count_ l⟩ (by show a.actions_count_ + 1 ≤ 5; omega)
      simp only [actions_t.add_action_ilist, actions_t.add_action_ilist_accesses, beq_iff_eq, h5,
        if_false]
      refine ⟨i1, ?_⟩
      intro acc hacc
      rcases List.mem_cons.1 hacc with rfl | hacc
      · simpa [actions_access.in_bounds] using hlt
      · exact i2 acc hacc

theorem call_bounds (a : actions_t) (hi : Bool) (c : actions_call) (h : a.actions_count_ ≤ 5) :
    (a.call hi c).actions_count_ ≤ 5 ∧
    ∀ acc ∈ a.call_accesses hi c, acc.in_bounds = true := by
  cases c with
  | add_action label =>
    simp only [actions_t.call, actions_t.call_accesses, actions_t.add_action,
      actions_t.add_action_accesses]
    split
    · next hg =>
      simp only [Bool.and_eq_true, bne_iff_ne, ne_eq] at hg
      have hlt : a.actions_count_ < 5 := by omega
      refine ⟨by show a.actions_count_ + 1 ≤ 5; omega, ?_⟩
      intro acc hacc
      simp only [List.mem_singleton] at hacc
      subst hacc
      simpa [actions_access.in_bounds] using hlt
    · exact ⟨h, by intro acc hacc; simp at hacc⟩
  | add_action_ilist ilist => exact add_action_ilist_bounds a ilist h
  | remove_action pos =>
    simp only [actions_t.call, actions_t.call_accesses, actions_t.remove_action,
      actions_t.remove_action_accesses]
    split
    · exact ⟨h, by intro acc hacc; simp at hacc⟩
    · next hg =>
      have hpos : pos < a.actions_count_ := by omega
      refine ⟨by simp only []; omega, ?_⟩
      intro acc hacc
      rcases List.mem_append.1 hacc with hacc | hacc
      · exact shift_left_accesses_in_bounds _ _ _ (by omega) (by omega) acc hacc
      · simp only [List.mem_cons, List.mem_singleton, List.not_mem_nil, or_false, or_self] at hacc
        subst hacc
        simp [actions_access.in_bounds]; omega
  | set_action_label pos label =>
    simp only [actions_t.call, actions_t.call_accesses, actions_t.set_action_label,
      actions_t.set_action_label_accesses]
    split
    · exact ⟨h, by intro acc hacc; simp at hacc⟩
    · next hg =>
      refine ⟨h, ?_⟩
      intro acc hacc
      simp only [List.mem_singleton] at hacc
      subst hacc
      simp [actions_access.in_bounds]; omega
  | clear => exact ⟨by simp [actions_t.call, actions_t.clear], by intro acc hacc; simp [actions_t.call_accesses] at hacc⟩

theorem run_calls_bounds (a : actions_t) (hi : Bool) (calls : List actions_call)
    (h : a.actions_count_ ≤ 5) :
    (a.run_calls hi calls).1.actions_count_ ≤ 5 ∧
    ∀ acc ∈ (a.run_calls hi calls).2, acc.in_bounds = true := by
  induction calls generalizing a with
  | nil => exact ⟨h, by intro acc hacc; simp [actions_t.run_calls] at hacc⟩
  | cons c rest ih =>
    obtain ⟨c1, c2⟩ := call_bounds a hi c h
    obtain ⟨i1, i2⟩ := ih (a.call hi c) c1
    refine ⟨i1, ?_⟩
    intro acc hacc
    simp only [actions_t.run_calls, List.mem_append] at hacc
    rcases hacc with hacc | hacc
    · exact c2 acc hacc
    · exact i2 acc hacc

/-- Claim C30: a freshly constructed template has no input and the initial action list; for
every sequence of calls of `add_action` (both overloads), `remove_action`, `set_action_label`
and `clear` on it, `actions.count()` stays within `0 .. 5`, every read and every write of the
label array uses an index below 5, and every `actions_count_ - 1` or `--actions_count_` is
applied to a counter that is not zero. -/
theorem actions_calls_stay_in_bounds (calls : List actions_call) :
    notification_template.mk_default.has_input = false ∧
    notification_template.mk_default.actions = actions_t.init ∧
    (actions_t.init.run_calls false calls).1.count ≤ 5 ∧
    ∀ acc ∈ (actions_t.init.run_calls false calls).2,
      match acc with
      | .read index => index < 5
      | .write index => index < 5
      | .decrement count => 0 < count := by
  refine ⟨rfl, rfl, ?_⟩
  obtain ⟨h1, h2⟩ := run_calls_bounds actions_t.init false calls (by decide)
  refine ⟨h1, ?_⟩
  intro acc hacc
  have := h2 acc hacc
  cases acc <;> simpa [actions_access.in_bounds] using this

end rainy
